import Mathlib

/-!
# go-6502-emulator: a shallow embedding of the CPU core

Machine integers are natural numbers; every place where the Go code can wrap
(`byte` and `uint16` arithmetic) carries an explicit `% 256` or `% 65536`.
Stateful code is written in state-passing style: a method on `*BaseCPU`
becomes a function returning the new `BaseCPU`, and a method that also returns
a value returns a pair.

The `Bus` is an interface value in the source.  Here it is a device state of an
arbitrary type together with its two methods, so a `Read` may change the device
(memory-mapped IO).  Every call made through the interface is also recorded in
`log` (most recent first), which lets the theorems speak about which bus
accesses a function issues.
-/

set_option maxRecDepth 8192

namespace core

/-! ## pkg/core/bus.go -/

/-- One call made through the `Bus` interface. -/
inductive Access where
  | read (addr : Nat)
  | write (addr : Nat) (data : Nat)
  deriving DecidableEq

/-- The `Bus` interface value: the state of the device behind it, the two
methods `Read` and `Write` of that device, and the record of the calls made. -/
structure Bus (β : Type) where
  dev : β
  readFn : β → Nat → Nat × β
  writeFn : β → Nat → Nat → β
  log : List Access

variable {β : Type}

/-- Go `Bus.Read(addr)`: the byte returned and the bus afterwards. -/
def Bus.Read (b : Bus β) (addr : Nat) : Nat × Bus β :=
  ((b.readFn b.dev addr).1 % 256,
   { b with dev := (b.readFn b.dev addr).2, log := Access.read addr :: b.log })

/-- Go `Bus.Write(addr, data)`. -/
def Bus.Write (b : Bus β) (addr data : Nat) : Bus β :=
  { b with dev := b.writeFn b.dev addr data, log := Access.write addr data :: b.log }

/-- The `SimpleRAM` of the tests: `memory [0x10000]byte`. -/
abbrev SimpleRAM := Nat → Nat

/-- Go `SimpleRAM.Read`. -/
def SimpleRAM.Read (r : SimpleRAM) (addr : Nat) : Nat × SimpleRAM := (r addr, r)

/-- Go `SimpleRAM.Write`. -/
def SimpleRAM.Write (r : SimpleRAM) (addr data : Nat) : SimpleRAM :=
  fun a => if a = addr then data else r a

/-- A bus backed by a `SimpleRAM` with the given content. -/
def ramBus (memory : SimpleRAM) : Bus SimpleRAM :=
  { dev := memory, readFn := SimpleRAM.Read, writeFn := SimpleRAM.Write, log := [] }

/-! ## pkg/core/variant.go -/

/-- Go `type Variant int`. -/
abbrev Variant := Int

def VariantNMOS : Variant := 0

def VariantWDC65C02 : Variant := 1

/-- Go `Variant.ResetCycles`. -/
def ResetCycles (v : Variant) : Nat :=
  if v = VariantNMOS then 6
  else if v = VariantWDC65C02 then 7
  else 6

/-- Go `Variant.HasJMPIndirectBug`. -/
def HasJMPIndirectBug (v : Variant) : Bool := v == VariantNMOS

/-- Go `Variant.ClearsDecimalOnInterrupt`. -/
def ClearsDecimalOnInterrupt (v : Variant) : Bool := v == VariantWDC65C02

/-! ## pkg/core/cpu.go -/

/-- The state of a 6502-family processor. -/
structure BaseCPU (β : Type) where
  PC : Nat
  SP : Nat
  A : Nat
  X : Nat
  Y : Nat
  Status : Nat
  Bus : core.Bus β
  Cycles : Nat
  Halted : Bool
  NMIPending : Bool
  IRQPending : Bool
  ResetPending : Bool
  Variant : core.Variant

def FlagCarry : Nat := 0x01

def FlagZero : Nat := 0x02

def FlagInterruptDisable : Nat := 0x04

def FlagDecimal : Nat := 0x08

def FlagBreak : Nat := 0x10

def FlagUnused : Nat := 0x20

def FlagOverflow : Nat := 0x40

def FlagNegative : Nat := 0x80

/-- Go `NewBaseCPU`: the fields not listed in the Go literal are zero values. -/
def NewBaseCPU (bus : Bus β) (variant : Variant) : BaseCPU β :=
  { PC := 0, SP := 0xFD, A := 0, X := 0, Y := 0, Status := 0x34, Bus := bus,
    Cycles := 0, Halted := false, NMIPending := false, IRQPending := false,
    ResetPending := false, Variant := variant }

/-- Go `GetFlag`. -/
def BaseCPU.GetFlag (c : BaseCPU β) (flag : Nat) : Bool :=
  c.Status &&& flag != 0

/-- Go `SetFlag`; `^flag` on a byte is `flag ^^^ 0xFF`. -/
def BaseCPU.SetFlag (c : BaseCPU β) (flag : Nat) (value : Bool) : BaseCPU β :=
  { c with Status := if value then c.Status ||| flag else c.Status &&& (flag ^^^ 0xFF) }

/-- The call `c.Bus.Read(addr)` made from a method of the CPU. -/
def BaseCPU.read (c : BaseCPU β) (addr : Nat) : Nat × BaseCPU β :=
  ((c.Bus.Read addr).1, { c with Bus := (c.Bus.Read addr).2 })

/-- The call `c.Bus.Write(addr, data)` made from a method of the CPU. -/
def BaseCPU.write (c : BaseCPU β) (addr data : Nat) : BaseCPU β :=
  { c with Bus := c.Bus.Write addr data }

/-- Go `Push`. -/
def BaseCPU.Push (c : BaseCPU β) (data : Nat) : BaseCPU β :=
  let c1 := c.write ((0x0100 + c.SP) % 65536) data
  { c1 with SP := (c1.SP + 255) % 256 }

/-- Go `Pull`. -/
def BaseCPU.Pull (c : BaseCPU β) : Nat × BaseCPU β :=
  let c1 := { c with SP := (c.SP + 1) % 256 }
  c1.read ((0x0100 + c1.SP) % 65536)

/-- Go `SetZN`. -/
def BaseCPU.SetZN (c : BaseCPU β) (value : Nat) : BaseCPU β :=
  (c.SetFlag FlagZero (value == 0)).SetFlag FlagNegative (value &&& 0x80 != 0)

/-- Go `GetCycles`. -/
def BaseCPU.GetCycles (c : BaseCPU β) : Nat := c.Cycles

/-- Go `Reset`. -/
def BaseCPU.Reset (c : BaseCPU β) : BaseCPU β :=
  let c1 := { c with A := 0, X := 0, Y := 0, SP := 0xFD, Status := 0x34 ||| FlagUnused }
  let low := c1.read 0xFFFC
  let high := low.2.read 0xFFFD
  let c2 := { high.2 with PC := (high.1 <<< 8) ||| low.1 }
  { c2 with Cycles := ResetCycles c2.Variant, Halted := false }

/-- Go `HandleNMI`. -/
def BaseCPU.HandleNMI (c : BaseCPU β) : BaseCPU β :=
  let c1 := c.Push ((c.PC >>> 8) % 256)
  let c2 := c1.Push (c1.PC % 256)
  let c3 := c2.Push c2.Status
  let c4 := c3.SetFlag FlagInterruptDisable true
  let c5 := if ClearsDecimalOnInterrupt c4.Variant then c4.SetFlag FlagDecimal false else c4
  let low := c5.read 0xFFFA
  let high := low.2.read 0xFFFB
  { high.2 with PC := (high.1 <<< 8) ||| low.1, Cycles := 7, NMIPending := false }

/-- Go `HandleIRQ`. -/
def BaseCPU.HandleIRQ (c : BaseCPU β) : BaseCPU β :=
  let c1 := c.Push ((c.PC >>> 8) % 256)
  let c2 := c1.Push (c1.PC % 256)
  let c3 := c2.Push c2.Status
  let c4 := c3.SetFlag FlagInterruptDisable true
  let c5 := if ClearsDecimalOnInterrupt c4.Variant then c4.SetFlag FlagDecimal false else c4
  let low := c5.read 0xFFFE
  let high := low.2.read 0xFFFF
  { high.2 with PC := (high.1 <<< 8) ||| low.1, Cycles := 7, IRQPending := false }

/-- Go `HandleReset`. -/
def BaseCPU.HandleReset (c : BaseCPU β) : BaseCPU β :=
  { c.Reset with ResetPending := false }

/-! ## pkg/core/addressing.go

Each resolver returns the effective address, the page-cross signal and the CPU
afterwards. -/

/-- Go `AddrImmediate`. -/
def BaseCPU.AddrImmediate (c : BaseCPU β) : (Nat × Bool) × BaseCPU β :=
  let addr := c.PC
  ((addr, false), { c with PC := (c.PC + 1) % 65536 })

/-- Go `AddrZeroPage`. -/
def BaseCPU.AddrZeroPage (c : BaseCPU β) : (Nat × Bool) × BaseCPU β :=
  let r := c.read c.PC
  let addr := r.1
  ((addr, false), { r.2 with PC := (r.2.PC + 1) % 65536 })

/-- Go `AddrZeroPageX`. -/
def BaseCPU.AddrZeroPageX (c : BaseCPU β) : (Nat × Bool) × BaseCPU β :=
  let r := c.read c.PC
  let addr := (r.1 + r.2.X) % 256
  ((addr &&& 0x00FF, false), { r.2 with PC := (r.2.PC + 1) % 65536 })

/-- Go `AddrZeroPageY`. -/
def BaseCPU.AddrZeroPageY (c : BaseCPU β) : (Nat × Bool) × BaseCPU β :=
  let r := c.read c.PC
  let addr := (r.1 + r.2.Y) % 256
  ((addr &&& 0x00FF, false), { r.2 with PC := (r.2.PC + 1) % 65536 })

/-- Go `AddrAbsolute`. -/
def BaseCPU.AddrAbsolute (c : BaseCPU β) : (Nat × Bool) × BaseCPU β :=
  let low := c.read c.PC
  let c1 := { low.2 with PC := (low.2.PC + 1) % 65536 }
  let high := c1.read c1.PC
  let c2 := { high.2 with PC := (high.2.PC + 1) % 65536 }
  (((high.1 <<< 8) ||| low.1, false), c2)

/-- Go `AddrAbsoluteX`. -/
def BaseCPU.AddrAbsoluteX (c : BaseCPU β) : (Nat × Bool) × BaseCPU β :=
  let low := c.read c.PC
  let c1 := { low.2 with PC := (low.2.PC + 1) % 65536 }
  let high := c1.read c1.PC
  let c2 := { high.2 with PC := (high.2.PC + 1) % 65536 }
  let addr := (((high.1 <<< 8) ||| low.1) + c2.X) % 65536
  ((addr, (addr &&& 0xFF00) != (high.1 <<< 8)), c2)

/-- Go `AddrAbsoluteY`. -/
def BaseCPU.AddrAbsoluteY (c : BaseCPU β) : (Nat × Bool) × BaseCPU β :=
  let low := c.read c.PC
  let c1 := { low.2 with PC := (low.2.PC + 1) % 65536 }
  let high := c1.read c1.PC
  let c2 := { high.2 with PC := (high.2.PC + 1) % 65536 }
  let addr := (((high.1 <<< 8) ||| low.1) + c2.Y) % 65536
  ((addr, (addr &&& 0xFF00) != (high.1 <<< 8)), c2)

/-- Go `AddrIndirect`.  Go evaluates the two `Read` calls of the returned
expression left to right: the high byte is read first. -/
def BaseCPU.AddrIndirect (c : BaseCPU β) : (Nat × Bool) × BaseCPU β :=
  let low := c.read c.PC
  let c1 := { low.2 with PC := (low.2.PC + 1) % 65536 }
  let high := c1.read c1.PC
  let c2 := { high.2 with PC := (high.2.PC + 1) % 65536 }
  let ptr := (high.1 <<< 8) ||| low.1
  if HasJMPIndirectBug c2.Variant && low.1 == 0x00FF then
    let hi := c2.read (ptr &&& 0xFF00)
    let lo := hi.2.read ptr
    (((hi.1 <<< 8) ||| lo.1, false), lo.2)
  else
    let hi := c2.read ((ptr + 1) % 65536)
    let lo := hi.2.read ptr
    (((hi.1 <<< 8) ||| lo.1, false), lo.2)

/-- Go `AddrIndirectX`. -/
def BaseCPU.AddrIndirectX (c : BaseCPU β) : (Nat × Bool) × BaseCPU β :=
  let r := c.read c.PC
  let zeroPageAddr := (r.1 + r.2.X) % 256
  let c1 := { r.2 with PC := (r.2.PC + 1) % 65536 }
  let low := c1.read (zeroPageAddr &&& 0x00FF)
  let high := low.2.read (((zeroPageAddr + 1) % 65536) &&& 0x00FF)
  (((high.1 <<< 8) ||| low.1, false), high.2)

/-- Go `AddrIndirectY`. -/
def BaseCPU.AddrIndirectY (c : BaseCPU β) : (Nat × Bool) × BaseCPU β :=
  let r := c.read c.PC
  let zeroPageAddr := r.1
  let c1 := { r.2 with PC := (r.2.PC + 1) % 65536 }
  let low := c1.read (zeroPageAddr &&& 0x00FF)
  let high := low.2.read (((zeroPageAddr + 1) % 65536) &&& 0x00FF)
  let addr := (((high.1 <<< 8) ||| low.1) + high.2.Y) % 65536
  ((addr, (addr &&& 0xFF00) != (high.1 <<< 8)), high.2)

/-- Go `AddrRelative`. -/
def BaseCPU.AddrRelative (c : BaseCPU β) : (Nat × Bool) × BaseCPU β :=
  let r := c.read c.PC
  let offset := r.1
  let c1 := { r.2 with PC := (r.2.PC + 1) % 65536 }
  if offset < 0x80 then
    (((c1.PC + offset) % 65536,
      (c1.PC &&& 0xFF00) != (((c1.PC + offset) % 65536) &&& 0xFF00)), c1)
  else
    (((c1.PC + offset + 65536 - 0x100) % 65536,
      (c1.PC &&& 0xFF00) != (((c1.PC + offset + 65536 - 0x100) % 65536) &&& 0xFF00)), c1)

/-- Go `AddrZeroPageIndirect`. -/
def BaseCPU.AddrZeroPageIndirect (c : BaseCPU β) : (Nat × Bool) × BaseCPU β :=
  let r := c.read c.PC
  let zeroPageAddr := r.1
  let c1 := { r.2 with PC := (r.2.PC + 1) % 65536 }
  let low := c1.read (zeroPageAddr &&& 0x00FF)
  let high := low.2.read (((zeroPageAddr + 1) % 65536) &&& 0x00FF)
  (((high.1 <<< 8) ||| low.1, false), high.2)

/-- Go `AddrAbsoluteIndexedIndirect`. -/
def BaseCPU.AddrAbsoluteIndexedIndirect (c : BaseCPU β) : (Nat × Bool) × BaseCPU β :=
  let low := c.read c.PC
  let c1 := { low.2 with PC := (low.2.PC + 1) % 65536 }
  let high := c1.read c1.PC
  let c2 := { high.2 with PC := (high.2.PC + 1) % 65536 }
  let ptr := (((high.1 <<< 8) ||| low.1) + c2.X) % 65536
  let targetLow := c2.read ptr
  let targetHigh := targetLow.2.read ((ptr + 1) % 65536)
  (((targetHigh.1 <<< 8) ||| targetLow.1, false), targetHigh.2)

end core

/-! ## pkg/mos6502/instructions -/

namespace mos6502

open core

variable {β : Type}

/-- Go `LDA`. -/
def LDA (c : BaseCPU β) (addr : Nat) (pageCrossed : Bool) : BaseCPU β :=
  let r := c.read addr
  let c1 := { r.2 with A := r.1 }
  let c2 := c1.SetZN c1.A
  { c2 with Cycles := if pageCrossed then (c2.Cycles + 1) % 256 else c2.Cycles }

/-- Go `LDX`. -/
def LDX (c : BaseCPU β) (addr : Nat) (pageCrossed : Bool) : BaseCPU β :=
  let r := c.read addr
  let c1 := { r.2 with X := r.1 }
  let c2 := c1.SetZN c1.X
  { c2 with Cycles := if pageCrossed then (c2.Cycles + 1) % 256 else c2.Cycles }

/-- Go `LDY`. -/
def LDY (c : BaseCPU β) (addr : Nat) (pageCrossed : Bool) : BaseCPU β :=
  let r := c.read addr
  let c1 := { r.2 with Y := r.1 }
  let c2 := c1.SetZN c1.Y
  { c2 with Cycles := if pageCrossed then (c2.Cycles + 1) % 256 else c2.Cycles }

/-- Go `STA`. -/
def STA (c : BaseCPU β) (addr : Nat) (_pageCrossed : Bool) : BaseCPU β :=
  c.write addr c.A

/-- Go `STX`. -/
def STX (c : BaseCPU β) (addr : Nat) (_pageCrossed : Bool) : BaseCPU β :=
  c.write addr c.X

/-- Go `STY`. -/
def STY (c : BaseCPU β) (addr : Nat) (_pageCrossed : Bool) : BaseCPU β :=
  c.write addr c.Y

/-- Go `TAX`. -/
def TAX (c : BaseCPU β) (_addr : Nat) (_pageCrossed : Bool) : BaseCPU β :=
  let c1 := { c with X := c.A }
  c1.SetZN c1.X

/-- Go `TAY`. -/
def TAY (c : BaseCPU β) (_addr : Nat) (_pageCrossed : Bool) : BaseCPU β :=
  let c1 := { c with Y := c.A }
  c1.SetZN c1.Y

/-- Go `TXA`. -/
def TXA (c : BaseCPU β) (_addr : Nat) (_pageCrossed : Bool) : BaseCPU β :=
  let c1 := { c with A := c.X }
  c1.SetZN c1.A

/-- Go `TYA`. -/
def TYA (c : BaseCPU β) (_addr : Nat) (_pageCrossed : Bool) : BaseCPU β :=
  let c1 := { c with A := c.Y }
  c1.SetZN c1.A

/-- Go `TSX`. -/
def TSX (c : BaseCPU β) (_addr : Nat) (_pageCrossed : Bool) : BaseCPU β :=
  let c1 := { c with X := c.SP }
  c1.SetZN c1.X

/-- Go `TXS`. -/
def TXS (c : BaseCPU β) (_addr : Nat) (_pageCrossed : Bool) : BaseCPU β :=
  { c with SP := c.X }

/-- Go `PHA`. -/
def PHA (c : BaseCPU β) (_addr : Nat) (_pageCrossed : Bool) : BaseCPU β :=
  c.Push c.A

/-- Go `PLA`. -/
def PLA (c : BaseCPU β) (_addr : Nat) (_pageCrossed : Bool) : BaseCPU β :=
  let r := c.Pull
  let c1 := { r.2 with A := r.1 }
  c1.SetZN c1.A

/-- Go `PHP`. -/
def PHP (c : BaseCPU β) (_addr : Nat) (_pageCrossed : Bool) : BaseCPU β :=
  c.Push (c.Status ||| 0x10 ||| 0x20)

/-- Go `PLP`. -/
def PLP (c : BaseCPU β) (_addr : Nat) (_pageCrossed : Bool) : BaseCPU β :=
  let r := c.Pull
  let c1 := { r.2 with Status := r.1 }
  let c2 := c1.SetFlag FlagUnused true
  c2.SetFlag FlagBreak false

/-- Go `ADC`. -/
def ADC (c : BaseCPU β) (addr : Nat) (pageCrossed : Bool) : BaseCPU β :=
  let r := c.read addr
  let data := r.1
  let c0 := r.2
  let carry := if c0.GetFlag FlagCarry then 1 else 0
  let result := (c0.A + data + carry) % 65536
  let c1 := c0.SetFlag FlagCarry (decide (result > 0xFF))
  let c2 := c1.SetFlag FlagOverflow ((((c1.A ^^^ result) &&& (data ^^^ result)) &&& 0x80) != 0)
  let c3 := { c2 with A := result % 256 }
  let c4 := c3.SetZN c3.A
  { c4 with Cycles := if pageCrossed then (c4.Cycles + 1) % 256 else c4.Cycles }

/-- Go `SBC`; `^uint16(data)` is `data ^^^ 0xFFFF`. -/
def SBC (c : BaseCPU β) (addr : Nat) (pageCrossed : Bool) : BaseCPU β :=
  let r := c.read addr
  let data := r.1
  let c0 := r.2
  let carry := if c0.GetFlag FlagCarry then 1 else 0
  let result := (c0.A + 65536 - data + 65536 - (1 - carry)) % 65536
  let c1 := c0.SetFlag FlagCarry (decide (result < 0x100))
  let c2 := c1.SetFlag FlagOverflow
    ((((c1.A ^^^ result) &&& ((data ^^^ 0xFFFF) ^^^ result)) &&& 0x80) != 0)
  let c3 := { c2 with A := result % 256 }
  let c4 := c3.SetZN c3.A
  { c4 with Cycles := if pageCrossed then (c4.Cycles + 1) % 256 else c4.Cycles }

/-- Go `compare`. -/
def compare (c : BaseCPU β) (a b : Nat) : BaseCPU β :=
  let result := (a + 256 - b) % 256
  let c1 := c.SetFlag FlagCarry (decide (a ≥ b))
  let c2 := c1.SetFlag FlagNegative (result &&& 0x80 != 0)
  c2.SetFlag FlagZero (result == 0)

/-- Go `CMP`. -/
def CMP (c : BaseCPU β) (addr : Nat) (pageCrossed : Bool) : BaseCPU β :=
  let r := c.read addr
  let c1 := compare r.2 r.2.A r.1
  { c1 with Cycles := if pageCrossed then (c1.Cycles + 1) % 256 else c1.Cycles }

/-- Go `CPX`. -/
def CPX (c : BaseCPU β) (addr : Nat) (_pageCrossed : Bool) : BaseCPU β :=
  let r := c.read addr
  compare r.2 r.2.X r.1

/-- Go `CPY`. -/
def CPY (c : BaseCPU β) (addr : Nat) (_pageCrossed : Bool) : BaseCPU β :=
  let r := c.read addr
  compare r.2 r.2.Y r.1

/-- Go `INC`. -/
def INC (c : BaseCPU β) (addr : Nat) (_pageCrossed : Bool) : BaseCPU β :=
  let r := c.read addr
  let data := (r.1 + 1) % 256
  let c1 := r.2.write addr data
  c1.SetZN data

/-- Go `DEC`. -/
def DEC (c : BaseCPU β) (addr : Nat) (_pageCrossed : Bool) : BaseCPU β :=
  let r := c.read addr
  let data := (r.1 + 255) % 256
  let c1 := r.2.write addr data
  c1.SetZN data

/-- Go `INX`. -/
def INX (c : BaseCPU β) (_addr : Nat) (_pageCrossed : Bool) : BaseCPU β :=
  let c1 := { c with X := (c.X + 1) % 256 }
  c1.SetZN c1.X

/-- Go `DEX`. -/
def DEX (c : BaseCPU β) (_addr : Nat) (_pageCrossed : Bool) : BaseCPU β :=
  let c1 := { c with X := (c.X + 255) % 256 }
  c1.SetZN c1.X

/-- Go `INY`. -/
def INY (c : BaseCPU β) (_addr : Nat) (_pageCrossed : Bool) : BaseCPU β :=
  let c1 := { c with Y := (c.Y + 1) % 256 }
  c1.SetZN c1.Y

/-- Go `DEY`. -/
def DEY (c : BaseCPU β) (_addr : Nat) (_pageCrossed : Bool) : BaseCPU β :=
  let c1 := { c with Y := (c.Y + 255) % 256 }
  c1.SetZN c1.Y

/-- Go `ASL`. -/
def ASL (c : BaseCPU β) (addr : Nat) (_pageCrossed : Bool) : BaseCPU β :=
  let r := c.read addr
  let c1 := r.2.SetFlag FlagCarry (r.1 &&& 0x80 != 0)
  let data := (r.1 <<< 1) % 256
  let c2 := c1.write addr data
  c2.SetZN data

/-- Go `ASLAccumulator`. -/
def ASLAccumulator (c : BaseCPU β) (_addr : Nat) (_pageCrossed : Bool) : BaseCPU β :=
  let c1 := c.SetFlag FlagCarry (c.A &&& 0x80 != 0)
  let c2 := { c1 with A := (c1.A <<< 1) % 256 }
  c2.SetZN c2.A

/-- Go `LSR`. -/
def LSR (c : BaseCPU β) (addr : Nat) (_pageCrossed : Bool) : BaseCPU β :=
  let r := c.read addr
  let c1 := r.2.SetFlag FlagCarry (r.1 &&& 0x01 != 0)
  let data := r.1 >>> 1
  let c2 := c1.write addr data
  let c3 := c2.SetFlag FlagNegative false
  c3.SetFlag FlagZero (data == 0)

/-- Go `LSRAccumulator`. -/
def LSRAccumulator (c : BaseCPU β) (_addr : Nat) (_pageCrossed : Bool) : BaseCPU β :=
  let c1 := c.SetFlag FlagCarry (c.A &&& 0x01 != 0)
  let c2 := { c1 with A := c1.A >>> 1 }
  let c3 := c2.SetFlag FlagNegative false
  c3.SetFlag FlagZero (c3.A == 0)

/-- Go `ROL`. -/
def ROL (c : BaseCPU β) (addr : Nat) (_pageCrossed : Bool) : BaseCPU β :=
  let r := c.read addr
  let carry := if r.2.GetFlag FlagCarry then 1 else 0
  let c1 := r.2.SetFlag FlagCarry (r.1 &&& 0x80 != 0)
  let data := ((r.1 <<< 1) % 256) ||| carry
  let c2 := c1.write addr data
  c2.SetZN data

/-- Go `ROLAccumulator`. -/
def ROLAccumulator (c : BaseCPU β) (_addr : Nat) (_pageCrossed : Bool) : BaseCPU β :=
  let carry := if c.GetFlag FlagCarry then 1 else 0
  let c1 := c.SetFlag FlagCarry (c.A &&& 0x80 != 0)
  let c2 := { c1 with A := ((c1.A <<< 1) % 256) ||| carry }
  c2.SetZN c2.A

/-- Go `ROR`. -/
def ROR (c : BaseCPU β) (addr : Nat) (_pageCrossed : Bool) : BaseCPU β :=
  let r := c.read addr
  let carry := if r.2.GetFlag FlagCarry then 1 else 0
  let c1 := r.2.SetFlag FlagCarry (r.1 &&& 0x01 != 0)
  let data := (r.1 >>> 1) ||| ((carry <<< 7) % 256)
  let c2 := c1.write addr data
  c2.SetZN data

/-- Go `RORAccumulator`. -/
def RORAccumulator (c : BaseCPU β) (_addr : Nat) (_pageCrossed : Bool) : BaseCPU β :=
  let carry := if c.GetFlag FlagCarry then 1 else 0
  let c1 := c.SetFlag FlagCarry (c.A &&& 0x01 != 0)
  let c2 := { c1 with A := (c1.A >>> 1) ||| ((carry <<< 7) % 256) }
  c2.SetZN c2.A

/-- Go `AND`. -/
def AND (c : BaseCPU β) (addr : Nat) (pageCrossed : Bool) : BaseCPU β :=
  let r := c.read addr
  let c1 := { r.2 with A := r.2.A &&& r.1 }
  let c2 := c1.SetZN c1.A
  { c2 with Cycles := if pageCrossed then (c2.Cycles + 1) % 256 else c2.Cycles }

/-- Go `ORA`. -/
def ORA (c : BaseCPU β) (addr : Nat) (pageCrossed : Bool) : BaseCPU β :=
  let r := c.read addr
  let c1 := { r.2 with A := r.2.A ||| r.1 }
  let c2 := c1.SetZN c1.A
  { c2 with Cycles := if pageCrossed then (c2.Cycles + 1) % 256 else c2.Cycles }

/-- Go `EOR`. -/
def EOR (c : BaseCPU β) (addr : Nat) (pageCrossed : Bool) : BaseCPU β :=
  let r := c.read addr
  let c1 := { r.2 with A := r.2.A ^^^ r.1 }
  let c2 := c1.SetZN c1.A
  { c2 with Cycles := if pageCrossed then (c2.Cycles + 1) % 256 else c2.Cycles }

/-- Go `BIT`. -/
def BIT (c : BaseCPU β) (addr : Nat) (_pageCrossed : Bool) : BaseCPU β :=
  let r := c.read addr
  let c1 := r.2.SetFlag FlagNegative (r.1 &&& 0x80 != 0)
  let c2 := c1.SetFlag FlagOverflow (r.1 &&& 0x40 != 0)
  c2.SetFlag FlagZero (r.1 &&& c2.A == 0)

/-- Go `JMP`. -/
def JMP (c : BaseCPU β) (addr : Nat) (_pageCrossed : Bool) : BaseCPU β :=
  { c with PC := addr }

/-- Go `JSR`. -/
def JSR (c : BaseCPU β) (addr : Nat) (_pageCrossed : Bool) : BaseCPU β :=
  let c1 := { c with PC := (c.PC + 65535) % 65536 }
  let c2 := c1.Push ((c1.PC >>> 8) % 256)
  let c3 := c2.Push (c2.PC % 256)
  { c3 with PC := addr }

/-- Go `RTS`. -/
def RTS (c : BaseCPU β) (_addr : Nat) (_pageCrossed : Bool) : BaseCPU β :=
  let low := c.Pull
  let high := low.2.Pull
  { high.2 with PC := (((high.1 <<< 8) ||| low.1) + 1) % 65536 }

/-- Go `RTI`. -/
def RTI (c : BaseCPU β) (_addr : Nat) (_pageCrossed : Bool) : BaseCPU β :=
  let r := c.Pull
  let c1 := { r.2 with Status := r.1 }
  let c2 := c1.SetFlag FlagBreak false
  let c3 := c2.SetFlag FlagUnused true
  let low := c3.Pull
  let high := low.2.Pull
  { high.2 with PC := (high.1 <<< 8) ||| low.1 }

/-- Go `BRK`. -/
def BRK (c : BaseCPU β) (_addr : Nat) (_pageCrossed : Bool) : BaseCPU β :=
  let c1 := { c with PC := (c.PC + 1) % 65536 }
  let c2 := c1.SetFlag FlagInterruptDisable true
  let c3 := c2.Push ((c2.PC >>> 8) % 256)
  let c4 := c3.Push (c3.PC % 256)
  let c5 := c4.SetFlag FlagBreak true
  let c6 := c5.Push c5.Status
  let c7 := c6.SetFlag FlagBreak false
  let low := c7.read 0xFFFE
  let high := low.2.read 0xFFFF
  { high.2 with PC := (high.1 <<< 8) ||| low.1 }

/-- Go `branch`. -/
def branch (c : BaseCPU β) (addr : Nat) (pageCrossed : Bool) : BaseCPU β :=
  let c1 := { c with Cycles := (c.Cycles + 1) % 256 }
  let c2 := { c1 with Cycles := if pageCrossed then (c1.Cycles + 1) % 256 else c1.Cycles }
  { c2 with PC := addr }

/-- Go `BCC`. -/
def BCC (c : BaseCPU β) (addr : Nat) (pageCrossed : Bool) : BaseCPU β :=
  if !c.GetFlag FlagCarry then branch c addr pageCrossed else c

/-- Go `BCS`. -/
def BCS (c : BaseCPU β) (addr : Nat) (pageCrossed : Bool) : BaseCPU β :=
  if c.GetFlag FlagCarry then branch c addr pageCrossed else c

/-- Go `BEQ`. -/
def BEQ (c : BaseCPU β) (addr : Nat) (pageCrossed : Bool) : BaseCPU β :=
  if c.GetFlag FlagZero then branch c addr pageCrossed else c

/-- Go `BMI`. -/
def BMI (c : BaseCPU β) (addr : Nat) (pageCrossed : Bool) : BaseCPU β :=
  if c.GetFlag FlagNegative then branch c addr pageCrossed else c

/-- Go `BNE`. -/
def BNE (c : BaseCPU β) (addr : Nat) (pageCrossed : Bool) : BaseCPU β :=
  if !c.GetFlag FlagZero then branch c addr pageCrossed else c

/-- Go `BPL`. -/
def BPL (c : BaseCPU β) (addr : Nat) (pageCrossed : Bool) : BaseCPU β :=
  if !c.GetFlag FlagNegative then branch c addr pageCrossed else c

/-- Go `BVC`. -/
def BVC (c : BaseCPU β) (addr : Nat) (pageCrossed : Bool) : BaseCPU β :=
  if !c.GetFlag FlagOverflow then branch c addr pageCrossed else c

/-- Go `BVS`. -/
def BVS (c : BaseCPU β) (addr : Nat) (pageCrossed : Bool) : BaseCPU β :=
  if c.GetFlag FlagOverflow then branch c addr pageCrossed else c

/-- Go `CLC`. -/
def CLC (c : BaseCPU β) (_addr : Nat) (_pageCrossed : Bool) : BaseCPU β :=
  c.SetFlag FlagCarry false

/-- Go `CLD`. -/
def CLD (c : BaseCPU β) (_addr : Nat) (_pageCrossed : Bool) : BaseCPU β :=
  c.SetFlag FlagDecimal false

/-- Go `CLI`. -/
def CLI (c : BaseCPU β) (_addr : Nat) (_pageCrossed : Bool) : BaseCPU β :=
  c.SetFlag FlagInterruptDisable false

/-- Go `CLV`. -/
def CLV (c : BaseCPU β) (_addr : Nat) (_pageCrossed : Bool) : BaseCPU β :=
  c.SetFlag FlagOverflow false

/-- Go `SEC`. -/
def SEC (c : BaseCPU β) (_addr : Nat) (_pageCrossed : Bool) : BaseCPU β :=
  c.SetFlag FlagCarry true

/-- Go `SED`. -/
def SED (c : BaseCPU β) (_addr : Nat) (_pageCrossed : Bool) : BaseCPU β :=
  c.SetFlag FlagDecimal true

/-- Go `SEI`. -/
def SEI (c : BaseCPU β) (_addr : Nat) (_pageCrossed : Bool) : BaseCPU β :=
  c.SetFlag FlagInterruptDisable true

/-- Go `NOP`. -/
def NOP (c : BaseCPU β) (_addr : Nat) (_pageCrossed : Bool) : BaseCPU β :=
  c

end mos6502

/-! ## pkg/mos6502: instruction map and step driver -/

namespace mos6502

open core

variable {β : Type}

/-- The addressing-mode methods of `*CPU` (addressing.go), as stored in the instruction map. -/
inductive AddrModeFn where
  | addrImmediate
  | addrZeroPage
  | addrZeroPageX
  | addrZeroPageY
  | addrAbsolute
  | addrAbsoluteX
  | addrAbsoluteY
  | addrIndirect
  | addrIndirectX
  | addrIndirectY
  | addrRelative
  deriving DecidableEq

/-- The operation methods of `*CPU` (instructions.go), as stored in the instruction map. -/
inductive OperationFn where
  | lda
  | ldx
  | ldy
  | sta
  | stx
  | sty
  | tax
  | tay
  | txa
  | tya
  | tsx
  | txs
  | pha
  | pla
  | php
  | plp
  | adc
  | sbc
  | cmp
  | cpx
  | cpy
  | inc
  | dec
  | inx
  | dex
  | iny
  | dey
  | asl
  | lsr
  | rol
  | ror
  | aslAccumulator
  | lsrAccumulator
  | rolAccumulator
  | rorAccumulator
  | and
  | ora
  | eor
  | bit
  | jmp
  | jsr
  | rts
  | rti
  | brk
  | bcc
  | bcs
  | beq
  | bmi
  | bne
  | bpl
  | bvc
  | bvs
  | clc
  | cld
  | cli
  | clv
  | sec
  | sed
  | sei
  | nop
  deriving DecidableEq

/-- Each addressing wrapper delegates to the `BaseCPU` resolver. -/
def AddrModeFn.run : AddrModeFn → BaseCPU β → (Nat × Bool) × BaseCPU β
  | .addrImmediate => BaseCPU.AddrImmediate
  | .addrZeroPage => BaseCPU.AddrZeroPage
  | .addrZeroPageX => BaseCPU.AddrZeroPageX
  | .addrZeroPageY => BaseCPU.AddrZeroPageY
  | .addrAbsolute => BaseCPU.AddrAbsolute
  | .addrAbsoluteX => BaseCPU.AddrAbsoluteX
  | .addrAbsoluteY => BaseCPU.AddrAbsoluteY
  | .addrIndirect => BaseCPU.AddrIndirect
  | .addrIndirectX => BaseCPU.AddrIndirectX
  | .addrIndirectY => BaseCPU.AddrIndirectY
  | .addrRelative => BaseCPU.AddrRelative

/-- Each operation wrapper delegates to the function of the instructions package. -/
def OperationFn.run : OperationFn → BaseCPU β → Nat → Bool → BaseCPU β
  | .lda => LDA
  | .ldx => LDX
  | .ldy => LDY
  | .sta => STA
  | .stx => STX
  | .sty => STY
  | .tax => TAX
  | .tay => TAY
  | .txa => TXA
  | .tya => TYA
  | .tsx => TSX
  | .txs => TXS
  | .pha => PHA
  | .pla => PLA
  | .php => PHP
  | .plp => PLP
  | .adc => ADC
  | .sbc => SBC
  | .cmp => CMP
  | .cpx => CPX
  | .cpy => CPY
  | .inc => INC
  | .dec => DEC
  | .inx => INX
  | .dex => DEX
  | .iny => INY
  | .dey => DEY
  | .asl => ASL
  | .lsr => LSR
  | .rol => ROL
  | .ror => ROR
  | .aslAccumulator => ASLAccumulator
  | .lsrAccumulator => LSRAccumulator
  | .rolAccumulator => ROLAccumulator
  | .rorAccumulator => RORAccumulator
  | .and => AND
  | .ora => ORA
  | .eor => EOR
  | .bit => BIT
  | .jmp => JMP
  | .jsr => JSR
  | .rts => RTS
  | .rti => RTI
  | .brk => BRK
  | .bcc => BCC
  | .bcs => BCS
  | .beq => BEQ
  | .bmi => BMI
  | .bne => BNE
  | .bpl => BPL
  | .bvc => BVC
  | .bvs => BVS
  | .clc => CLC
  | .cld => CLD
  | .cli => CLI
  | .clv => CLV
  | .sec => SEC
  | .sed => SED
  | .sei => SEI
  | .nop => NOP

/-- Go `Instruction`. -/
structure Instruction where
  Name : String
  AddrMode : Option AddrModeFn
  Operation : OperationFn
  Cycles : Nat
  deriving DecidableEq

/-- The key-value pairs of the `instructionMap` literal, in source order. -/
def instructionTable : List (Nat × Instruction) := [
  (0x00, Instruction.mk "BRK" none OperationFn.brk 7),
  (0x01, Instruction.mk "ORA" (some AddrModeFn.addrIndirectX) OperationFn.ora 6),
  (0x05, Instruction.mk "ORA" (some AddrModeFn.addrZeroPage) OperationFn.ora 3),
  (0x06, Instruction.mk "ASL" (some AddrModeFn.addrZeroPage) OperationFn.asl 5),
  (0x08, Instruction.mk "PHP" none OperationFn.php 3),
  (0x09, Instruction.mk "ORA" (some AddrModeFn.addrImmediate) OperationFn.ora 2),
  (0x0A, Instruction.mk "ASL" none OperationFn.aslAccumulator 2),
  (0x0D, Instruction.mk "ORA" (some AddrModeFn.addrAbsolute) OperationFn.ora 4),
  (0x0E, Instruction.mk "ASL" (some AddrModeFn.addrAbsolute) OperationFn.asl 6),
  (0x10, Instruction.mk "BPL" (some AddrModeFn.addrRelative) OperationFn.bpl 2),
  (0x11, Instruction.mk "ORA" (some AddrModeFn.addrIndirectY) OperationFn.ora 5),
  (0x15, Instruction.mk "ORA" (some AddrModeFn.addrZeroPageX) OperationFn.ora 4),
  (0x16, Instruction.mk "ASL" (some AddrModeFn.addrZeroPageX) OperationFn.asl 6),
  (0x18, Instruction.mk "CLC" none OperationFn.clc 2),
  (0x19, Instruction.mk "ORA" (some AddrModeFn.addrAbsoluteY) OperationFn.ora 4),
  (0x1D, Instruction.mk "ORA" (some AddrModeFn.addrAbsoluteX) OperationFn.ora 4),
  (0x1E, Instruction.mk "ASL" (some AddrModeFn.addrAbsoluteX) OperationFn.asl 7),
  (0x20, Instruction.mk "JSR" (some AddrModeFn.addrAbsolute) OperationFn.jsr 6),
  (0x21, Instruction.mk "AND" (some AddrModeFn.addrIndirectX) OperationFn.and 6),
  (0x24, Instruction.mk "BIT" (some AddrModeFn.addrZeroPage) OperationFn.bit 3),
  (0x25, Instruction.mk "AND" (some AddrModeFn.addrZeroPage) OperationFn.and 3),
  (0x26, Instruction.mk "ROL" (some AddrModeFn.addrZeroPage) OperationFn.rol 5),
  (0x28, Instruction.mk "PLP" none OperationFn.plp 4),
  (0x29, Instruction.mk "AND" (some AddrModeFn.addrImmediate) OperationFn.and 2),
  (0x2A, Instruction.mk "ROL" none OperationFn.rolAccumulator 2),
  (0x2C, Instruction.mk "BIT" (some AddrModeFn.addrAbsolute) OperationFn.bit 4),
  (0x2D, Instruction.mk "AND" (some AddrModeFn.addrAbsolute) OperationFn.and 4),
  (0x2E, Instruction.mk "ROL" (some AddrModeFn.addrAbsolute) OperationFn.rol 7),
  (0x30, Instruction.mk "BMI" (some AddrModeFn.addrRelative) OperationFn.bmi 2),
  (0x31, Instruction.mk "AND" (some AddrModeFn.addrIndirectY) OperationFn.and 5),
  (0x35, Instruction.mk "AND" (some AddrModeFn.addrZeroPageX) OperationFn.and 4),
  (0x36, Instruction.mk "ROL" (some AddrModeFn.addrZeroPageX) OperationFn.rol 6),
  (0x38, Instruction.mk "SEC" none OperationFn.sec 2),
  (0x39, Instruction.mk "AND" (some AddrModeFn.addrAbsoluteY) OperationFn.and 4),
  (0x3D, Instruction.mk "AND" (some AddrModeFn.addrAbsoluteX) OperationFn.and 4),
  (0x3E, Instruction.mk "ROL" (some AddrModeFn.addrAbsoluteX) OperationFn.rol 7),
  (0x40, Instruction.mk "RTI" none OperationFn.rti 6),
  (0x41, Instruction.mk "EOR" (some AddrModeFn.addrIndirectX) OperationFn.eor 6),
  (0x45, Instruction.mk "EOR" (some AddrModeFn.addrZeroPage) OperationFn.eor 3),
  (0x46, Instruction.mk "LSR" (some AddrModeFn.addrZeroPage) OperationFn.lsr 5),
  (0x48, Instruction.mk "PHA" none OperationFn.pha 3),
  (0x49, Instruction.mk "EOR" (some AddrModeFn.addrImmediate) OperationFn.eor 2),
  (0x4A, Instruction.mk "LSR" none OperationFn.lsrAccumulator 2),
  (0x4C, Instruction.mk "JMP" (some AddrModeFn.addrAbsolute) OperationFn.jmp 3),
  (0x4D, Instruction.mk "EOR" (some AddrModeFn.addrAbsolute) OperationFn.eor 4),
  (0x4E, Instruction.mk "LSR" (some AddrModeFn.addrAbsolute) OperationFn.lsr 7),
  (0x50, Instruction.mk "BVC" (some AddrModeFn.addrRelative) OperationFn.bvc 2),
  (0x51, Instruction.mk "EOR" (some AddrModeFn.addrIndirectY) OperationFn.eor 5),
  (0x55, Instruction.mk "EOR" (some AddrModeFn.addrZeroPageX) OperationFn.eor 4),
  (0x56, Instruction.mk "LSR" (some AddrModeFn.addrZeroPageX) OperationFn.lsr 6),
  (0x58, Instruction.mk "CLI" none OperationFn.cli 2),
  (0x59, Instruction.mk "EOR" (some AddrModeFn.addrAbsoluteY) OperationFn.eor 4),
  (0x5D, Instruction.mk "EOR" (some AddrModeFn.addrAbsoluteX) OperationFn.eor 4),
  (0x5E, Instruction.mk "LSR" (some AddrModeFn.addrAbsoluteX) OperationFn.lsr 7),
  (0x60, Instruction.mk "RTS" none OperationFn.rts 6),
  (0x61, Instruction.mk "ADC" (some AddrModeFn.addrIndirectX) OperationFn.adc 6),
  (0x65, Instruction.mk "ADC" (some AddrModeFn.addrZeroPage) OperationFn.adc 3),
  (0x66, Instruction.mk "ROR" (some AddrModeFn.addrZeroPage) OperationFn.ror 5),
  (0x68, Instruction.mk "PLA" none OperationFn.pla 4),
  (0x69, Instruction.mk "ADC" (some AddrModeFn.addrImmediate) OperationFn.adc 2),
  (0x6A, Instruction.mk "ROR" none OperationFn.rorAccumulator 2),
  (0x6C, Instruction.mk "JMP" (some AddrModeFn.addrIndirect) OperationFn.jmp 5),
  (0x6D, Instruction.mk "ADC" (some AddrModeFn.addrAbsolute) OperationFn.adc 4),
  (0x6E, Instruction.mk "ROR" (some AddrModeFn.addrAbsolute) OperationFn.ror 7),
  (0x70, Instruction.mk "BVS" (some AddrModeFn.addrRelative) OperationFn.bvs 2),
  (0x71, Instruction.mk "ADC" (some AddrModeFn.addrIndirectY) OperationFn.adc 5),
  (0x75, Instruction.mk "ADC" (some AddrModeFn.addrZeroPageX) OperationFn.adc 4),
  (0x76, Instruction.mk "ROR" (some AddrModeFn.addrZeroPageX) OperationFn.ror 6),
  (0x78, Instruction.mk "SEI" none OperationFn.sei 2),
  (0x79, Instruction.mk "ADC" (some AddrModeFn.addrAbsoluteY) OperationFn.adc 4),
  (0x7D, Instruction.mk "ADC" (some AddrModeFn.addrAbsoluteX) OperationFn.adc 4),
  (0x7E, Instruction.mk "ROR" (some AddrModeFn.addrAbsoluteX) OperationFn.ror 7),
  (0x81, Instruction.mk "STA" (some AddrModeFn.addrIndirectX) OperationFn.sta 6),
  (0x84, Instruction.mk "STY" (some AddrModeFn.addrZeroPage) OperationFn.sty 3),
  (0x85, Instruction.mk "STA" (some AddrModeFn.addrZeroPage) OperationFn.sta 3),
  (0x86, Instruction.mk "STX" (some AddrModeFn.addrZeroPage) OperationFn.stx 3),
  (0x88, Instruction.mk "DEY" none OperationFn.dey 2),
  (0x8A, Instruction.mk "TXA" none OperationFn.txa 2),
  (0x8C, Instruction.mk "STY" (some AddrModeFn.addrAbsolute) OperationFn.sty 4),
  (0x8D, Instruction.mk "STA" (some AddrModeFn.addrAbsolute) OperationFn.sta 4),
  (0x8E, Instruction.mk "STX" (some AddrModeFn.addrAbsolute) OperationFn.stx 4),
  (0x90, Instruction.mk "BCC" (some AddrModeFn.addrRelative) OperationFn.bcc 2),
  (0x91, Instruction.mk "STA" (some AddrModeFn.addrIndirectY) OperationFn.sta 6),
  (0x94, Instruction.mk "STY" (some AddrModeFn.addrZeroPageX) OperationFn.sty 3),
  (0x95, Instruction.mk "STA" (some AddrModeFn.addrZeroPageX) OperationFn.sta 3),
  (0x96, Instruction.mk "STX" (some AddrModeFn.addrZeroPageY) OperationFn.stx 4),
  (0x98, Instruction.mk "TYA" none OperationFn.tya 2),
  (0x99, Instruction.mk "STA" (some AddrModeFn.addrAbsoluteY) OperationFn.sta 5),
  (0x9A, Instruction.mk "TXS" none OperationFn.txs 2),
  (0x9D, Instruction.mk "STA" (some AddrModeFn.addrAbsoluteX) OperationFn.sta 5),
  (0xA0, Instruction.mk "LDY" (some AddrModeFn.addrImmediate) OperationFn.ldy 2),
  (0xA1, Instruction.mk "LDA" (some AddrModeFn.addrIndirectX) OperationFn.lda 6),
  (0xA2, Instruction.mk "LDX" (some AddrModeFn.addrImmediate) OperationFn.ldx 2),
  (0xA4, Instruction.mk "LDY" (some AddrModeFn.addrZeroPage) OperationFn.ldy 3),
  (0xA5, Instruction.mk "LDA" (some AddrModeFn.addrZeroPage) OperationFn.lda 3),
  (0xA6, Instruction.mk "LDX" (some AddrModeFn.addrZeroPage) OperationFn.ldx 3),
  (0xA8, Instruction.mk "TAY" none OperationFn.tay 2),
  (0xA9, Instruction.mk "LDA" (some AddrModeFn.addrImmediate) OperationFn.lda 2),
  (0xAA, Instruction.mk "TAX" none OperationFn.tax 2),
  (0xAC, Instruction.mk "LDY" (some AddrModeFn.addrAbsolute) OperationFn.ldy 4),
  (0xAD, Instruction.mk "LDA" (some AddrModeFn.addrAbsolute) OperationFn.lda 4),
  (0xAE, Instruction.mk "LDX" (some AddrModeFn.addrAbsolute) OperationFn.ldx 4),
  (0xB0, Instruction.mk "BCS" (some AddrModeFn.addrRelative) OperationFn.bcs 2),
  (0xB1, Instruction.mk "LDA" (some AddrModeFn.addrIndirectY) OperationFn.lda 5),
  (0xB4, Instruction.mk "LDY" (some AddrModeFn.addrZeroPageX) OperationFn.ldy 3),
  (0xB5, Instruction.mk "LDA" (some AddrModeFn.addrZeroPageX) OperationFn.lda 3),
  (0xB6, Instruction.mk "LDX" (some AddrModeFn.addrZeroPageY) OperationFn.ldx 3),
  (0xB8, Instruction.mk "CLV" none OperationFn.clv 2),
  (0xB9, Instruction.mk "LDA" (some AddrModeFn.addrAbsoluteY) OperationFn.lda 4),
  (0xBA, Instruction.mk "TSX" none OperationFn.tsx 2),
  (0xBC, Instruction.mk "LDY" (some AddrModeFn.addrAbsoluteX) OperationFn.ldy 4),
  (0xBD, Instruction.mk "LDA" (some AddrModeFn.addrAbsoluteX) OperationFn.lda 4),
  (0xBE, Instruction.mk "LDX" (some AddrModeFn.addrAbsoluteY) OperationFn.ldx 4),
  (0xC0, Instruction.mk "CPY" (some AddrModeFn.addrImmediate) OperationFn.cpy 2),
  (0xC1, Instruction.mk "CMP" (some AddrModeFn.addrIndirectX) OperationFn.cmp 6),
  (0xC4, Instruction.mk "CPY" (some AddrModeFn.addrZeroPage) OperationFn.cpy 3),
  (0xC5, Instruction.mk "CMP" (some AddrModeFn.addrZeroPage) OperationFn.cmp 3),
  (0xC6, Instruction.mk "DEC" (some AddrModeFn.addrZeroPage) OperationFn.dec 5),
  (0xC8, Instruction.mk "INY" none OperationFn.iny 2),
  (0xC9, Instruction.mk "CMP" (some AddrModeFn.addrImmediate) OperationFn.cmp 2),
  (0xCA, Instruction.mk "DEX" none OperationFn.dex 2),
  (0xCC, Instruction.mk "CPY" (some AddrModeFn.addrAbsolute) OperationFn.cpy 4),
  (0xCD, Instruction.mk "CMP" (some AddrModeFn.addrAbsolute) OperationFn.cmp 4),
  (0xCE, Instruction.mk "DEC" (some AddrModeFn.addrAbsolute) OperationFn.dec 6),
  (0xD0, Instruction.mk "BNE" (some AddrModeFn.addrRelative) OperationFn.bne 2),
  (0xD1, Instruction.mk "CMP" (some AddrModeFn.addrIndirectY) OperationFn.cmp 5),
  (0xD5, Instruction.mk "CMP" (some AddrModeFn.addrZeroPageX) OperationFn.cmp 3),
  (0xD6, Instruction.mk "DEC" (some AddrModeFn.addrZeroPageX) OperationFn.dec 5),
  (0xD8, Instruction.mk "CLD" none OperationFn.cld 2),
  (0xD9, Instruction.mk "CMP" (some AddrModeFn.addrAbsoluteY) OperationFn.cmp 4),
  (0xDD, Instruction.mk "CMP" (some AddrModeFn.addrAbsoluteX) OperationFn.cmp 4),
  (0xDE, Instruction.mk "DEC" (some AddrModeFn.addrAbsoluteX) OperationFn.dec 7),
  (0xE0, Instruction.mk "CPX" (some AddrModeFn.addrImmediate) OperationFn.cpx 2),
  (0xE1, Instruction.mk "SBC" (some AddrModeFn.addrIndirectX) OperationFn.sbc 6),
  (0xE4, Instruction.mk "CPX" (some AddrModeFn.addrZeroPage) OperationFn.cpx 3),
  (0xE5, Instruction.mk "SBC" (some AddrModeFn.addrZeroPage) OperationFn.sbc 3),
  (0xE6, Instruction.mk "INC" (some AddrModeFn.addrZeroPage) OperationFn.inc 5),
  (0xE8, Instruction.mk "INX" none OperationFn.inx 2),
  (0xE9, Instruction.mk "SBC" (some AddrModeFn.addrImmediate) OperationFn.sbc 2),
  (0xEA, Instruction.mk "NOP" none OperationFn.nop 2),
  (0xEC, Instruction.mk "CPX" (some AddrModeFn.addrAbsolute) OperationFn.cpx 4),
  (0xED, Instruction.mk "SBC" (some AddrModeFn.addrAbsolute) OperationFn.sbc 4),
  (0xEE, Instruction.mk "INC" (some AddrModeFn.addrAbsolute) OperationFn.inc 7),
  (0xF0, Instruction.mk "BEQ" (some AddrModeFn.addrRelative) OperationFn.beq 2),
  (0xF1, Instruction.mk "SBC" (some AddrModeFn.addrIndirectY) OperationFn.sbc 5),
  (0xF5, Instruction.mk "SBC" (some AddrModeFn.addrZeroPageX) OperationFn.sbc 3),
  (0xF6, Instruction.mk "INC" (some AddrModeFn.addrZeroPageX) OperationFn.inc 5),
  (0xF8, Instruction.mk "SED" none OperationFn.sed 2),
  (0xF9, Instruction.mk "SBC" (some AddrModeFn.addrAbsoluteY) OperationFn.sbc 4),
  (0xFD, Instruction.mk "SBC" (some AddrModeFn.addrAbsoluteX) OperationFn.sbc 4),
  (0xFE, Instruction.mk "INC" (some AddrModeFn.addrAbsoluteX) OperationFn.inc 7)]

/-- Go `instructionMap[opcode]`: the entry and whether the key is present. -/
def instructionMap (opcode : Nat) : Option Instruction :=
  instructionTable.lookup opcode

/-- Go `CPU.Step`.  The `fmt.Printf` of the unknown-opcode branch writes to
standard output only and is left out. -/
def Step (c : BaseCPU β) : BaseCPU β :=
  if c.Cycles == 0 then
    if c.ResetPending then c.HandleReset
    else if c.NMIPending then c.HandleNMI
    else if c.IRQPending && !c.GetFlag FlagInterruptDisable then c.HandleIRQ
    else
      let r := c.read c.PC
      let opcode := r.1
      let c1 := { r.2 with PC := (r.2.PC + 1) % 65536 }
      match instructionMap opcode with
      | none => { c1 with Halted := true }
      | some instruction =>
        let a := match instruction.AddrMode with
          | some m => m.run c1
          | none => ((0, false), c1)
        let c2 := instruction.Operation.run a.2 a.1.1 a.1.2
        let c3 := { c2 with Cycles := (c2.Cycles + instruction.Cycles) % 256 }
        { c3 with Cycles := (c3.Cycles + 255) % 256 }
  else { c with Cycles := (c.Cycles + 255) % 256 }

/-- Go `NewCPU`. -/
def NewCPU (bus : Bus β) : BaseCPU β :=
  NewBaseCPU bus VariantNMOS

/-- Go `CPU.Run`: `for !c.Halted { c.Step() }`, with the number of loop
iterations bounded by the first argument. -/
def Run : Nat → BaseCPU β → BaseCPU β
  | 0, c => c
  | n + 1, c => if !c.Halted then Run n (Step c) else c

end mos6502

/-! ## pkg/wdc65c02/instructions -/

namespace wdc65c02

open core

variable {β : Type}

/-- Go `LDA`. -/
def LDA (c : BaseCPU β) (addr : Nat) (pageCrossed : Bool) : BaseCPU β :=
  let r := c.read addr
  let c1 := { r.2 with A := r.1 }
  let c2 := c1.SetZN c1.A
  { c2 with Cycles := if pageCrossed then (c2.Cycles + 1) % 256 else c2.Cycles }

/-- Go `LDX`. -/
def LDX (c : BaseCPU β) (addr : Nat) (pageCrossed : Bool) : BaseCPU β :=
  let r := c.read addr
  let c1 := { r.2 with X := r.1 }
  let c2 := c1.SetZN c1.X
  { c2 with Cycles := if pageCrossed then (c2.Cycles + 1) % 256 else c2.Cycles }

/-- Go `LDY`. -/
def LDY (c : BaseCPU β) (addr : Nat) (pageCrossed : Bool) : BaseCPU β :=
  let r := c.read addr
  let c1 := { r.2 with Y := r.1 }
  let c2 := c1.SetZN c1.Y
  { c2 with Cycles := if pageCrossed then (c2.Cycles + 1) % 256 else c2.Cycles }

/-- Go `STA`. -/
def STA (c : BaseCPU β) (addr : Nat) (_pageCrossed : Bool) : BaseCPU β :=
  c.write addr c.A

/-- Go `STX`. -/
def STX (c : BaseCPU β) (addr : Nat) (_pageCrossed : Bool) : BaseCPU β :=
  c.write addr c.X

/-- Go `STY`. -/
def STY (c : BaseCPU β) (addr : Nat) (_pageCrossed : Bool) : BaseCPU β :=
  c.write addr c.Y

/-- Go `STZ`. -/
def STZ (c : BaseCPU β) (addr : Nat) (_pageCrossed : Bool) : BaseCPU β :=
  c.write addr 0x00

/-- Modelled from the spec: the WDC65C02 transfer handlers (transfer.go of
pkg/wdc65c02/instructions) are not among the sources; `TAX` copies A to X and sets Z,N on the destination. -/
def TAX (c : BaseCPU β) (_addr : Nat) (_pageCrossed : Bool) : BaseCPU β :=
  let c1 := { c with X := c.A }
  c1.SetZN c1.X

/-- Modelled from the spec: the WDC65C02 transfer handlers (transfer.go of
pkg/wdc65c02/instructions) are not among the sources; `TAY` copies A to Y and sets Z,N on the destination. -/
def TAY (c : BaseCPU β) (_addr : Nat) (_pageCrossed : Bool) : BaseCPU β :=
  let c1 := { c with Y := c.A }
  c1.SetZN c1.Y

/-- Modelled from the spec: the WDC65C02 transfer handlers (transfer.go of
pkg/wdc65c02/instructions) are not among the sources; `TXA` copies X to A and sets Z,N on the destination. -/
def TXA (c : BaseCPU β) (_addr : Nat) (_pageCrossed : Bool) : BaseCPU β :=
  let c1 := { c with A := c.X }
  c1.SetZN c1.A

/-- Modelled from the spec: the WDC65C02 transfer handlers (transfer.go of
pkg/wdc65c02/instructions) are not among the sources; `TYA` copies Y to A and sets Z,N on the destination. -/
def TYA (c : BaseCPU β) (_addr : Nat) (_pageCrossed : Bool) : BaseCPU β :=
  let c1 := { c with A := c.Y }
  c1.SetZN c1.A

/-- Modelled from the spec: the WDC65C02 transfer handlers (transfer.go of
pkg/wdc65c02/instructions) are not among the sources; `TSX` copies SP to X and sets Z,N on the destination. -/
def TSX (c : BaseCPU β) (_addr : Nat) (_pageCrossed : Bool) : BaseCPU β :=
  let c1 := { c with X := c.SP }
  c1.SetZN c1.X

/-- Modelled from the spec: the WDC65C02 transfer handlers (transfer.go of
pkg/wdc65c02/instructions) are not among the sources; `TXS` copies X to SP without touching flags. -/
def TXS (c : BaseCPU β) (_addr : Nat) (_pageCrossed : Bool) : BaseCPU β :=
  { c with SP := c.X }

/-- Go `PHA`. -/
def PHA (c : BaseCPU β) (_addr : Nat) (_pageCrossed : Bool) : BaseCPU β :=
  c.Push c.A

/-- Go `PLA`. -/
def PLA (c : BaseCPU β) (_addr : Nat) (_pageCrossed : Bool) : BaseCPU β :=
  let r := c.Pull
  let c1 := { r.2 with A := r.1 }
  c1.SetZN c1.A

/-- Go `PHP`. -/
def PHP (c : BaseCPU β) (_addr : Nat) (_pageCrossed : Bool) : BaseCPU β :=
  c.Push (c.Status ||| FlagBreak ||| FlagUnused)

/-- Go `PLP`. -/
def PLP (c : BaseCPU β) (_addr : Nat) (_pageCrossed : Bool) : BaseCPU β :=
  let r := c.Pull
  let c1 := { r.2 with Status := r.1 }
  let c2 := c1.SetFlag FlagUnused true
  c2.SetFlag FlagBreak false

/-- Go `PHX`. -/
def PHX (c : BaseCPU β) (_addr : Nat) (_pageCrossed : Bool) : BaseCPU β :=
  c.Push c.X

/-- Go `PHY`. -/
def PHY (c : BaseCPU β) (_addr : Nat) (_pageCrossed : Bool) : BaseCPU β :=
  c.Push c.Y

/-- Go `PLX`. -/
def PLX (c : BaseCPU β) (_addr : Nat) (_pageCrossed : Bool) : BaseCPU β :=
  let r := c.Pull
  let c1 := { r.2 with X := r.1 }
  c1.SetZN c1.X

/-- Go `PLY`. -/
def PLY (c : BaseCPU β) (_addr : Nat) (_pageCrossed : Bool) : BaseCPU β :=
  let r := c.Pull
  let c1 := { r.2 with Y := r.1 }
  c1.SetZN c1.Y

/-- Modelled from the spec: the WDC65C02 arithmetic handlers (arithmetic.go of
pkg/wdc65c02/instructions) are not among the sources.  ADC: `r = A + M + C`;
C = (r > 0xFF); V = ((A^r) & (M^r) & 0x80) ≠ 0; A = r & 0xFF; set Z,N;
page-cross adds 1. -/
def ADC (c : BaseCPU β) (addr : Nat) (pageCrossed : Bool) : BaseCPU β :=
  let r := c.read addr
  let data := r.1
  let c0 := r.2
  let carry := if c0.GetFlag FlagCarry then 1 else 0
  let result := c0.A + data + carry
  let c1 := c0.SetFlag FlagCarry (decide (result > 0xFF))
  let c2 := c1.SetFlag FlagOverflow ((((c1.A ^^^ result) &&& (data ^^^ result)) &&& 0x80) != 0)
  let c3 := { c2 with A := result &&& 0xFF }
  let c4 := c3.SetZN c3.A
  { c4 with Cycles := if pageCrossed then (c4.Cycles + 1) % 256 else c4.Cycles }

/-- Modelled from the spec: the WDC65C02 arithmetic handlers are not among the
sources.  SBC: `r = A − M − (1−C)` in 16 bits; C = (r < 0x100);
V = ((A^r) & (~M^r) & 0x80) ≠ 0; A = r & 0xFF; set Z,N; the page-cross cycle is
charged as for ADC, of which SBC is the complement form. -/
def SBC (c : BaseCPU β) (addr : Nat) (pageCrossed : Bool) : BaseCPU β :=
  let r := c.read addr
  let data := r.1
  let c0 := r.2
  let carry := if c0.GetFlag FlagCarry then 1 else 0
  let result := (c0.A + 65536 - data + 65536 - (1 - carry)) % 65536
  let c1 := c0.SetFlag FlagCarry (decide (result < 0x100))
  let c2 := c1.SetFlag FlagOverflow
    ((((c1.A ^^^ result) &&& ((data ^^^ 0xFFFF) ^^^ result)) &&& 0x80) != 0)
  let c3 := { c2 with A := result &&& 0xFF }
  let c4 := c3.SetZN c3.A
  { c4 with Cycles := if pageCrossed then (c4.Cycles + 1) % 256 else c4.Cycles }

/-- Modelled from the spec: the WDC65C02 arithmetic handlers are not among the
sources.  CMP/CPX/CPY compute `reg − M` in 16 bits, set C = (reg ≥ M),
Z = (reg = M), N from bit 7 of the low byte. -/
def compare (c : BaseCPU β) (reg m : Nat) : BaseCPU β :=
  let result := (reg + 65536 - m) % 65536
  let c1 := c.SetFlag FlagCarry (decide (reg ≥ m))
  let c2 := c1.SetFlag FlagZero (decide (reg = m))
  c2.SetFlag FlagNegative ((result &&& 0xFF) &&& 0x80 != 0)

/-- Modelled from the spec: the WDC65C02 arithmetic handlers are not among the
sources; `CMP` compares A with the byte at the effective address and charges
the page-cross cycle that the instruction map announces for it. -/
def CMP (c : BaseCPU β) (addr : Nat) (pageCrossed : Bool) : BaseCPU β :=
  let r := c.read addr
  let c1 := compare r.2 r.2.A r.1
  { c1 with Cycles := if pageCrossed then (c1.Cycles + 1) % 256 else c1.Cycles }

/-- Modelled from the spec: the WDC65C02 arithmetic handlers are not among the
sources; `CPX` compares X with the byte at the effective address. -/
def CPX (c : BaseCPU β) (addr : Nat) (_pageCrossed : Bool) : BaseCPU β :=
  let r := c.read addr
  compare r.2 r.2.X r.1

/-- Modelled from the spec: the WDC65C02 arithmetic handlers are not among the
sources; `CPY` compares Y with the byte at the effective address. -/
def CPY (c : BaseCPU β) (addr : Nat) (_pageCrossed : Bool) : BaseCPU β :=
  let r := c.read addr
  compare r.2 r.2.Y r.1

/-- Go `INC`. -/
def INC (c : BaseCPU β) (addr : Nat) (_pageCrossed : Bool) : BaseCPU β :=
  let r := c.read addr
  let data := (r.1 + 1) % 256
  let c1 := r.2.write addr data
  c1.SetZN data

/-- Go `DEC`. -/
def DEC (c : BaseCPU β) (addr : Nat) (_pageCrossed : Bool) : BaseCPU β :=
  let r := c.read addr
  let data := (r.1 + 255) % 256
  let c1 := r.2.write addr data
  c1.SetZN data

/-- Go `INX`. -/
def INX (c : BaseCPU β) (_addr : Nat) (_pageCrossed : Bool) : BaseCPU β :=
  let c1 := { c with X := (c.X + 1) % 256 }
  c1.SetZN c1.X

/-- Go `DEX`. -/
def DEX (c : BaseCPU β) (_addr : Nat) (_pageCrossed : Bool) : BaseCPU β :=
  let c1 := { c with X := (c.X + 255) % 256 }
  c1.SetZN c1.X

/-- Go `INY`. -/
def INY (c : BaseCPU β) (_addr : Nat) (_pageCrossed : Bool) : BaseCPU β :=
  let c1 := { c with Y := (c.Y + 1) % 256 }
  c1.SetZN c1.Y

/-- Go `DEY`. -/
def DEY (c : BaseCPU β) (_addr : Nat) (_pageCrossed : Bool) : BaseCPU β :=
  let c1 := { c with Y := (c.Y + 255) % 256 }
  c1.SetZN c1.Y

/-- Go `INCA`. -/
def INCA (c : BaseCPU β) (_addr : Nat) (_pageCrossed : Bool) : BaseCPU β :=
  let c1 := { c with A := (c.A + 1) % 256 }
  c1.SetZN c1.A

/-- Go `DECA`. -/
def DECA (c : BaseCPU β) (_addr : Nat) (_pageCrossed : Bool) : BaseCPU β :=
  let c1 := { c with A := (c.A + 255) % 256 }
  c1.SetZN c1.A

/-- Go `ASL`. -/
def ASL (c : BaseCPU β) (addr : Nat) (_pageCrossed : Bool) : BaseCPU β :=
  let r := c.read addr
  let c1 := r.2.SetFlag FlagCarry (r.1 &&& 0x80 != 0)
  let data := (r.1 <<< 1) % 256
  let c2 := c1.write addr data
  c2.SetZN data

/-- Go `ASLAccumulator`. -/
def ASLAccumulator (c : BaseCPU β) (_addr : Nat) (_pageCrossed : Bool) : BaseCPU β :=
  let c1 := c.SetFlag FlagCarry (c.A &&& 0x80 != 0)
  let c2 := { c1 with A := (c1.A <<< 1) % 256 }
  c2.SetZN c2.A

/-- Go `LSR`. -/
def LSR (c : BaseCPU β) (addr : Nat) (_pageCrossed : Bool) : BaseCPU β :=
  let r := c.read addr
  let c1 := r.2.SetFlag FlagCarry (r.1 &&& 0x01 != 0)
  let data := r.1 >>> 1
  let c2 := c1.write addr data
  c2.SetZN data

/-- Go `LSRAccumulator`. -/
def LSRAccumulator (c : BaseCPU β) (_addr : Nat) (_pageCrossed : Bool) : BaseCPU β :=
  let c1 := c.SetFlag FlagCarry (c.A &&& 0x01 != 0)
  let c2 := { c1 with A := c1.A >>> 1 }
  c2.SetZN c2.A

/-- Go `ROL`. -/
def ROL (c : BaseCPU β) (addr : Nat) (_pageCrossed : Bool) : BaseCPU β :=
  let r := c.read addr
  let carry := if r.2.GetFlag FlagCarry then 1 else 0
  let c1 := r.2.SetFlag FlagCarry (r.1 &&& 0x80 != 0)
  let data := ((r.1 <<< 1) % 256) ||| carry
  let c2 := c1.write addr data
  c2.SetZN data

/-- Go `ROLAccumulator`. -/
def ROLAccumulator (c : BaseCPU β) (_addr : Nat) (_pageCrossed : Bool) : BaseCPU β :=
  let carry := if c.GetFlag FlagCarry then 1 else 0
  let c1 := c.SetFlag FlagCarry (c.A &&& 0x80 != 0)
  let c2 := { c1 with A := ((c1.A <<< 1) % 256) ||| carry }
  c2.SetZN c2.A

/-- Go `ROR`. -/
def ROR (c : BaseCPU β) (addr : Nat) (_pageCrossed : Bool) : BaseCPU β :=
  let r := c.read addr
  let carry := if r.2.GetFlag FlagCarry then 1 else 0
  let c1 := r.2.SetFlag FlagCarry (r.1 &&& 0x01 != 0)
  let data := (r.1 >>> 1) ||| ((carry <<< 7) % 256)
  let c2 := c1.write addr data
  c2.SetZN data

/-- Go `RORAccumulator`. -/
def RORAccumulator (c : BaseCPU β) (_addr : Nat) (_pageCrossed : Bool) : BaseCPU β :=
  let carry := if c.GetFlag FlagCarry then 1 else 0
  let c1 := c.SetFlag FlagCarry (c.A &&& 0x01 != 0)
  let c2 := { c1 with A := (c1.A >>> 1) ||| ((carry <<< 7) % 256) }
  c2.SetZN c2.A

/-- Go `AND`. -/
def AND (c : BaseCPU β) (addr : Nat) (pageCrossed : Bool) : BaseCPU β :=
  let r := c.read addr
  let c1 := { r.2 with A := r.2.A &&& r.1 }
  let c2 := c1.SetZN c1.A
  { c2 with Cycles := if pageCrossed then (c2.Cycles + 1) % 256 else c2.Cycles }

/-- Go `ORA`. -/
def ORA (c : BaseCPU β) (addr : Nat) (pageCrossed : Bool) : BaseCPU β :=
  let r := c.read addr
  let c1 := { r.2 with A := r.2.A ||| r.1 }
  let c2 := c1.SetZN c1.A
  { c2 with Cycles := if pageCrossed then (c2.Cycles + 1) % 256 else c2.Cycles }

/-- Go `EOR`. -/
def EOR (c : BaseCPU β) (addr : Nat) (pageCrossed : Bool) : BaseCPU β :=
  let r := c.read addr
  let c1 := { r.2 with A := r.2.A ^^^ r.1 }
  let c2 := c1.SetZN c1.A
  { c2 with Cycles := if pageCrossed then (c2.Cycles + 1) % 256 else c2.Cycles }

/-- Go `BIT`. -/
def BIT (c : BaseCPU β) (addr : Nat) (_pageCrossed : Bool) : BaseCPU β :=
  let r := c.read addr
  let c1 := r.2.SetFlag FlagNegative (r.1 &&& 0x80 != 0)
  let c2 := c1.SetFlag FlagOverflow (r.1 &&& 0x40 != 0)
  c2.SetFlag FlagZero (r.1 &&& c2.A == 0)

/-- Go `TSB`. -/
def TSB (c : BaseCPU β) (addr : Nat) (_pageCrossed : Bool) : BaseCPU β :=
  let r := c.read addr
  let c1 := r.2.SetFlag FlagZero ((r.1 &&& r.2.A) == 0)
  c1.write addr (r.1 ||| c1.A)

/-- Go `TRB`; `data &^ c.A` clears in `data` the bits set in `c.A`. -/
def TRB (c : BaseCPU β) (addr : Nat) (_pageCrossed : Bool) : BaseCPU β :=
  let r := c.read addr
  let c1 := r.2.SetFlag FlagZero ((r.1 &&& r.2.A) == 0)
  c1.write addr (r.1 &&& (c1.A ^^^ 0xFF))

/-- Go `JMP`. -/
def JMP (c : BaseCPU β) (addr : Nat) (_pageCrossed : Bool) : BaseCPU β :=
  { c with PC := addr }

/-- Go `JSR`. -/
def JSR (c : BaseCPU β) (addr : Nat) (_pageCrossed : Bool) : BaseCPU β :=
  let returnAddr := (c.PC + 65535) % 65536
  let c1 := c.Push ((returnAddr >>> 8) % 256)
  let c2 := c1.Push (returnAddr % 256)
  { c2 with PC := addr }

/-- Go `RTS`. -/
def RTS (c : BaseCPU β) (_addr : Nat) (_pageCrossed : Bool) : BaseCPU β :=
  let low := c.Pull
  let high := low.2.Pull
  { high.2 with PC := (((high.1 <<< 8) ||| low.1) + 1) % 65536 }

/-- Go `RTI`. -/
def RTI (c : BaseCPU β) (_addr : Nat) (_pageCrossed : Bool) : BaseCPU β :=
  let r := c.Pull
  let c1 := { r.2 with Status := r.1 }
  let c2 := c1.SetFlag FlagUnused true
  let c3 := c2.SetFlag FlagBreak false
  let low := c3.Pull
  let high := low.2.Pull
  { high.2 with PC := (high.1 <<< 8) ||| low.1 }

/-- Go `BRK`. -/
def BRK (c : BaseCPU β) (_addr : Nat) (_pageCrossed : Bool) : BaseCPU β :=
  let c1 := { c with PC := (c.PC + 1) % 65536 }
  let c2 := c1.Push ((c1.PC >>> 8) % 256)
  let c3 := c2.Push (c2.PC % 256)
  let c4 := c3.Push (c3.Status ||| FlagBreak ||| FlagUnused)
  let c5 := c4.SetFlag FlagInterruptDisable true
  let c6 := c5.SetFlag FlagDecimal false
  let low := c6.read 0xFFFE
  let high := low.2.read 0xFFFF
  { high.2 with PC := (high.1 <<< 8) ||| low.1 }

/-- Go `branch`. -/
def branch (c : BaseCPU β) (condition : Bool) (addr : Nat) : BaseCPU β :=
  if condition then
    let oldPC := c.PC
    let c1 := { c with PC := addr }
    let c2 := { c1 with Cycles := (c1.Cycles + 1) % 256 }
    { c2 with
      Cycles := if (oldPC &&& 0xFF00) != (c2.PC &&& 0xFF00) then (c2.Cycles + 1) % 256 else c2.Cycles }
  else c

/-- Go `BCC`. -/
def BCC (c : BaseCPU β) (addr : Nat) (_pageCrossed : Bool) : BaseCPU β :=
  branch c (!c.GetFlag FlagCarry) addr

/-- Go `BCS`. -/
def BCS (c : BaseCPU β) (addr : Nat) (_pageCrossed : Bool) : BaseCPU β :=
  branch c (c.GetFlag FlagCarry) addr

/-- Go `BEQ`. -/
def BEQ (c : BaseCPU β) (addr : Nat) (_pageCrossed : Bool) : BaseCPU β :=
  branch c (c.GetFlag FlagZero) addr

/-- Go `BNE`. -/
def BNE (c : BaseCPU β) (addr : Nat) (_pageCrossed : Bool) : BaseCPU β :=
  branch c (!c.GetFlag FlagZero) addr

/-- Go `BMI`. -/
def BMI (c : BaseCPU β) (addr : Nat) (_pageCrossed : Bool) : BaseCPU β :=
  branch c (c.GetFlag FlagNegative) addr

/-- Go `BPL`. -/
def BPL (c : BaseCPU β) (addr : Nat) (_pageCrossed : Bool) : BaseCPU β :=
  branch c (!c.GetFlag FlagNegative) addr

/-- Go `BVC`. -/
def BVC (c : BaseCPU β) (addr : Nat) (_pageCrossed : Bool) : BaseCPU β :=
  branch c (!c.GetFlag FlagOverflow) addr

/-- Go `BVS`. -/
def BVS (c : BaseCPU β) (addr : Nat) (_pageCrossed : Bool) : BaseCPU β :=
  branch c (c.GetFlag FlagOverflow) addr

/-- Go `BRA`. -/
def BRA (c : BaseCPU β) (addr : Nat) (_pageCrossed : Bool) : BaseCPU β :=
  let oldPC := c.PC
  let c1 := { c with PC := addr }
  let c2 := { c1 with Cycles := (c1.Cycles + 1) % 256 }
  { c2 with
    Cycles := if (oldPC &&& 0xFF00) != (c2.PC &&& 0xFF00) then (c2.Cycles + 1) % 256 else c2.Cycles }

/-- Go `CLC`. -/
def CLC (c : BaseCPU β) (_addr : Nat) (_pageCrossed : Bool) : BaseCPU β :=
  c.SetFlag FlagCarry false

/-- Go `SEC`. -/
def SEC (c : BaseCPU β) (_addr : Nat) (_pageCrossed : Bool) : BaseCPU β :=
  c.SetFlag FlagCarry true

/-- Go `CLI`. -/
def CLI (c : BaseCPU β) (_addr : Nat) (_pageCrossed : Bool) : BaseCPU β :=
  c.SetFlag FlagInterruptDisable false

/-- Go `SEI`. -/
def SEI (c : BaseCPU β) (_addr : Nat) (_pageCrossed : Bool) : BaseCPU β :=
  c.SetFlag FlagInterruptDisable true

/-- Go `CLD`. -/
def CLD (c : BaseCPU β) (_addr : Nat) (_pageCrossed : Bool) : BaseCPU β :=
  c.SetFlag FlagDecimal false

/-- Go `SED`. -/
def SED (c : BaseCPU β) (_addr : Nat) (_pageCrossed : Bool) : BaseCPU β :=
  c.SetFlag FlagDecimal true

/-- Go `CLV`. -/
def CLV (c : BaseCPU β) (_addr : Nat) (_pageCrossed : Bool) : BaseCPU β :=
  c.SetFlag FlagOverflow false

/-- Go `NOP`. -/
def NOP (c : BaseCPU β) (_addr : Nat) (_pageCrossed : Bool) : BaseCPU β :=
  c

/-- Go `branchOnBit`. -/
def branchOnBit (c : BaseCPU β) (data : Nat) (bit : Nat) (testSet : Bool) : BaseCPU β :=
  let bitValue := (data >>> bit) &&& 1
  let shouldBranch := (bitValue == 1) == testSet
  if shouldBranch then
    let r := c.read c.PC
    let offset := r.1
    let c1 := { r.2 with PC := (r.2.PC + 1) % 65536 }
    let target :=
      if offset < 0x80 then (c1.PC + offset) % 65536
      else (c1.PC + offset + 65536 - 0x100) % 65536
    let oldPC := c1.PC
    let c2 := { c1 with PC := target }
    let c3 := { c2 with Cycles := (c2.Cycles + 1) % 256 }
    { c3 with
      Cycles := if (oldPC &&& 0xFF00) != (c3.PC &&& 0xFF00) then (c3.Cycles + 1) % 256 else c3.Cycles }
  else
    { c with PC := (c.PC + 1) % 65536 }

/-- Go `RMB0`; `data &^ byte(1<<0)`. -/
def RMB0 (c : BaseCPU β) (addr : Nat) (_pageCrossed : Bool) : BaseCPU β :=
  let r := c.read addr
  r.2.write addr (r.1 &&& (((1 <<< 0) % 256) ^^^ 0xFF))

/-- Go `RMB1`; `data &^ byte(1<<1)`. -/
def RMB1 (c : BaseCPU β) (addr : Nat) (_pageCrossed : Bool) : BaseCPU β :=
  let r := c.read addr
  r.2.write addr (r.1 &&& (((1 <<< 1) % 256) ^^^ 0xFF))

/-- Go `RMB2`; `data &^ byte(1<<2)`. -/
def RMB2 (c : BaseCPU β) (addr : Nat) (_pageCrossed : Bool) : BaseCPU β :=
  let r := c.read addr
  r.2.write addr (r.1 &&& (((1 <<< 2) % 256) ^^^ 0xFF))

/-- Go `RMB3`; `data &^ byte(1<<3)`. -/
def RMB3 (c : BaseCPU β) (addr : Nat) (_pageCrossed : Bool) : BaseCPU β :=
  let r := c.read addr
  r.2.write addr (r.1 &&& (((1 <<< 3) % 256) ^^^ 0xFF))

/-- Go `RMB4`; `data &^ byte(1<<4)`. -/
def RMB4 (c : BaseCPU β) (addr : Nat) (_pageCrossed : Bool) : BaseCPU β :=
  let r := c.read addr
  r.2.write addr (r.1 &&& (((1 <<< 4) % 256) ^^^ 0xFF))

/-- Go `RMB5`; `data &^ byte(1<<5)`. -/
def RMB5 (c : BaseCPU β) (addr : Nat) (_pageCrossed : Bool) : BaseCPU β :=
  let r := c.read addr
  r.2.write addr (r.1 &&& (((1 <<< 5) % 256) ^^^ 0xFF))

/-- Go `RMB6`; `data &^ byte(1<<6)`. -/
def RMB6 (c : BaseCPU β) (addr : Nat) (_pageCrossed : Bool) : BaseCPU β :=
  let r := c.read addr
  r.2.write addr (r.1 &&& (((1 <<< 6) % 256) ^^^ 0xFF))

/-- Go `RMB7`; `data &^ byte(1<<7)`. -/
def RMB7 (c : BaseCPU β) (addr : Nat) (_pageCrossed : Bool) : BaseCPU β :=
  let r := c.read addr
  r.2.write addr (r.1 &&& (((1 <<< 7) % 256) ^^^ 0xFF))

/-- Go `SMB0`. -/
def SMB0 (c : BaseCPU β) (addr : Nat) (_pageCrossed : Bool) : BaseCPU β :=
  let r := c.read addr
  r.2.write addr (r.1 ||| ((1 <<< 0) % 256))

/-- Go `SMB1`. -/
def SMB1 (c : BaseCPU β) (addr : Nat) (_pageCrossed : Bool) : BaseCPU β :=
  let r := c.read addr
  r.2.write addr (r.1 ||| ((1 <<< 1) % 256))

/-- Go `SMB2`. -/
def SMB2 (c : BaseCPU β) (addr : Nat) (_pageCrossed : Bool) : BaseCPU β :=
  let r := c.read addr
  r.2.write addr (r.1 ||| ((1 <<< 2) % 256))

/-- Go `SMB3`. -/
def SMB3 (c : BaseCPU β) (addr : Nat) (_pageCrossed : Bool) : BaseCPU β :=
  let r := c.read addr
  r.2.write addr (r.1 ||| ((1 <<< 3) % 256))

/-- Go `SMB4`. -/
def SMB4 (c : BaseCPU β) (addr : Nat) (_pageCrossed : Bool) : BaseCPU β :=
  let r := c.read addr
  r.2.write addr (r.1 ||| ((1 <<< 4) % 256))

/-- Go `SMB5`. -/
def SMB5 (c : BaseCPU β) (addr : Nat) (_pageCrossed : Bool) : BaseCPU β :=
  let r := c.read addr
  r.2.write addr (r.1 ||| ((1 <<< 5) % 256))

/-- Go `SMB6`. -/
def SMB6 (c : BaseCPU β) (addr : Nat) (_pageCrossed : Bool) : BaseCPU β :=
  let r := c.read addr
  r.2.write addr (r.1 ||| ((1 <<< 6) % 256))

/-- Go `SMB7`. -/
def SMB7 (c : BaseCPU β) (addr : Nat) (_pageCrossed : Bool) : BaseCPU β :=
  let r := c.read addr
  r.2.write addr (r.1 ||| ((1 <<< 7) % 256))

/-- Go `BBR0`. -/
def BBR0 (c : BaseCPU β) (addr : Nat) (_pageCrossed : Bool) : BaseCPU β :=
  let r := c.read addr
  branchOnBit r.2 r.1 0 false

/-- Go `BBR1`. -/
def BBR1 (c : BaseCPU β) (addr : Nat) (_pageCrossed : Bool) : BaseCPU β :=
  let r := c.read addr
  branchOnBit r.2 r.1 1 false

/-- Go `BBR2`. -/
def BBR2 (c : BaseCPU β) (addr : Nat) (_pageCrossed : Bool) : BaseCPU β :=
  let r := c.read addr
  branchOnBit r.2 r.1 2 false

/-- Go `BBR3`. -/
def BBR3 (c : BaseCPU β) (addr : Nat) (_pageCrossed : Bool) : BaseCPU β :=
  let r := c.read addr
  branchOnBit r.2 r.1 3 false

/-- Go `BBR4`. -/
def BBR4 (c : BaseCPU β) (addr : Nat) (_pageCrossed : Bool) : BaseCPU β :=
  let r := c.read addr
  branchOnBit r.2 r.1 4 false

/-- Go `BBR5`. -/
def BBR5 (c : BaseCPU β) (addr : Nat) (_pageCrossed : Bool) : BaseCPU β :=
  let r := c.read addr
  branchOnBit r.2 r.1 5 false

/-- Go `BBR6`. -/
def BBR6 (c : BaseCPU β) (addr : Nat) (_pageCrossed : Bool) : BaseCPU β :=
  let r := c.read addr
  branchOnBit r.2 r.1 6 false

/-- Go `BBR7`. -/
def BBR7 (c : BaseCPU β) (addr : Nat) (_pageCrossed : Bool) : BaseCPU β :=
  let r := c.read addr
  branchOnBit r.2 r.1 7 false

/-- Go `BBS0`. -/
def BBS0 (c : BaseCPU β) (addr : Nat) (_pageCrossed : Bool) : BaseCPU β :=
  let r := c.read addr
  branchOnBit r.2 r.1 0 true

/-- Go `BBS1`. -/
def BBS1 (c : BaseCPU β) (addr : Nat) (_pageCrossed : Bool) : BaseCPU β :=
  let r := c.read addr
  branchOnBit r.2 r.1 1 true

/-- Go `BBS2`. -/
def BBS2 (c : BaseCPU β) (addr : Nat) (_pageCrossed : Bool) : BaseCPU β :=
  let r := c.read addr
  branchOnBit r.2 r.1 2 true

/-- Go `BBS3`. -/
def BBS3 (c : BaseCPU β) (addr : Nat) (_pageCrossed : Bool) : BaseCPU β :=
  let r := c.read addr
  branchOnBit r.2 r.1 3 true

/-- Go `BBS4`. -/
def BBS4 (c : BaseCPU β) (addr : Nat) (_pageCrossed : Bool) : BaseCPU β :=
  let r := c.read addr
  branchOnBit r.2 r.1 4 true

/-- Go `BBS5`. -/
def BBS5 (c : BaseCPU β) (addr : Nat) (_pageCrossed : Bool) : BaseCPU β :=
  let r := c.read addr
  branchOnBit r.2 r.1 5 true

/-- Go `BBS6`. -/
def BBS6 (c : BaseCPU β) (addr : Nat) (_pageCrossed : Bool) : BaseCPU β :=
  let r := c.read addr
  branchOnBit r.2 r.1 6 true

/-- Go `BBS7`. -/
def BBS7 (c : BaseCPU β) (addr : Nat) (_pageCrossed : Bool) : BaseCPU β :=
  let r := c.read addr
  branchOnBit r.2 r.1 7 true

/-- Go `WAI`: the body holds comments only. -/
def WAI (c : BaseCPU β) (_addr : Nat) (_pageCrossed : Bool) : BaseCPU β :=
  c

/-- Go `STP`. -/
def STP (c : BaseCPU β) (_addr : Nat) (_pageCrossed : Bool) : BaseCPU β :=
  { c with Halted := true }

end wdc65c02

/-! ## pkg/wdc65c02: instruction map and step driver -/

namespace wdc65c02

open core

variable {β : Type}

/-- The addressing-mode methods of `*CPU` (addressing.go), as stored in the instruction map. -/
inductive AddrModeFn where
  | addrImmediate
  | addrZeroPage
  | addrZeroPageX
  | addrZeroPageY
  | addrAbsolute
  | addrAbsoluteX
  | addrAbsoluteY
  | addrIndirect
  | addrIndirectX
  | addrIndirectY
  | addrRelative
  | addrZeroPageIndirect
  | addrAbsoluteIndexedIndirect
  deriving DecidableEq

/-- The operation methods of `*CPU` (instructions.go), as stored in the instruction map. -/
inductive OperationFn where
  | lda
  | ldx
  | ldy
  | sta
  | stx
  | sty
  | stz
  | tax
  | tay
  | txa
  | tya
  | tsx
  | txs
  | pha
  | pla
  | php
  | plp
  | phx
  | phy
  | plx
  | ply
  | adc
  | sbc
  | cmp
  | cpx
  | cpy
  | inc
  | dec
  | inx
  | dex
  | iny
  | dey
  | inca
  | deca
  | asl
  | aslAccumulator
  | lsr
  | lsrAccumulator
  | rol
  | rolAccumulator
  | ror
  | rorAccumulator
  | and
  | ora
  | eor
  | bit
  | tsb
  | trb
  | jmp
  | jsr
  | rts
  | rti
  | brk
  | bcc
  | bcs
  | beq
  | bne
  | bmi
  | bpl
  | bvc
  | bvs
  | bra
  | clc
  | sec
  | cli
  | sei
  | cld
  | sed
  | clv
  | nop
  | rmb0
  | rmb1
  | rmb2
  | rmb3
  | rmb4
  | rmb5
  | rmb6
  | rmb7
  | smb0
  | smb1
  | smb2
  | smb3
  | smb4
  | smb5
  | smb6
  | smb7
  | bbr0
  | bbr1
  | bbr2
  | bbr3
  | bbr4
  | bbr5
  | bbr6
  | bbr7
  | bbs0
  | bbs1
  | bbs2
  | bbs3
  | bbs4
  | bbs5
  | bbs6
  | bbs7
  | wai
  | stp
  deriving DecidableEq

/-- Each addressing wrapper delegates to the `BaseCPU` resolver. -/
def AddrModeFn.run : AddrModeFn → BaseCPU β → (Nat × Bool) × BaseCPU β
  | .addrImmediate => BaseCPU.AddrImmediate
  | .addrZeroPage => BaseCPU.AddrZeroPage
  | .addrZeroPageX => BaseCPU.AddrZeroPageX
  | .addrZeroPageY => BaseCPU.AddrZeroPageY
  | .addrAbsolute => BaseCPU.AddrAbsolute
  | .addrAbsoluteX => BaseCPU.AddrAbsoluteX
  | .addrAbsoluteY => BaseCPU.AddrAbsoluteY
  | .addrIndirect => BaseCPU.AddrIndirect
  | .addrIndirectX => BaseCPU.AddrIndirectX
  | .addrIndirectY => BaseCPU.AddrIndirectY
  | .addrRelative => BaseCPU.AddrRelative
  | .addrZeroPageIndirect => BaseCPU.AddrZeroPageIndirect
  | .addrAbsoluteIndexedIndirect => BaseCPU.AddrAbsoluteIndexedIndirect

/-- Each operation wrapper delegates to the function of the instructions package. -/
def OperationFn.run : OperationFn → BaseCPU β → Nat → Bool → BaseCPU β
  | .lda => LDA
  | .ldx => LDX
  | .ldy => LDY
  | .sta => STA
  | .stx => STX
  | .sty => STY
  | .stz => STZ
  | .tax => TAX
  | .tay => TAY
  | .txa => TXA
  | .tya => TYA
  | .tsx => TSX
  | .txs => TXS
  | .pha => PHA
  | .pla => PLA
  | .php => PHP
  | .plp => PLP
  | .phx => PHX
  | .phy => PHY
  | .plx => PLX
  | .ply => PLY
  | .adc => ADC
  | .sbc => SBC
  | .cmp => CMP
  | .cpx => CPX
  | .cpy => CPY
  | .inc => INC
  | .dec => DEC
  | .inx => INX
  | .dex => DEX
  | .iny => INY
  | .dey => DEY
  | .inca => INCA
  | .deca => DECA
  | .asl => ASL
  | .aslAccumulator => ASLAccumulator
  | .lsr => LSR
  | .lsrAccumulator => LSRAccumulator
  | .rol => ROL
  | .rolAccumulator => ROLAccumulator
  | .ror => ROR
  | .rorAccumulator => RORAccumulator
  | .and => AND
  | .ora => ORA
  | .eor => EOR
  | .bit => BIT
  | .tsb => TSB
  | .trb => TRB
  | .jmp => JMP
  | .jsr => JSR
  | .rts => RTS
  | .rti => RTI
  | .brk => BRK
  | .bcc => BCC
  | .bcs => BCS
  | .beq => BEQ
  | .bne => BNE
  | .bmi => BMI
  | .bpl => BPL
  | .bvc => BVC
  | .bvs => BVS
  | .bra => BRA
  | .clc => CLC
  | .sec => SEC
  | .cli => CLI
  | .sei => SEI
  | .cld => CLD
  | .sed => SED
  | .clv => CLV
  | .nop => NOP
  | .rmb0 => RMB0
  | .rmb1 => RMB1
  | .rmb2 => RMB2
  | .rmb3 => RMB3
  | .rmb4 => RMB4
  | .rmb5 => RMB5
  | .rmb6 => RMB6
  | .rmb7 => RMB7
  | .smb0 => SMB0
  | .smb1 => SMB1
  | .smb2 => SMB2
  | .smb3 => SMB3
  | .smb4 => SMB4
  | .smb5 => SMB5
  | .smb6 => SMB6
  | .smb7 => SMB7
  | .bbr0 => BBR0
  | .bbr1 => BBR1
  | .bbr2 => BBR2
  | .bbr3 => BBR3
  | .bbr4 => BBR4
  | .bbr5 => BBR5
  | .bbr6 => BBR6
  | .bbr7 => BBR7
  | .bbs0 => BBS0
  | .bbs1 => BBS1
  | .bbs2 => BBS2
  | .bbs3 => BBS3
  | .bbs4 => BBS4
  | .bbs5 => BBS5
  | .bbs6 => BBS6
  | .bbs7 => BBS7
  | .wai => WAI
  | .stp => STP

/-- Go `Instruction`. -/
structure Instruction where
  Name : String
  AddrMode : Option AddrModeFn
  Operation : OperationFn
  Cycles : Nat
  deriving DecidableEq

/-- The key-value pairs of the `instructionMap` literal, in source order. -/
def instructionTable : List (Nat × Instruction) := [
  (0x00, Instruction.mk "BRK" none OperationFn.brk 7),
  (0x01, Instruction.mk "ORA" (some AddrModeFn.addrIndirectX) OperationFn.ora 6),
  (0x05, Instruction.mk "ORA" (some AddrModeFn.addrZeroPage) OperationFn.ora 3),
  (0x06, Instruction.mk "ASL" (some AddrModeFn.addrZeroPage) OperationFn.asl 5),
  (0x08, Instruction.mk "PHP" none OperationFn.php 3),
  (0x09, Instruction.mk "ORA" (some AddrModeFn.addrImmediate) OperationFn.ora 2),
  (0x0A, Instruction.mk "ASL" none OperationFn.aslAccumulator 2),
  (0x0D, Instruction.mk "ORA" (some AddrModeFn.addrAbsolute) OperationFn.ora 4),
  (0x0E, Instruction.mk "ASL" (some AddrModeFn.addrAbsolute) OperationFn.asl 6),
  (0x10, Instruction.mk "BPL" (some AddrModeFn.addrRelative) OperationFn.bpl 2),
  (0x11, Instruction.mk "ORA" (some AddrModeFn.addrIndirectY) OperationFn.ora 5),
  (0x12, Instruction.mk "ORA" (some AddrModeFn.addrZeroPageIndirect) OperationFn.ora 5),
  (0x15, Instruction.mk "ORA" (some AddrModeFn.addrZeroPageX) OperationFn.ora 4),
  (0x16, Instruction.mk "ASL" (some AddrModeFn.addrZeroPageX) OperationFn.asl 6),
  (0x18, Instruction.mk "CLC" none OperationFn.clc 2),
  (0x19, Instruction.mk "ORA" (some AddrModeFn.addrAbsoluteY) OperationFn.ora 4),
  (0x1A, Instruction.mk "INC" none OperationFn.inca 2),
  (0x1D, Instruction.mk "ORA" (some AddrModeFn.addrAbsoluteX) OperationFn.ora 4),
  (0x1E, Instruction.mk "ASL" (some AddrModeFn.addrAbsoluteX) OperationFn.asl 7),
  (0x20, Instruction.mk "JSR" (some AddrModeFn.addrAbsolute) OperationFn.jsr 6),
  (0x21, Instruction.mk "AND" (some AddrModeFn.addrIndirectX) OperationFn.and 6),
  (0x24, Instruction.mk "BIT" (some AddrModeFn.addrZeroPage) OperationFn.bit 3),
  (0x25, Instruction.mk "AND" (some AddrModeFn.addrZeroPage) OperationFn.and 3),
  (0x26, Instruction.mk "ROL" (some AddrModeFn.addrZeroPage) OperationFn.rol 5),
  (0x28, Instruction.mk "PLP" none OperationFn.plp 4),
  (0x29, Instruction.mk "AND" (some AddrModeFn.addrImmediate) OperationFn.and 2),
  (0x2A, Instruction.mk "ROL" none OperationFn.rolAccumulator 2),
  (0x2C, Instruction.mk "BIT" (some AddrModeFn.addrAbsolute) OperationFn.bit 4),
  (0x2D, Instruction.mk "AND" (some AddrModeFn.addrAbsolute) OperationFn.and 4),
  (0x2E, Instruction.mk "ROL" (some AddrModeFn.addrAbsolute) OperationFn.rol 6),
  (0x30, Instruction.mk "BMI" (some AddrModeFn.addrRelative) OperationFn.bmi 2),
  (0x31, Instruction.mk "AND" (some AddrModeFn.addrIndirectY) OperationFn.and 5),
  (0x32, Instruction.mk "AND" (some AddrModeFn.addrZeroPageIndirect) OperationFn.and 5),
  (0x35, Instruction.mk "AND" (some AddrModeFn.addrZeroPageX) OperationFn.and 4),
  (0x36, Instruction.mk "ROL" (some AddrModeFn.addrZeroPageX) OperationFn.rol 6),
  (0x38, Instruction.mk "SEC" none OperationFn.sec 2),
  (0x39, Instruction.mk "AND" (some AddrModeFn.addrAbsoluteY) OperationFn.and 4),
  (0x3A, Instruction.mk "DEC" none OperationFn.deca 2),
  (0x3D, Instruction.mk "AND" (some AddrModeFn.addrAbsoluteX) OperationFn.and 4),
  (0x3E, Instruction.mk "ROL" (some AddrModeFn.addrAbsoluteX) OperationFn.rol 7),
  (0x40, Instruction.mk "RTI" none OperationFn.rti 6),
  (0x41, Instruction.mk "EOR" (some AddrModeFn.addrIndirectX) OperationFn.eor 6),
  (0x45, Instruction.mk "EOR" (some AddrModeFn.addrZeroPage) OperationFn.eor 3),
  (0x46, Instruction.mk "LSR" (some AddrModeFn.addrZeroPage) OperationFn.lsr 5),
  (0x48, Instruction.mk "PHA" none OperationFn.pha 3),
  (0x49, Instruction.mk "EOR" (some AddrModeFn.addrImmediate) OperationFn.eor 2),
  (0x4A, Instruction.mk "LSR" none OperationFn.lsrAccumulator 2),
  (0x4C, Instruction.mk "JMP" (some AddrModeFn.addrAbsolute) OperationFn.jmp 3),
  (0x4D, Instruction.mk "EOR" (some AddrModeFn.addrAbsolute) OperationFn.eor 4),
  (0x4E, Instruction.mk "LSR" (some AddrModeFn.addrAbsolute) OperationFn.lsr 6),
  (0x50, Instruction.mk "BVC" (some AddrModeFn.addrRelative) OperationFn.bvc 2),
  (0x51, Instruction.mk "EOR" (some AddrModeFn.addrIndirectY) OperationFn.eor 5),
  (0x52, Instruction.mk "EOR" (some AddrModeFn.addrZeroPageIndirect) OperationFn.eor 5),
  (0x55, Instruction.mk "EOR" (some AddrModeFn.addrZeroPageX) OperationFn.eor 4),
  (0x56, Instruction.mk "LSR" (some AddrModeFn.addrZeroPageX) OperationFn.lsr 6),
  (0x58, Instruction.mk "CLI" none OperationFn.cli 2),
  (0x59, Instruction.mk "EOR" (some AddrModeFn.addrAbsoluteY) OperationFn.eor 4),
  (0x5A, Instruction.mk "PHY" none OperationFn.phy 3),
  (0x5D, Instruction.mk "EOR" (some AddrModeFn.addrAbsoluteX) OperationFn.eor 4),
  (0x5E, Instruction.mk "LSR" (some AddrModeFn.addrAbsoluteX) OperationFn.lsr 6),
  (0x60, Instruction.mk "RTS" none OperationFn.rts 6),
  (0x61, Instruction.mk "ADC" (some AddrModeFn.addrIndirectX) OperationFn.adc 6),
  (0x64, Instruction.mk "STZ" (some AddrModeFn.addrZeroPage) OperationFn.stz 3),
  (0x65, Instruction.mk "ADC" (some AddrModeFn.addrZeroPage) OperationFn.adc 3),
  (0x66, Instruction.mk "ROR" (some AddrModeFn.addrZeroPage) OperationFn.ror 5),
  (0x68, Instruction.mk "PLA" none OperationFn.pla 4),
  (0x69, Instruction.mk "ADC" (some AddrModeFn.addrImmediate) OperationFn.adc 2),
  (0x6A, Instruction.mk "ROR" none OperationFn.rorAccumulator 2),
  (0x6C, Instruction.mk "JMP" (some AddrModeFn.addrIndirect) OperationFn.jmp 5),
  (0x6D, Instruction.mk "ADC" (some AddrModeFn.addrAbsolute) OperationFn.adc 4),
  (0x6E, Instruction.mk "ROR" (some AddrModeFn.addrAbsolute) OperationFn.ror 6),
  (0x70, Instruction.mk "BVS" (some AddrModeFn.addrRelative) OperationFn.bvs 2),
  (0x71, Instruction.mk "ADC" (some AddrModeFn.addrIndirectY) OperationFn.adc 5),
  (0x72, Instruction.mk "ADC" (some AddrModeFn.addrZeroPageIndirect) OperationFn.adc 5),
  (0x74, Instruction.mk "STZ" (some AddrModeFn.addrZeroPageX) OperationFn.stz 4),
  (0x75, Instruction.mk "ADC" (some AddrModeFn.addrZeroPageX) OperationFn.adc 4),
  (0x76, Instruction.mk "ROR" (some AddrModeFn.addrZeroPageX) OperationFn.ror 6),
  (0x78, Instruction.mk "SEI" none OperationFn.sei 2),
  (0x79, Instruction.mk "ADC" (some AddrModeFn.addrAbsoluteY) OperationFn.adc 4),
  (0x7A, Instruction.mk "PLY" none OperationFn.ply 4),
  (0x7D, Instruction.mk "ADC" (some AddrModeFn.addrAbsoluteX) OperationFn.adc 4),
  (0x7E, Instruction.mk "ROR" (some AddrModeFn.addrAbsoluteX) OperationFn.ror 7),
  (0x80, Instruction.mk "BRA" (some AddrModeFn.addrRelative) OperationFn.bra 3),
  (0x81, Instruction.mk "STA" (some AddrModeFn.addrIndirectX) OperationFn.sta 6),
  (0x84, Instruction.mk "STY" (some AddrModeFn.addrZeroPage) OperationFn.sty 3),
  (0x85, Instruction.mk "STA" (some AddrModeFn.addrZeroPage) OperationFn.sta 3),
  (0x86, Instruction.mk "STX" (some AddrModeFn.addrZeroPage) OperationFn.stx 3),
  (0x88, Instruction.mk "DEY" none OperationFn.dey 2),
  (0x89, Instruction.mk "BIT" (some AddrModeFn.addrImmediate) OperationFn.bit 2),
  (0x8A, Instruction.mk "TXA" none OperationFn.txa 2),
  (0x8C, Instruction.mk "STY" (some AddrModeFn.addrAbsolute) OperationFn.sty 4),
  (0x8D, Instruction.mk "STA" (some AddrModeFn.addrAbsolute) OperationFn.sta 4),
  (0x8E, Instruction.mk "STX" (some AddrModeFn.addrAbsolute) OperationFn.stx 4),
  (0x90, Instruction.mk "BCC" (some AddrModeFn.addrRelative) OperationFn.bcc 2),
  (0x91, Instruction.mk "STA" (some AddrModeFn.addrIndirectY) OperationFn.sta 6),
  (0x92, Instruction.mk "STA" (some AddrModeFn.addrZeroPageIndirect) OperationFn.sta 5),
  (0x94, Instruction.mk "STY" (some AddrModeFn.addrZeroPageX) OperationFn.sty 4),
  (0x95, Instruction.mk "STA" (some AddrModeFn.addrZeroPageX) OperationFn.sta 4),
  (0x96, Instruction.mk "STX" (some AddrModeFn.addrZeroPageY) OperationFn.stx 4),
  (0x98, Instruction.mk "TYA" none OperationFn.tya 2),
  (0x99, Instruction.mk "STA" (some AddrModeFn.addrAbsoluteY) OperationFn.sta 5),
  (0x9A, Instruction.mk "TXS" none OperationFn.txs 2),
  (0x9C, Instruction.mk "STZ" (some AddrModeFn.addrAbsolute) OperationFn.stz 4),
  (0x9D, Instruction.mk "STA" (some AddrModeFn.addrAbsoluteX) OperationFn.sta 5),
  (0x9E, Instruction.mk "STZ" (some AddrModeFn.addrAbsoluteX) OperationFn.stz 5),
  (0xA0, Instruction.mk "LDY" (some AddrModeFn.addrImmediate) OperationFn.ldy 2),
  (0xA1, Instruction.mk "LDA" (some AddrModeFn.addrIndirectX) OperationFn.lda 6),
  (0xA2, Instruction.mk "LDX" (some AddrModeFn.addrImmediate) OperationFn.ldx 2),
  (0xA4, Instruction.mk "LDY" (some AddrModeFn.addrZeroPage) OperationFn.ldy 3),
  (0xA5, Instruction.mk "LDA" (some AddrModeFn.addrZeroPage) OperationFn.lda 3),
  (0xA6, Instruction.mk "LDX" (some AddrModeFn.addrZeroPage) OperationFn.ldx 3),
  (0xA8, Instruction.mk "TAY" none OperationFn.tay 2),
  (0xA9, Instruction.mk "LDA" (some AddrModeFn.addrImmediate) OperationFn.lda 2),
  (0xAA, Instruction.mk "TAX" none OperationFn.tax 2),
  (0xAC, Instruction.mk "LDY" (some AddrModeFn.addrAbsolute) OperationFn.ldy 4),
  (0xAD, Instruction.mk "LDA" (some AddrModeFn.addrAbsolute) OperationFn.lda 4),
  (0xAE, Instruction.mk "LDX" (some AddrModeFn.addrAbsolute) OperationFn.ldx 4),
  (0xB0, Instruction.mk "BCS" (some AddrModeFn.addrRelative) OperationFn.bcs 2),
  (0xB1, Instruction.mk "LDA" (some AddrModeFn.addrIndirectY) OperationFn.lda 5),
  (0xB2, Instruction.mk "LDA" (some AddrModeFn.addrZeroPageIndirect) OperationFn.lda 5),
  (0xB4, Instruction.mk "LDY" (some AddrModeFn.addrZeroPageX) OperationFn.ldy 4),
  (0xB5, Instruction.mk "LDA" (some AddrModeFn.addrZeroPageX) OperationFn.lda 4),
  (0xB6, Instruction.mk "LDX" (some AddrModeFn.addrZeroPageY) OperationFn.ldx 4),
  (0xB8, Instruction.mk "CLV" none OperationFn.clv 2),
  (0xB9, Instruction.mk "LDA" (some AddrModeFn.addrAbsoluteY) OperationFn.lda 4),
  (0xBA, Instruction.mk "TSX" none OperationFn.tsx 2),
  (0xBC, Instruction.mk "LDY" (some AddrModeFn.addrAbsoluteX) OperationFn.ldy 4),
  (0xBD, Instruction.mk "LDA" (some AddrModeFn.addrAbsoluteX) OperationFn.lda 4),
  (0xBE, Instruction.mk "LDX" (some AddrModeFn.addrAbsoluteY) OperationFn.ldx 4),
  (0xC0, Instruction.mk "CPY" (some AddrModeFn.addrImmediate) OperationFn.cpy 2),
  (0xC1, Instruction.mk "CMP" (some AddrModeFn.addrIndirectX) OperationFn.cmp 6),
  (0xC4, Instruction.mk "CPY" (some AddrModeFn.addrZeroPage) OperationFn.cpy 3),
  (0xC5, Instruction.mk "CMP" (some AddrModeFn.addrZeroPage) OperationFn.cmp 3),
  (0xC6, Instruction.mk "DEC" (some AddrModeFn.addrZeroPage) OperationFn.dec 5),
  (0xC8, Instruction.mk "INY" none OperationFn.iny 2),
  (0xC9, Instruction.mk "CMP" (some AddrModeFn.addrImmediate) OperationFn.cmp 2),
  (0xCA, Instruction.mk "DEX" none OperationFn.dex 2),
  (0xCB, Instruction.mk "WAI" none OperationFn.wai 3),
  (0xCC, Instruction.mk "CPY" (some AddrModeFn.addrAbsolute) OperationFn.cpy 4),
  (0xCD, Instruction.mk "CMP" (some AddrModeFn.addrAbsolute) OperationFn.cmp 4),
  (0xCE, Instruction.mk "DEC" (some AddrModeFn.addrAbsolute) OperationFn.dec 6),
  (0xD0, Instruction.mk "BNE" (some AddrModeFn.addrRelative) OperationFn.bne 2),
  (0xD1, Instruction.mk "CMP" (some AddrModeFn.addrIndirectY) OperationFn.cmp 5),
  (0xD2, Instruction.mk "CMP" (some AddrModeFn.addrZeroPageIndirect) OperationFn.cmp 5),
  (0xD5, Instruction.mk "CMP" (some AddrModeFn.addrZeroPageX) OperationFn.cmp 4),
  (0xD6, Instruction.mk "DEC" (some AddrModeFn.addrZeroPageX) OperationFn.dec 6),
  (0xD8, Instruction.mk "CLD" none OperationFn.cld 2),
  (0xD9, Instruction.mk "CMP" (some AddrModeFn.addrAbsoluteY) OperationFn.cmp 4),
  (0xDA, Instruction.mk "PHX" none OperationFn.phx 3),
  (0xDB, Instruction.mk "STP" none OperationFn.stp 3),
  (0xDD, Instruction.mk "CMP" (some AddrModeFn.addrAbsoluteX) OperationFn.cmp 4),
  (0xDE, Instruction.mk "DEC" (some AddrModeFn.addrAbsoluteX) OperationFn.dec 7),
  (0xE0, Instruction.mk "CPX" (some AddrModeFn.addrImmediate) OperationFn.cpx 2),
  (0xE1, Instruction.mk "SBC" (some AddrModeFn.addrIndirectX) OperationFn.sbc 6),
  (0xE4, Instruction.mk "CPX" (some AddrModeFn.addrZeroPage) OperationFn.cpx 3),
  (0xE5, Instruction.mk "SBC" (some AddrModeFn.addrZeroPage) OperationFn.sbc 3),
  (0xE6, Instruction.mk "INC" (some AddrModeFn.addrZeroPage) OperationFn.inc 5),
  (0xE8, Instruction.mk "INX" none OperationFn.inx 2),
  (0xE9, Instruction.mk "SBC" (some AddrModeFn.addrImmediate) OperationFn.sbc 2),
  (0xEA, Instruction.mk "NOP" none OperationFn.nop 2),
  (0xEC, Instruction.mk "CPX" (some AddrModeFn.addrAbsolute) OperationFn.cpx 4),
  (0xED, Instruction.mk "SBC" (some AddrModeFn.addrAbsolute) OperationFn.sbc 4),
  (0xEE, Instruction.mk "INC" (some AddrModeFn.addrAbsolute) OperationFn.inc 6),
  (0xF0, Instruction.mk "BEQ" (some AddrModeFn.addrRelative) OperationFn.beq 2),
  (0xF1, Instruction.mk "SBC" (some AddrModeFn.addrIndirectY) OperationFn.sbc 5),
  (0xF2, Instruction.mk "SBC" (some AddrModeFn.addrZeroPageIndirect) OperationFn.sbc 5),
  (0xF5, Instruction.mk "SBC" (some AddrModeFn.addrZeroPageX) OperationFn.sbc 4),
  (0xF6, Instruction.mk "INC" (some AddrModeFn.addrZeroPageX) OperationFn.inc 6),
  (0xF8, Instruction.mk "SED" none OperationFn.sed 2),
  (0xF9, Instruction.mk "SBC" (some AddrModeFn.addrAbsoluteY) OperationFn.sbc 4),
  (0xFA, Instruction.mk "PLX" none OperationFn.plx 4),
  (0xFD, Instruction.mk "SBC" (some AddrModeFn.addrAbsoluteX) OperationFn.sbc 4),
  (0xFE, Instruction.mk "INC" (some AddrModeFn.addrAbsoluteX) OperationFn.inc 7),
  (0x04, Instruction.mk "TSB" (some AddrModeFn.addrZeroPage) OperationFn.tsb 5),
  (0x0C, Instruction.mk "TSB" (some AddrModeFn.addrAbsolute) OperationFn.tsb 6),
  (0x14, Instruction.mk "TRB" (some AddrModeFn.addrZeroPage) OperationFn.trb 5),
  (0x1C, Instruction.mk "TRB" (some AddrModeFn.addrAbsolute) OperationFn.trb 6),
  (0x07, Instruction.mk "RMB0" (some AddrModeFn.addrZeroPage) OperationFn.rmb0 5),
  (0x17, Instruction.mk "RMB1" (some AddrModeFn.addrZeroPage) OperationFn.rmb1 5),
  (0x27, Instruction.mk "RMB2" (some AddrModeFn.addrZeroPage) OperationFn.rmb2 5),
  (0x37, Instruction.mk "RMB3" (some AddrModeFn.addrZeroPage) OperationFn.rmb3 5),
  (0x47, Instruction.mk "RMB4" (some AddrModeFn.addrZeroPage) OperationFn.rmb4 5),
  (0x57, Instruction.mk "RMB5" (some AddrModeFn.addrZeroPage) OperationFn.rmb5 5),
  (0x67, Instruction.mk "RMB6" (some AddrModeFn.addrZeroPage) OperationFn.rmb6 5),
  (0x77, Instruction.mk "RMB7" (some AddrModeFn.addrZeroPage) OperationFn.rmb7 5),
  (0x87, Instruction.mk "SMB0" (some AddrModeFn.addrZeroPage) OperationFn.smb0 5),
  (0x97, Instruction.mk "SMB1" (some AddrModeFn.addrZeroPage) OperationFn.smb1 5),
  (0xA7, Instruction.mk "SMB2" (some AddrModeFn.addrZeroPage) OperationFn.smb2 5),
  (0xB7, Instruction.mk "SMB3" (some AddrModeFn.addrZeroPage) OperationFn.smb3 5),
  (0xC7, Instruction.mk "SMB4" (some AddrModeFn.addrZeroPage) OperationFn.smb4 5),
  (0xD7, Instruction.mk "SMB5" (some AddrModeFn.addrZeroPage) OperationFn.smb5 5),
  (0xE7, Instruction.mk "SMB6" (some AddrModeFn.addrZeroPage) OperationFn.smb6 5),
  (0xF7, Instruction.mk "SMB7" (some AddrModeFn.addrZeroPage) OperationFn.smb7 5),
  (0x0F, Instruction.mk "BBR0" (some AddrModeFn.addrZeroPage) OperationFn.bbr0 5),
  (0x1F, Instruction.mk "BBR1" (some AddrModeFn.addrZeroPage) OperationFn.bbr1 5),
  (0x2F, Instruction.mk "BBR2" (some AddrModeFn.addrZeroPage) OperationFn.bbr2 5),
  (0x3F, Instruction.mk "BBR3" (some AddrModeFn.addrZeroPage) OperationFn.bbr3 5),
  (0x4F, Instruction.mk "BBR4" (some AddrModeFn.addrZeroPage) OperationFn.bbr4 5),
  (0x5F, Instruction.mk "BBR5" (some AddrModeFn.addrZeroPage) OperationFn.bbr5 5),
  (0x6F, Instruction.mk "BBR6" (some AddrModeFn.addrZeroPage) OperationFn.bbr6 5),
  (0x7F, Instruction.mk "BBR7" (some AddrModeFn.addrZeroPage) OperationFn.bbr7 5),
  (0x8F, Instruction.mk "BBS0" (some AddrModeFn.addrZeroPage) OperationFn.bbs0 5),
  (0x9F, Instruction.mk "BBS1" (some AddrModeFn.addrZeroPage) OperationFn.bbs1 5),
  (0xAF, Instruction.mk "BBS2" (some AddrModeFn.addrZeroPage) OperationFn.bbs2 5),
  (0xBF, Instruction.mk "BBS3" (some AddrModeFn.addrZeroPage) OperationFn.bbs3 5),
  (0xCF, Instruction.mk "BBS4" (some AddrModeFn.addrZeroPage) OperationFn.bbs4 5),
  (0xDF, Instruction.mk "BBS5" (some AddrModeFn.addrZeroPage) OperationFn.bbs5 5),
  (0xEF, Instruction.mk "BBS6" (some AddrModeFn.addrZeroPage) OperationFn.bbs6 5),
  (0xFF, Instruction.mk "BBS7" (some AddrModeFn.addrZeroPage) OperationFn.bbs7 5),
  (0x02, Instruction.mk "NOP" (some AddrModeFn.addrImmediate) OperationFn.nop 2),
  (0x03, Instruction.mk "NOP" none OperationFn.nop 1),
  (0x0B, Instruction.mk "NOP" none OperationFn.nop 1),
  (0x13, Instruction.mk "NOP" none OperationFn.nop 1),
  (0x1B, Instruction.mk "NOP" none OperationFn.nop 1),
  (0x22, Instruction.mk "NOP" (some AddrModeFn.addrImmediate) OperationFn.nop 2),
  (0x23, Instruction.mk "NOP" none OperationFn.nop 1),
  (0x2B, Instruction.mk "NOP" none OperationFn.nop 1),
  (0x33, Instruction.mk "NOP" none OperationFn.nop 1),
  (0x3B, Instruction.mk "NOP" none OperationFn.nop 1),
  (0x42, Instruction.mk "NOP" (some AddrModeFn.addrImmediate) OperationFn.nop 2),
  (0x43, Instruction.mk "NOP" none OperationFn.nop 1),
  (0x44, Instruction.mk "NOP" (some AddrModeFn.addrZeroPage) OperationFn.nop 3),
  (0x4B, Instruction.mk "NOP" none OperationFn.nop 1),
  (0x53, Instruction.mk "NOP" none OperationFn.nop 1),
  (0x54, Instruction.mk "NOP" (some AddrModeFn.addrZeroPage) OperationFn.nop 4),
  (0x5B, Instruction.mk "NOP" none OperationFn.nop 1),
  (0x5C, Instruction.mk "NOP" (some AddrModeFn.addrAbsolute) OperationFn.nop 8),
  (0x62, Instruction.mk "NOP" (some AddrModeFn.addrImmediate) OperationFn.nop 2),
  (0x63, Instruction.mk "NOP" none OperationFn.nop 1),
  (0x6B, Instruction.mk "NOP" none OperationFn.nop 1),
  (0x73, Instruction.mk "NOP" none OperationFn.nop 1),
  (0x7B, Instruction.mk "NOP" none OperationFn.nop 1),
  (0x82, Instruction.mk "NOP" (some AddrModeFn.addrImmediate) OperationFn.nop 2),
  (0x83, Instruction.mk "NOP" none OperationFn.nop 1),
  (0x8B, Instruction.mk "NOP" none OperationFn.nop 1),
  (0x93, Instruction.mk "NOP" none OperationFn.nop 1),
  (0x9B, Instruction.mk "NOP" none OperationFn.nop 1),
  (0xA3, Instruction.mk "NOP" none OperationFn.nop 1),
  (0xAB, Instruction.mk "NOP" none OperationFn.nop 1),
  (0xB3, Instruction.mk "NOP" none OperationFn.nop 1),
  (0xBB, Instruction.mk "NOP" none OperationFn.nop 1),
  (0xC2, Instruction.mk "NOP" (some AddrModeFn.addrImmediate) OperationFn.nop 2),
  (0xC3, Instruction.mk "NOP" none OperationFn.nop 1),
  (0xD3, Instruction.mk "NOP" none OperationFn.nop 1),
  (0xD4, Instruction.mk "NOP" (some AddrModeFn.addrZeroPage) OperationFn.nop 4),
  (0xDC, Instruction.mk "NOP" (some AddrModeFn.addrAbsolute) OperationFn.nop 4),
  (0xE2, Instruction.mk "NOP" (some AddrModeFn.addrImmediate) OperationFn.nop 2),
  (0xE3, Instruction.mk "NOP" none OperationFn.nop 1),
  (0xEB, Instruction.mk "NOP" none OperationFn.nop 1),
  (0xF3, Instruction.mk "NOP" none OperationFn.nop 1),
  (0xF4, Instruction.mk "NOP" (some AddrModeFn.addrZeroPage) OperationFn.nop 4),
  (0xFB, Instruction.mk "NOP" none OperationFn.nop 1),
  (0xFC, Instruction.mk "NOP" (some AddrModeFn.addrAbsolute) OperationFn.nop 4),
  (0x7C, Instruction.mk "JMP" (some AddrModeFn.addrAbsoluteIndexedIndirect) OperationFn.jmp 6)]

/-- Go `instructionMap[opcode]`: the entry and whether the key is present. -/
def instructionMap (opcode : Nat) : Option Instruction :=
  instructionTable.lookup opcode

/-- Go `CPU.Step`. -/
def Step (c : BaseCPU β) : BaseCPU β :=
  if c.Cycles == 0 then
    if c.ResetPending then c.HandleReset
    else if c.NMIPending then c.HandleNMI
    else if c.IRQPending && !c.GetFlag FlagInterruptDisable then c.HandleIRQ
    else
      let r := c.read c.PC
      let opcode := r.1
      let c1 := { r.2 with PC := (r.2.PC + 1) % 65536 }
      match instructionMap opcode with
      | none => { c1 with Cycles := 1 }
      | some instruction =>
        let a := match instruction.AddrMode with
          | some m => m.run c1
          | none => ((0, false), c1)
        let c2 := instruction.Operation.run a.2 a.1.1 a.1.2
        let c3 := { c2 with Cycles := (c2.Cycles + instruction.Cycles) % 256 }
        { c3 with Cycles := (c3.Cycles + 255) % 256 }
  else { c with Cycles := (c.Cycles + 255) % 256 }

/-- Go `NewCPU`. -/
def NewCPU (bus : Bus β) : BaseCPU β :=
  NewBaseCPU bus VariantWDC65C02

/-- Go `CPU.Run`: `for !c.Halted { c.Step() }`, with the number of loop
iterations bounded by the first argument. -/
def Run : Nat → BaseCPU β → BaseCPU β
  | 0, c => c
  | n + 1, c => if !c.Halted then Run n (Step c) else c

end wdc65c02

/-! ## Helpers for stating the properties -/

namespace core

variable {β : Type}

/-- A zero-filled `SimpleRAM` with the reset vector set to `$8000`
(`SetResetVector(0x8000)`) and a program loaded at `$8000`
(`LoadProgram(0x8000, program)`), as the tests set it up. -/
def demoRAM (program : List Nat) : SimpleRAM := fun a =>
  if a = 0xFFFC then 0x00
  else if a = 0xFFFD then 0x80
  else if 0x8000 ≤ a ∧ a < 0x8000 + program.length then program.getD (a - 0x8000) 0
  else 0

/-- A `SimpleRAM` after the assignments `memory[addr] = value` of the listed
pairs. -/
def poke (pokes : List (Nat × Nat)) (r : SimpleRAM) : SimpleRAM :=
  fun a => (pokes.lookup a).getD (r a)

/-- The bus after the three stack writes of an interrupt entry as the
specification describes them: PC high at `0x0100 + SP`, PC low at
`0x0100 + (SP - 1) mod 256` and the status byte at `0x0100 + (SP - 2) mod 256`. -/
def BaseCPU.interruptFrame (c : BaseCPU β) : core.Bus β :=
  ((c.Bus.Write (0x0100 + c.SP) ((c.PC >>> 8) % 256)).Write
    (0x0100 + (c.SP + 255) % 256) (c.PC % 256)).Write (0x0100 + (c.SP + 254) % 256) c.Status

/-- The little-endian word found by two successive reads of a bus, at `addr`
and then at `addr + 1`. -/
def Bus.readVector (b : Bus β) (addr : Nat) : Nat :=
  (b.Read addr).1 ||| (((b.Read addr).2.Read (addr + 1)).1 <<< 8)

/-- The operand pointer P of an indirect jump: the little-endian word at PC and
PC + 1. -/
def BaseCPU.indirectPointer (c : BaseCPU β) : Nat :=
  (((c.Bus.Read c.PC).2.Read ((c.PC + 1) % 65536)).1 <<< 8) ||| (c.Bus.Read c.PC).1

/-- The bus once the two operand bytes at PC and PC + 1 have been read. -/
def BaseCPU.operandBus (c : BaseCPU β) : core.Bus β :=
  ((c.Bus.Read c.PC).2.Read ((c.PC + 1) % 65536)).2

/-- The registers of the register file: PC, A, X, Y, SP and Status. -/
def BaseCPU.regs (c : BaseCPU β) : Nat × Nat × Nat × Nat × Nat × Nat :=
  (c.PC, c.A, c.X, c.Y, c.SP, c.Status)

end core

namespace mos6502

open core

variable {β : Type}

/-- The state of `Step` after the opcode fetch: `c.Bus.Read(c.PC)` then `c.PC++`. -/
def fetched (c : BaseCPU β) : BaseCPU β :=
  { (c.read c.PC).2 with PC := ((c.read c.PC).2.PC + 1) % 65536 }

/-- The addressing step of `Step`: the resolver of the instruction when it has
one, and the zero values of `addr` and `pageCrossed` otherwise. -/
def operand (instruction : Instruction) (c : BaseCPU β) : (Nat × Bool) × BaseCPU β :=
  match instruction.AddrMode with
  | some m => m.run c
  | none => ((0, false), c)

/-- The opcode path of `Step`: what `Step` does at a zero budget once no
pending event was serviced (the text of `Step` from the opcode fetch on). -/
def dispatch (c : BaseCPU β) : BaseCPU β :=
  match instructionMap (c.read c.PC).1 with
  | none => { fetched c with Halted := true }
  | some instruction =>
    let a := operand instruction (fetched c)
    let c2 := instruction.Operation.run a.2 a.1.1 a.1.2
    let c3 := { c2 with Cycles := (c2.Cycles + instruction.Cycles) % 256 }
    { c3 with Cycles := (c3.Cycles + 255) % 256 }

/-- The conditional branches BCC, BCS, BEQ, BMI, BNE, BPL, BVC and BVS. -/
def isBranch : OperationFn → Bool
  | .bcc | .bcs | .beq | .bmi | .bne | .bpl | .bvc | .bvs => true
  | _ => false

/-- An NMOS CPU on the given memory, reset, with the six reset cycles consumed. -/
def bootOn (memory : SimpleRAM) : BaseCPU SimpleRAM :=
  Step^[6] (NewCPU (ramBus memory)).Reset

/-- An NMOS CPU on `demoRAM program`, reset, with the six reset cycles consumed. -/
def afterReset (program : List Nat) : BaseCPU SimpleRAM :=
  bootOn (demoRAM program)

end mos6502

namespace wdc65c02

open core

variable {β : Type}

/-- The state of `Step` after the opcode fetch: `c.Bus.Read(c.PC)` then `c.PC++`. -/
def fetched (c : BaseCPU β) : BaseCPU β :=
  { (c.read c.PC).2 with PC := ((c.read c.PC).2.PC + 1) % 65536 }

/-- The addressing step of `Step`: the resolver of the instruction when it has
one, and the zero values of `addr` and `pageCrossed` otherwise. -/
def operand (instruction : Instruction) (c : BaseCPU β) : (Nat × Bool) × BaseCPU β :=
  match instruction.AddrMode with
  | some m => m.run c
  | none => ((0, false), c)

/-- The opcode path of `Step`: what `Step` does at a zero budget once no
pending event was serviced (the text of `Step` from the opcode fetch on). -/
def dispatch (c : BaseCPU β) : BaseCPU β :=
  match instructionMap (c.read c.PC).1 with
  | none => { fetched c with Cycles := 1 }
  | some instruction =>
    let a := operand instruction (fetched c)
    let c2 := instruction.Operation.run a.2 a.1.1 a.1.2
    let c3 := { c2 with Cycles := (c2.Cycles + instruction.Cycles) % 256 }
    { c3 with Cycles := (c3.Cycles + 255) % 256 }

/-- A WDC65C02 CPU on the given memory, reset, with the seven reset cycles consumed. -/
def bootOn (memory : SimpleRAM) : BaseCPU SimpleRAM :=
  Step^[7] (NewCPU (ramBus memory)).Reset

/-- A WDC65C02 CPU on `demoRAM program`, reset, with the seven reset cycles consumed. -/
def afterReset (program : List Nat) : BaseCPU SimpleRAM :=
  bootOn (demoRAM program)

end wdc65c02

/-! ## Further helpers for stating the properties -/

namespace core

variable {β : Type}

/-- The 16-bit operand of an instruction: the little-endian word at PC and
PC + 1. -/
def BaseCPU.operandWord (c : BaseCPU β) : Nat :=
  (c.Bus.Read c.PC).1 ||| (((c.Bus.Read c.PC).2.Read ((c.PC + 1) % 65536)).1 <<< 8)

/-- The little-endian word made of the byte read at `lo` and then the byte read
at `hi`. -/
def Bus.readWord (b : Bus β) (lo hi : Nat) : Nat :=
  (b.Read lo).1 ||| (((b.Read lo).2.Read hi).1 <<< 8)

/-- The bus once the byte at `lo` and then the byte at `hi` have been read. -/
def Bus.afterWord (b : Bus β) (lo hi : Nat) : core.Bus β :=
  ((b.Read lo).2.Read hi).2

/-- The high byte of a 16-bit address. -/
def highByte (addr : Nat) : Nat := addr / 256

/-- The value of an offset byte read as a signed 8-bit number. -/
def signExtend (offset : Nat) : Int :=
  if offset < 0x80 then (offset : Int) else (offset : Int) - 0x100

/-- The target of a relative branch as the specification gives it:
`(P2 + sign_extend(offset)) mod 65536`. -/
def branchTarget (p2 offset : Nat) : Nat :=
  (((p2 : Int) + signExtend offset) % 65536).toNat

end core

namespace mos6502

open core

variable {β : Type}

/-- The cycles charged to the instruction that a zero-budget `Step` dispatches:
that `Step` itself plus the budget it leaves for the following `Step` calls to
count down. -/
def charged (c : BaseCPU β) : Nat := (Step c).Cycles + 1

/-- The flag a conditional branch tests and the value of that flag that takes
the branch, by mnemonic: BCC carry clear, BCS carry set, BEQ zero set, BNE zero
clear, BMI negative set, BPL negative clear, BVC overflow clear, BVS overflow
set. -/
def branchCondition (name : String) : Option (Nat × Bool) :=
  if name = "BCC" then some (FlagCarry, false)
  else if name = "BCS" then some (FlagCarry, true)
  else if name = "BEQ" then some (FlagZero, true)
  else if name = "BNE" then some (FlagZero, false)
  else if name = "BMI" then some (FlagNegative, true)
  else if name = "BPL" then some (FlagNegative, false)
  else if name = "BVC" then some (FlagOverflow, false)
  else if name = "BVS" then some (FlagOverflow, true)
  else none

end mos6502

namespace core

variable {β : Type}

/-- The carry flag as the number 0 or 1. -/
def BaseCPU.carryIn (c : BaseCPU β) : Nat := if c.GetFlag FlagCarry then 1 else 0

/-- The sum r = A + M + C of the specification of ADC: the accumulator, the
byte M read at `addr` and the carry flag. -/
def BaseCPU.adcSum (c : BaseCPU β) (addr : Nat) : Nat :=
  c.A + (c.Bus.Read addr).1 + c.carryIn

end core

/-! ## Helpers for the stack and dispatch properties -/

namespace core

variable {β : Type}

/-- A RAM-like bus: a read leaves the device as it is, a read returns the last
byte written to that address, and a write to one address leaves what is read
at every other address as it was. -/
def Bus.RamLike (b : Bus β) : Prop :=
  (∀ d a, (b.readFn d a).2 = d) ∧
  (∀ d a v, (b.readFn (b.writeFn d a v) a).1 % 256 = v % 256) ∧
  (∀ d a v a2, a2 ≠ a → (b.readFn (b.writeFn d a v) a2).1 = (b.readFn d a2).1)

end core

namespace wdc65c02

open core

variable {β : Type}

/-- The cycles charged to the instruction that a zero-budget `Step` dispatches:
that `Step` itself plus the budget it leaves for the following `Step` calls to
count down. -/
def charged (c : BaseCPU β) : Nat := (Step c).Cycles + 1

end wdc65c02

/-! ## Helpers for comparing the two instruction tables -/

namespace wdc65c02

open core

/-- The WDC65C02 addressing method that has the name of an NMOS one; the two
call the same resolver of `core`. -/
def sameNamed : mos6502.AddrModeFn → AddrModeFn
  | .addrImmediate => .addrImmediate
  | .addrZeroPage => .addrZeroPage
  | .addrZeroPageX => .addrZeroPageX
  | .addrZeroPageY => .addrZeroPageY
  | .addrAbsolute => .addrAbsolute
  | .addrAbsoluteX => .addrAbsoluteX
  | .addrAbsoluteY => .addrAbsoluteY
  | .addrIndirect => .addrIndirect
  | .addrIndirectX => .addrIndirectX
  | .addrIndirectY => .addrIndirectY
  | .addrRelative => .addrRelative

/-- For an entry of the NMOS table: whether the WDC65C02 entry of the same
opcode has the same mnemonic, the same addressing mode and the same base cycle
count, in that order; `none` when the WDC65C02 table has no such opcode. -/
def sharedEntry (e : Nat × mos6502.Instruction) : Option (Bool × Bool × Bool) :=
  (instructionMap e.1).map fun w =>
    (w.Name == e.2.Name, w.AddrMode == e.2.AddrMode.map sameNamed, w.Cycles == e.2.Cycles)

end wdc65c02


/-! ## Helpers for the three-byte bit branches -/

namespace wdc65c02

open core

variable {β : Type}

/-- The second byte of the instruction at PC, read after the opcode: the
zero-page operand of `BBRn`/`BBSn`. -/
def bitBranchOperand (c : BaseCPU β) : Nat :=
  ((c.Bus.Read c.PC).2.Read ((c.PC + 1) % 65536)).1

/-- The byte read at the zero-page operand, after the opcode and the operand. -/
def bitBranchData (c : BaseCPU β) : Nat :=
  (((c.Bus.Read c.PC).2.Read ((c.PC + 1) % 65536)).2.Read (bitBranchOperand c)).1

/-- The bus after the opcode, the operand and the data byte have been read. -/
def bitBranchBus (c : BaseCPU β) : Bus β :=
  (((c.Bus.Read c.PC).2.Read ((c.PC + 1) % 65536)).2.Read (bitBranchOperand c)).2

/-- The third byte of the instruction at PC, read after the data byte: the
offset of `BBRn`/`BBSn`. -/
def bitBranchOffset (c : BaseCPU β) : Nat :=
  ((bitBranchBus c).Read ((c.PC + 2) % 65536)).1

end wdc65c02

/-! # Properties -/

/-! ## Bit-level facts -/

theorem or_and_lit (s f m : Nat) (h : f &&& m = 0) : (s ||| f) &&& m = s &&& m := by
  rw [Nat.and_distrib_right, h, Nat.or_zero]

theorem and_and_lit (s g m : Nat) (h : g &&& m = m) : (s &&& g) &&& m = s &&& m := by
  rw [Nat.and_assoc, h]

theorem and_or_self_lit (s m : Nat) : s &&& m ||| m = m := by
  apply Nat.eq_of_testBit_eq
  intro i
  simp only [Nat.testBit_or, Nat.testBit_and]
  cases Nat.testBit s i <;> simp

theorem lookup_mem {α γ : Type} [BEq α] [LawfulBEq α] (a : α) (b : γ) :
    ∀ l : List (α × γ), l.lookup a = some b → (a, b) ∈ l
  | [], h => by simp at h
  | (k, v) :: es, h => by
    simp only [List.lookup] at h
    cases hk : (a == k) with
    | true =>
      rw [hk] at h
      have hak : a = k := by simpa using hk
      have hv : v = b := by simpa using h
      subst hak; subst hv
      exact List.mem_cons_self _ _
    | false =>
      rw [hk] at h
      exact List.mem_cons_of_mem _ (lookup_mem a b es h)

/-! ## Which fields the primitives of `BaseCPU` leave alone -/

namespace core

variable {β : Type}

theorem setFlag_fields (c : BaseCPU β) (f : Nat) (v : Bool) :
    (c.SetFlag f v).PC = c.PC ∧
    (c.SetFlag f v).SP = c.SP ∧
    (c.SetFlag f v).A = c.A ∧
    (c.SetFlag f v).X = c.X ∧
    (c.SetFlag f v).Y = c.Y ∧
    (c.SetFlag f v).Bus = c.Bus ∧
    (c.SetFlag f v).Cycles = c.Cycles ∧
    (c.SetFlag f v).Halted = c.Halted ∧
    (c.SetFlag f v).NMIPending = c.NMIPending ∧
    (c.SetFlag f v).IRQPending = c.IRQPending ∧
    (c.SetFlag f v).ResetPending = c.ResetPending ∧
    (c.SetFlag f v).Variant = c.Variant :=
  ⟨rfl, rfl, rfl, rfl, rfl, rfl, rfl, rfl, rfl, rfl, rfl, rfl⟩

theorem setZN_fields (c : BaseCPU β) (v : Nat) :
    (c.SetZN v).PC = c.PC ∧
    (c.SetZN v).SP = c.SP ∧
    (c.SetZN v).A = c.A ∧
    (c.SetZN v).X = c.X ∧
    (c.SetZN v).Y = c.Y ∧
    (c.SetZN v).Bus = c.Bus ∧
    (c.SetZN v).Cycles = c.Cycles ∧
    (c.SetZN v).Halted = c.Halted ∧
    (c.SetZN v).NMIPending = c.NMIPending ∧
    (c.SetZN v).IRQPending = c.IRQPending ∧
    (c.SetZN v).ResetPending = c.ResetPending ∧
    (c.SetZN v).Variant = c.Variant :=
  ⟨rfl, rfl, rfl, rfl, rfl, rfl, rfl, rfl, rfl, rfl, rfl, rfl⟩

theorem read_fields (c : BaseCPU β) (a : Nat) :
    ((c.read a).2).PC = c.PC ∧
    ((c.read a).2).SP = c.SP ∧
    ((c.read a).2).A = c.A ∧
    ((c.read a).2).X = c.X ∧
    ((c.read a).2).Y = c.Y ∧
    ((c.read a).2).Status = c.Status ∧
    ((c.read a).2).Cycles = c.Cycles ∧
    ((c.read a).2).Halted = c.Halted ∧
    ((c.read a).2).NMIPending = c.NMIPending ∧
    ((c.read a).2).IRQPending = c.IRQPending ∧
    ((c.read a).2).ResetPending = c.ResetPending ∧
    ((c.read a).2).Variant = c.Variant :=
  ⟨rfl, rfl, rfl, rfl, rfl, rfl, rfl, rfl, rfl, rfl, rfl, rfl⟩

theorem read_bus (c : BaseCPU β) (a : Nat) :
    (c.read a).1 = (c.Bus.Read a).1 ∧ (c.read a).2.Bus = (c.Bus.Read a).2 :=
  ⟨rfl, rfl⟩

theorem write_fields (c : BaseCPU β) (a d : Nat) :
    (c.write a d).PC = c.PC ∧
    (c.write a d).SP = c.SP ∧
    (c.write a d).A = c.A ∧
    (c.write a d).X = c.X ∧
    (c.write a d).Y = c.Y ∧
    (c.write a d).Status = c.Status ∧
    (c.write a d).Cycles = c.Cycles ∧
    (c.write a d).Halted = c.Halted ∧
    (c.write a d).NMIPending = c.NMIPending ∧
    (c.write a d).IRQPending = c.IRQPending ∧
    (c.write a d).ResetPending = c.ResetPending ∧
    (c.write a d).Variant = c.Variant :=
  ⟨rfl, rfl, rfl, rfl, rfl, rfl, rfl, rfl, rfl, rfl, rfl, rfl⟩

theorem push_fields (c : BaseCPU β) (d : Nat) :
    (c.Push d).PC = c.PC ∧
    (c.Push d).A = c.A ∧
    (c.Push d).X = c.X ∧
    (c.Push d).Y = c.Y ∧
    (c.Push d).Status = c.Status ∧
    (c.Push d).Cycles = c.Cycles ∧
    (c.Push d).Halted = c.Halted ∧
    (c.Push d).NMIPending = c.NMIPending ∧
    (c.Push d).IRQPending = c.IRQPending ∧
    (c.Push d).ResetPending = c.ResetPending ∧
    (c.Push d).Variant = c.Variant :=
  ⟨rfl, rfl, rfl, rfl, rfl, rfl, rfl, rfl, rfl, rfl, rfl⟩

theorem pull_fields (c : BaseCPU β) :
    (c.Pull.2).PC = c.PC ∧
    (c.Pull.2).A = c.A ∧
    (c.Pull.2).X = c.X ∧
    (c.Pull.2).Y = c.Y ∧
    (c.Pull.2).Status = c.Status ∧
    (c.Pull.2).Cycles = c.Cycles ∧
    (c.Pull.2).Halted = c.Halted ∧
    (c.Pull.2).NMIPending = c.NMIPending ∧
    (c.Pull.2).IRQPending = c.IRQPending ∧
    (c.Pull.2).ResetPending = c.ResetPending ∧
    (c.Pull.2).Variant = c.Variant :=
  ⟨rfl, rfl, rfl, rfl, rfl, rfl, rfl, rfl, rfl, rfl, rfl⟩

/-! ## The Unused bit -/

theorem setFlag_status_unused (c : BaseCPU β) (f : Nat) (v : Bool)
    (hf : f = 0x01 ∨ f = 0x02 ∨ f = 0x04 ∨ f = 0x08 ∨ f = 0x10 ∨ f = 0x40 ∨ f = 0x80) :
    (c.SetFlag f v).Status &&& 0x20 = c.Status &&& 0x20 := by
  rcases hf with h | h | h | h | h | h | h <;> subst h <;> cases v <;>
    simp +decide [BaseCPU.SetFlag, or_and_lit, and_and_lit]

theorem setFlag_unused_true (c : BaseCPU β) :
    (c.SetFlag 0x20 true).Status &&& 0x20 = 0x20 := by
  simp [BaseCPU.SetFlag, Nat.and_distrib_right, and_or_self_lit]

theorem setZN_status_unused (c : BaseCPU β) (v : Nat) :
    (c.SetZN v).Status &&& 0x20 = c.Status &&& 0x20 := by
  simp [BaseCPU.SetZN, setFlag_status_unused, FlagZero, FlagNegative]

theorem handleNMI_status_unused (c : BaseCPU β) :
    c.HandleNMI.Status &&& 0x20 = c.Status &&& 0x20 := by
  simp only [BaseCPU.HandleNMI]
  split <;>
    simp [read_fields, push_fields, setFlag_status_unused, FlagInterruptDisable, FlagDecimal]

theorem handleIRQ_status_unused (c : BaseCPU β) :
    c.HandleIRQ.Status &&& 0x20 = c.Status &&& 0x20 := by
  simp only [BaseCPU.HandleIRQ]
  split <;>
    simp [read_fields, push_fields, setFlag_status_unused, FlagInterruptDisable, FlagDecimal]

theorem reset_status (c : BaseCPU β) : c.Reset.Status = 0x34 := by
  simp [BaseCPU.Reset, read_fields, FlagUnused]

theorem getFlag_unused_iff (c : BaseCPU β) :
    c.GetFlag FlagUnused = true ↔ c.Status &&& 0x20 ≠ 0 := by
  simp [BaseCPU.GetFlag, FlagUnused]

end core

/-! ## The NMOS step driver -/

namespace mos6502

open core

variable {β : Type}

theorem op_status_unused (o : OperationFn) (c : BaseCPU β) (a : Nat) (p : Bool)
    (h : c.Status &&& 0x20 ≠ 0) : (o.run c a p).Status &&& 0x20 ≠ 0 := by
  cases o <;>
    simp only [OperationFn.run, LDA, LDX, LDY, STA, STX, STY, TAX, TAY, TXA, TYA, TSX, TXS, PHA, PLA, PHP, PLP, ADC, SBC,
      compare, CMP, CPX, CPY, INC, DEC, INX, DEX, INY, DEY, ASL, ASLAccumulator, LSR,
      LSRAccumulator, ROL, ROLAccumulator, ROR, RORAccumulator, AND, ORA, EOR, BIT, JMP, JSR,
      RTS, RTI, BRK, branch, BCC, BCS, BEQ, BMI, BNE, BPL, BVC, BVS, CLC, CLD, CLI, CLV, SEC,
      SED, SEI, NOP,
      setFlag_status_unused, setZN_status_unused, setFlag_unused_true, setFlag_fields,
      read_fields, write_fields, push_fields, pull_fields, FlagUnused, FlagCarry, FlagZero,
      FlagInterruptDisable, FlagDecimal, FlagBreak, FlagOverflow, FlagNegative, true_or, or_true,
      ne_eq, not_false_eq_true, OfNat.ofNat_ne_zero, h] <;>
    first
      | exact h
      | decide
      | (split <;> exact h)

theorem op_latches (o : OperationFn) (c : BaseCPU β) (a : Nat) (p : Bool) :
    (o.run c a p).NMIPending = c.NMIPending ∧ (o.run c a p).IRQPending = c.IRQPending ∧
    (o.run c a p).ResetPending = c.ResetPending ∧ (o.run c a p).Variant = c.Variant := by
  cases o <;>
    simp only [OperationFn.run, LDA, LDX, LDY, STA, STX, STY, TAX, TAY, TXA, TYA, TSX, TXS, PHA, PLA, PHP, PLP, ADC, SBC,
      compare, CMP, CPX, CPY, INC, DEC, INX, DEX, INY, DEY, ASL, ASLAccumulator, LSR,
      LSRAccumulator, ROL, ROLAccumulator, ROR, RORAccumulator, AND, ORA, EOR, BIT, JMP, JSR,
      RTS, RTI, BRK, branch, BCC, BCS, BEQ, BMI, BNE, BPL, BVC, BVS, CLC, CLD, CLI, CLV, SEC,
      SED, SEI, NOP,
      setFlag_fields, setZN_fields, read_fields, write_fields, push_fields, pull_fields,
      and_self] <;>
    split <;> simp only [and_self]

theorem op_cycles (o : OperationFn) (c : BaseCPU β) (a : Nat) (hb : isBranch o = false) :
    (o.run c a false).Cycles = c.Cycles := by
  cases o <;> first
    | (exact absurd hb (by decide))
    | simp only [OperationFn.run, LDA, LDX, LDY, STA, STX, STY, TAX, TAY, TXA, TYA, TSX, TXS, PHA, PLA, PHP, PLP, ADC, SBC,
      compare, CMP, CPX, CPY, INC, DEC, INX, DEX, INY, DEY, ASL, ASLAccumulator, LSR,
      LSRAccumulator, ROL, ROLAccumulator, ROR, RORAccumulator, AND, ORA, EOR, BIT, JMP, JSR,
      RTS, RTI, BRK, branch, BCC, BCS, BEQ, BMI, BNE, BPL, BVC, BVS, CLC, CLD, CLI, CLV, SEC,
      SED, SEI, NOP,
        setFlag_fields, setZN_fields, read_fields, write_fields, push_fields, pull_fields,
        Bool.false_eq_true, if_false]

theorem addrMode_frame (m : AddrModeFn) (c : BaseCPU β) :
    ((m.run c).2).SP = c.SP ∧
    ((m.run c).2).A = c.A ∧
    ((m.run c).2).X = c.X ∧
    ((m.run c).2).Y = c.Y ∧
    ((m.run c).2).Status = c.Status ∧
    ((m.run c).2).Cycles = c.Cycles ∧
    ((m.run c).2).Halted = c.Halted ∧
    ((m.run c).2).NMIPending = c.NMIPending ∧
    ((m.run c).2).IRQPending = c.IRQPending ∧
    ((m.run c).2).ResetPending = c.ResetPending ∧
    ((m.run c).2).Variant = c.Variant := by
  cases m <;>
    simp only [AddrModeFn.run, BaseCPU.AddrImmediate, BaseCPU.AddrZeroPage, BaseCPU.AddrZeroPageX, BaseCPU.AddrZeroPageY,
      BaseCPU.AddrAbsolute, BaseCPU.AddrAbsoluteX, BaseCPU.AddrAbsoluteY, BaseCPU.AddrIndirect,
      BaseCPU.AddrIndirectX, BaseCPU.AddrIndirectY, BaseCPU.AddrRelative,
      read_fields, and_self] <;>
    split <;> simp only [read_fields, and_self]

theorem operand_frame (ins : Instruction) (c : BaseCPU β) :
    ((operand ins c).2).SP = c.SP ∧
    ((operand ins c).2).A = c.A ∧
    ((operand ins c).2).X = c.X ∧
    ((operand ins c).2).Y = c.Y ∧
    ((operand ins c).2).Status = c.Status ∧
    ((operand ins c).2).Cycles = c.Cycles ∧
    ((operand ins c).2).Halted = c.Halted ∧
    ((operand ins c).2).NMIPending = c.NMIPending ∧
    ((operand ins c).2).IRQPending = c.IRQPending ∧
    ((operand ins c).2).ResetPending = c.ResetPending ∧
    ((operand ins c).2).Variant = c.Variant := by
  unfold operand
  cases ins.AddrMode with
  | none => exact ⟨rfl, rfl, rfl, rfl, rfl, rfl, rfl, rfl, rfl, rfl, rfl⟩
  | some m => exact addrMode_frame m c

theorem fetched_fields (c : BaseCPU β) :
    (fetched c).SP = c.SP ∧
    (fetched c).A = c.A ∧
    (fetched c).X = c.X ∧
    (fetched c).Y = c.Y ∧
    (fetched c).Status = c.Status ∧
    (fetched c).Cycles = c.Cycles ∧
    (fetched c).Halted = c.Halted ∧
    (fetched c).NMIPending = c.NMIPending ∧
    (fetched c).IRQPending = c.IRQPending ∧
    (fetched c).ResetPending = c.ResetPending ∧
    (fetched c).Variant = c.Variant :=
  ⟨rfl, rfl, rfl, rfl, rfl, rfl, rfl, rfl, rfl, rfl, rfl⟩

/-- At a zero budget with no event to service, `Step` takes the opcode path. -/
theorem step_dispatch (c : BaseCPU β) (h0 : c.Cycles = 0) (hr : c.ResetPending = false)
    (hn : c.NMIPending = false)
    (hi : (c.IRQPending && !c.GetFlag FlagInterruptDisable) = false) :
    Step c = dispatch c := by
  unfold Step dispatch
  simp only [h0, hr, hn, hi, beq_self_eq_true, if_true, Bool.false_eq_true, if_false]
  cases hm : instructionMap (c.read c.PC).1 with
  | none => rfl
  | some ins => cases ha : ins.AddrMode <;> simp only [fetched, operand, ha]

/-- With cycles still owed, `Step` only decrements the budget. -/
theorem step_positive (c : BaseCPU β) (h : 0 < c.Cycles) (hb : c.Cycles < 256) :
    Step c = { c with Cycles := c.Cycles - 1 } := by
  have h0 : (c.Cycles == 0) = false := by
    simp only [beq_eq_false_iff_ne, ne_eq]; omega
  have h1 : (c.Cycles + 255) % 256 = c.Cycles - 1 := by omega
  simp only [Step, h0, h1, Bool.false_eq_true, if_false]

theorem table_cycles :
    ∀ e ∈ instructionTable, 1 ≤ e.2.Cycles ∧ e.2.Cycles ≤ 7 := by
  decide

theorem map_cycles (opcode : Nat) (ins : Instruction) (h : instructionMap opcode = some ins) :
    1 ≤ ins.Cycles ∧ ins.Cycles ≤ 7 :=
  table_cycles (opcode, ins) (lookup_mem opcode ins instructionTable h)

theorem step_status_unused (c : BaseCPU β) (h : c.Status &&& 0x20 ≠ 0) :
    (Step c).Status &&& 0x20 ≠ 0 := by
  by_cases h0 : c.Cycles = 0
  · by_cases hr : c.ResetPending = true
    · simp [Step, h0, hr, BaseCPU.HandleReset, reset_status]
    · by_cases hn : c.NMIPending = true
      · simp only [Step, h0, hr, hn, beq_self_eq_true, if_true, Bool.false_eq_true, if_false,
          handleNMI_status_unused]
        exact h
      · by_cases hi : (c.IRQPending && !c.GetFlag FlagInterruptDisable) = true
        · simp only [Step, h0, hr, hn, hi, beq_self_eq_true, if_true, Bool.false_eq_true,
            if_false, handleIRQ_status_unused]
          exact h
        · rw [step_dispatch c h0 (by simpa using hr) (by simpa using hn) (by simpa using hi)]
          unfold dispatch
          split
          · exact h
          · rename_i ins _
            apply op_status_unused
            rw [(operand_frame ins _).2.2.2.2.1]
            exact h
  · have hc : (c.Cycles == 0) = false := by simpa using h0
    simp only [Step, hc, Bool.false_eq_true, if_false]
    exact h

end mos6502

/-! ## The WDC65C02 step driver -/

namespace wdc65c02

open core

variable {β : Type}

theorem wdc_op_latches (o : OperationFn) (c : BaseCPU β) (a : Nat) (p : Bool) :
    (o.run c a p).NMIPending = c.NMIPending ∧ (o.run c a p).IRQPending = c.IRQPending ∧
    (o.run c a p).ResetPending = c.ResetPending ∧ (o.run c a p).Variant = c.Variant := by
  cases o <;>
    simp only [OperationFn.run, LDA, LDX, LDY, STA, STX, STY, TAX, TAY, TXA, TYA, TSX, TXS, PHA, PLA, PHP, PLP, ADC, SBC,
      compare, CMP, CPX, CPY, INC, DEC, INX, DEX, INY, DEY, ASL, ASLAccumulator, LSR,
      LSRAccumulator, ROL, ROLAccumulator, ROR, RORAccumulator, AND, ORA, EOR, BIT, JMP, JSR,
      RTS, RTI, BRK, branch, BCC, BCS, BEQ, BMI, BNE, BPL, BVC, BVS, CLC, CLD, CLI, CLV, SEC,
      SED, SEI, NOP, STZ, PHX, PHY, PLX, PLY, INCA, DECA, TSB, TRB, BRA, branchOnBit, RMB0,
      RMB1, RMB2, RMB3, RMB4, RMB5, RMB6, RMB7, SMB0, SMB1, SMB2, SMB3, SMB4, SMB5, SMB6, SMB7,
      BBR0, BBR1, BBR2, BBR3, BBR4, BBR5, BBR6, BBR7, BBS0, BBS1, BBS2, BBS3, BBS4, BBS5, BBS6,
      BBS7, WAI, STP,
      setFlag_fields, setZN_fields, read_fields, write_fields, push_fields, pull_fields,
      and_self] <;>
    split <;> simp only [read_fields, and_self]

theorem wdc_addrMode_frame (m : AddrModeFn) (c : BaseCPU β) :
    ((m.run c).2).SP = c.SP ∧
    ((m.run c).2).A = c.A ∧
    ((m.run c).2).X = c.X ∧
    ((m.run c).2).Y = c.Y ∧
    ((m.run c).2).Status = c.Status ∧
    ((m.run c).2).Cycles = c.Cycles ∧
    ((m.run c).2).Halted = c.Halted ∧
    ((m.run c).2).NMIPending = c.NMIPending ∧
    ((m.run c).2).IRQPending = c.IRQPending ∧
    ((m.run c).2).ResetPending = c.ResetPending ∧
    ((m.run c).2).Variant = c.Variant := by
  cases m <;>
    simp only [AddrModeFn.run, BaseCPU.AddrImmediate, BaseCPU.AddrZeroPage, BaseCPU.AddrZeroPageX, BaseCPU.AddrZeroPageY,
      BaseCPU.AddrAbsolute, BaseCPU.AddrAbsoluteX, BaseCPU.AddrAbsoluteY, BaseCPU.AddrIndirect,
      BaseCPU.AddrIndirectX, BaseCPU.AddrIndirectY, BaseCPU.AddrRelative,
      BaseCPU.AddrZeroPageIndirect, BaseCPU.AddrAbsoluteIndexedIndirect,
      read_fields, and_self] <;>
    split <;> simp only [read_fields, and_self]

theorem wdc_operand_frame (ins : Instruction) (c : BaseCPU β) :
    ((operand ins c).2).SP = c.SP ∧
    ((operand ins c).2).A = c.A ∧
    ((operand ins c).2).X = c.X ∧
    ((operand ins c).2).Y = c.Y ∧
    ((operand ins c).2).Status = c.Status ∧
    ((operand ins c).2).Cycles = c.Cycles ∧
    ((operand ins c).2).Halted = c.Halted ∧
    ((operand ins c).2).NMIPending = c.NMIPending ∧
    ((operand ins c).2).IRQPending = c.IRQPending ∧
    ((operand ins c).2).ResetPending = c.ResetPending ∧
    ((operand ins c).2).Variant = c.Variant := by
  unfold operand
  cases ins.AddrMode with
  | none => exact ⟨rfl, rfl, rfl, rfl, rfl, rfl, rfl, rfl, rfl, rfl, rfl⟩
  | some m => exact wdc_addrMode_frame m c

theorem wdc_fetched_fields (c : BaseCPU β) :
    (fetched c).SP = c.SP ∧
    (fetched c).A = c.A ∧
    (fetched c).X = c.X ∧
    (fetched c).Y = c.Y ∧
    (fetched c).Status = c.Status ∧
    (fetched c).Cycles = c.Cycles ∧
    (fetched c).Halted = c.Halted ∧
    (fetched c).NMIPending = c.NMIPending ∧
    (fetched c).IRQPending = c.IRQPending ∧
    (fetched c).ResetPending = c.ResetPending ∧
    (fetched c).Variant = c.Variant :=
  ⟨rfl, rfl, rfl, rfl, rfl, rfl, rfl, rfl, rfl, rfl, rfl⟩

/-- At a zero budget with no event to service, `Step` takes the opcode path. -/
theorem wdc_step_dispatch (c : BaseCPU β) (h0 : c.Cycles = 0) (hr : c.ResetPending = false)
    (hn : c.NMIPending = false)
    (hi : (c.IRQPending && !c.GetFlag FlagInterruptDisable) = false) :
    Step c = dispatch c := by
  unfold Step dispatch
  simp only [h0, hr, hn, hi, beq_self_eq_true, if_true, Bool.false_eq_true, if_false]
  cases hm : instructionMap (c.read c.PC).1 with
  | none => rfl
  | some ins => cases ha : ins.AddrMode <;> simp only [fetched, operand, ha]

/-- With cycles still owed, `Step` only decrements the budget. -/
theorem wdc_step_positive (c : BaseCPU β) (h : 0 < c.Cycles) (hb : c.Cycles < 256) :
    Step c = { c with Cycles := c.Cycles - 1 } := by
  have h0 : (c.Cycles == 0) = false := by
    simp only [beq_eq_false_iff_ne, ne_eq]; omega
  have h1 : (c.Cycles + 255) % 256 = c.Cycles - 1 := by omega
  simp only [Step, h0, h1, Bool.false_eq_true, if_false]

theorem wdc_dispatch_latches (c : BaseCPU β) :
    (dispatch c).NMIPending = c.NMIPending ∧ (dispatch c).IRQPending = c.IRQPending ∧
    (dispatch c).ResetPending = c.ResetPending ∧ (dispatch c).Variant = c.Variant := by
  unfold dispatch
  split
  · exact ⟨rfl, rfl, rfl, rfl⟩
  · rename_i ins _
    have h1 := wdc_op_latches ins.Operation (operand ins (fetched c)).2
      (operand ins (fetched c)).1.1 (operand ins (fetched c)).1.2
    have h2 := wdc_operand_frame ins (fetched c)
    refine ⟨?_, ?_, ?_, ?_⟩
    · exact h1.1.trans h2.2.2.2.2.2.2.2.1
    · exact h1.2.1.trans h2.2.2.2.2.2.2.2.2.1
    · exact h1.2.2.1.trans h2.2.2.2.2.2.2.2.2.2.1
    · exact h1.2.2.2.trans h2.2.2.2.2.2.2.2.2.2.2

end wdc65c02

namespace mos6502

open core

variable {β : Type}

theorem dispatch_latches (c : BaseCPU β) :
    (dispatch c).NMIPending = c.NMIPending ∧ (dispatch c).IRQPending = c.IRQPending ∧
    (dispatch c).ResetPending = c.ResetPending ∧ (dispatch c).Variant = c.Variant := by
  unfold dispatch
  split
  · exact ⟨rfl, rfl, rfl, rfl⟩
  · rename_i ins _
    have h1 := op_latches ins.Operation (operand ins (fetched c)).2
      (operand ins (fetched c)).1.1 (operand ins (fetched c)).1.2
    have h2 := operand_frame ins (fetched c)
    refine ⟨?_, ?_, ?_, ?_⟩
    · exact h1.1.trans h2.2.2.2.2.2.2.2.1
    · exact h1.2.1.trans h2.2.2.2.2.2.2.2.2.1
    · exact h1.2.2.1.trans h2.2.2.2.2.2.2.2.2.2.1
    · exact h1.2.2.2.trans h2.2.2.2.2.2.2.2.2.2.2

end mos6502

/-! ## The claims -/

section Claims

open core


/-- C1: for every prior CPU state and every bus, `Reset` sets A = X = Y = 0,
SP = 0xFD, Status = 0x34 (so I = 1 and bit 5 = 1), PC to the little-endian word
read at 0xFFFC/0xFFFD, Halted = false, and Cycles to 6 on the NMOS variant and 7
on the WDC65C02 variant; the only bus calls it makes are the two vector reads,
so it issues no bus write. -/
theorem C1_reset_state {β : Type} (c : BaseCPU β) :
    c.Reset.A = 0 ∧ c.Reset.X = 0 ∧ c.Reset.Y = 0 ∧ c.Reset.SP = 0xFD ∧
    c.Reset.Status = 0x34 ∧
    c.Reset.GetFlag FlagInterruptDisable = true ∧ c.Reset.GetFlag FlagUnused = true ∧
    c.Reset.PC = (c.Bus.Read 0xFFFC).1 ||| (((c.Bus.Read 0xFFFC).2.Read 0xFFFD).1 <<< 8) ∧
    c.Reset.Halted = false ∧
    ({ c with Variant := VariantNMOS } : BaseCPU β).Reset.Cycles = 6 ∧
    ({ c with Variant := VariantWDC65C02 } : BaseCPU β).Reset.Cycles = 7 ∧
    (mos6502.NewCPU c.Bus).Reset.Cycles = 6 ∧ (wdc65c02.NewCPU c.Bus).Reset.Cycles = 7 ∧
    c.Reset.Bus.log = Access.read 0xFFFD :: Access.read 0xFFFC :: c.Bus.log := by
  simp [BaseCPU.Reset, BaseCPU.read, Bus.Read, BaseCPU.GetFlag, FlagUnused, FlagInterruptDisable,
    ResetCycles, VariantNMOS, VariantWDC65C02, Nat.lor_comm, mos6502.NewCPU, wdc65c02.NewCPU,
    NewBaseCPU]

/-- C2: bit 5 (Unused) of Status is an invariant of the NMOS CPU: it is 1 after
`NewCPU`, it is 1 after `Reset` from any state, and a `Step` from any state in
which it is 1 (any opcode, any bus, any pending interrupts) leaves it 1. -/
theorem C2_unused_bit_invariant {β : Type} (bus : Bus β) (c0 c : BaseCPU β)
    (h : c.GetFlag FlagUnused = true) :
    (mos6502.NewCPU bus).GetFlag FlagUnused = true ∧
    c0.Reset.GetFlag FlagUnused = true ∧
    (mos6502.Step c).GetFlag FlagUnused = true := by
  refine ⟨by simp [mos6502.NewCPU, NewBaseCPU, BaseCPU.GetFlag, FlagUnused], ?_, ?_⟩
  · simp [BaseCPU.GetFlag, reset_status, FlagUnused]
  · rw [getFlag_unused_iff] at h ⊢
    exact mos6502.step_status_unused c h

/-- C2 at a concrete input: PLP and RTI executed on a zero-filled stack pull the
byte 0x00, whose bit 5 is clear, and Status is 0x20 afterwards. -/
theorem C2_unused_bit_invariant_witness :
    (mos6502.afterReset [0x28]).GetFlag FlagUnused = true ∧
    ((mos6502.NewCPU (ramBus (demoRAM []))).GetFlag FlagUnused = true ∧
      (mos6502.afterReset [0x40]).Reset.GetFlag FlagUnused = true ∧
      (mos6502.Step (mos6502.afterReset [0x28])).GetFlag FlagUnused = true) ∧
    (mos6502.Step (mos6502.afterReset [0x28])).Status = 0x20 ∧
    (mos6502.Step (mos6502.afterReset [0x40])).Status = 0x20 :=
  ⟨by decide,
   C2_unused_bit_invariant (ramBus (demoRAM [])) (mos6502.afterReset [0x40])
     (mos6502.afterReset [0x28]) (by decide),
   by decide, by decide⟩

/-- `Run` on a halted CPU performs no step, on both variants: the guard
`for !c.Halted` is the only place that reads Halted. -/
theorem run_halted {β : Type} (d : BaseCPU β) (n : Nat) (hd : d.Halted = true) :
    mos6502.Run n d = d ∧ wdc65c02.Run n d = d := by
  constructor
  · cases n <;> simp [mos6502.Run, hd]
  · cases n <;> simp [wdc65c02.Run, hd]

/-- C3 fails on the code: `Step` runs on while Halted is true.  On the
WDC65C02, STP followed by INX (`DB E8` at 0x8000): after the three `Step`
calls of STP the CPU is halted at PC = 0x8001 with Cycles = 0 and no reset,
NMI or IRQ requested, and the next `Step` fetches the INX at 0x8001, so X goes
from 0 to 1 and PC to 0x8002 with Halted still true.  On the NMOS CPU the
undefined opcode 0x02 followed by INX (`02 E8`) does the same one `Step` after
the halt. -/
theorem C3_halted_step_executes :
    ((wdc65c02.afterReset [0xDB, 0xE8]).Bus.Read (wdc65c02.afterReset [0xDB, 0xE8]).PC).1
      = 0xDB ∧
    ((wdc65c02.Step^[3] (wdc65c02.afterReset [0xDB, 0xE8])).Halted,
      (wdc65c02.Step^[3] (wdc65c02.afterReset [0xDB, 0xE8])).Cycles,
      (wdc65c02.Step^[3] (wdc65c02.afterReset [0xDB, 0xE8])).ResetPending,
      (wdc65c02.Step^[3] (wdc65c02.afterReset [0xDB, 0xE8])).NMIPending,
      (wdc65c02.Step^[3] (wdc65c02.afterReset [0xDB, 0xE8])).IRQPending)
      = (true, 0, false, false, false) ∧
    (wdc65c02.Step^[3] (wdc65c02.afterReset [0xDB, 0xE8])).regs = (0x8001, 0, 0, 0, 0xFD, 0x34) ∧
    (wdc65c02.Step (wdc65c02.Step^[3] (wdc65c02.afterReset [0xDB, 0xE8]))).regs
      = (0x8002, 0, 1, 0, 0xFD, 0x34) ∧
    (wdc65c02.Step (wdc65c02.Step^[3] (wdc65c02.afterReset [0xDB, 0xE8]))).Halted = true ∧
    (wdc65c02.Step (wdc65c02.Step^[3] (wdc65c02.afterReset [0xDB, 0xE8]))).Bus.log.head?
      = some (Access.read 0x8001) ∧
    (wdc65c02.Step (wdc65c02.Step^[3] (wdc65c02.afterReset [0xDB, 0xE8]))).regs
      ≠ (wdc65c02.Step^[3] (wdc65c02.afterReset [0xDB, 0xE8])).regs ∧
    ((mos6502.Step (mos6502.afterReset [0x02, 0xE8])).Halted,
      (mos6502.Step (mos6502.afterReset [0x02, 0xE8])).Cycles,
      (mos6502.Step (mos6502.afterReset [0x02, 0xE8])).ResetPending,
      (mos6502.Step (mos6502.afterReset [0x02, 0xE8])).NMIPending,
      (mos6502.Step (mos6502.afterReset [0x02, 0xE8])).IRQPending)
      = (true, 0, false, false, false) ∧
    (mos6502.Step (mos6502.afterReset [0x02, 0xE8])).regs = (0x8001, 0, 0, 0, 0xFD, 0x34) ∧
    (mos6502.Step (mos6502.Step (mos6502.afterReset [0x02, 0xE8]))).regs
      = (0x8002, 0, 1, 0, 0xFD, 0x34) ∧
    (mos6502.Step (mos6502.Step (mos6502.afterReset [0x02, 0xE8]))).regs
      ≠ (mos6502.Step (mos6502.afterReset [0x02, 0xE8])).regs := by
  refine ⟨?_, ?_, ?_, ?_, ?_, ?_, ?_, ?_, ?_, ?_, ?_⟩ <;> decide

/-- C4: on the NMOS CPU, a `Step` taken with Cycles = 0 and no reset, NMI or
unmasked IRQ pending, whose fetched opcode byte is not a key of
`instructionMap`, sets Halted, advances PC by exactly 1, leaves A, X, Y, SP,
Status and Cycles unchanged; its only bus call is the opcode fetch, so it
issues no bus write. -/
theorem C4_undefined_opcode_halts {β : Type} (c : BaseCPU β) (h0 : c.Cycles = 0)
    (hr : c.ResetPending = false) (hn : c.NMIPending = false)
    (hi : (c.IRQPending && !c.GetFlag FlagInterruptDisable) = false)
    (hop : mos6502.instructionMap (c.Bus.Read c.PC).1 = none) :
    (mos6502.Step c).Halted = true ∧
    (mos6502.Step c).PC = (c.PC + 1) % 65536 ∧
    (mos6502.Step c).A = c.A ∧ (mos6502.Step c).X = c.X ∧ (mos6502.Step c).Y = c.Y ∧
    (mos6502.Step c).SP = c.SP ∧ (mos6502.Step c).Status = c.Status ∧
    (mos6502.Step c).Cycles = c.Cycles ∧
    (mos6502.Step c).Bus.log = Access.read c.PC :: c.Bus.log := by
  have hop2 : mos6502.instructionMap (c.read c.PC).1 = none := hop
  rw [mos6502.step_dispatch c h0 hr hn hi]
  unfold mos6502.dispatch
  rw [hop2]
  exact ⟨rfl, rfl, rfl, rfl, rfl, rfl, rfl, rfl, rfl⟩

/-- C4 at a concrete input: opcode 0x02 at `$8000`, with an IRQ pending but
masked (I = 1 after reset). -/
theorem C4_undefined_opcode_halts_witness :
    mos6502.instructionMap 0x02 = none ∧
    (mos6502.Step { mos6502.afterReset [0x02] with IRQPending := true }).Halted = true ∧
    (mos6502.Step { mos6502.afterReset [0x02] with IRQPending := true }).PC = 0x8001 :=
  ⟨by decide,
   (C4_undefined_opcode_halts { mos6502.afterReset [0x02] with IRQPending := true }
      (by decide) (by decide) (by decide) (by decide) (by decide)).1,
   by decide⟩

/-- C5: on both variants, when Cycles > 0 before `Step`, `Step` decrements
Cycles by exactly 1 and changes nothing else: the whole state, bus and
interrupt latches included, is the state before with Cycles one less, even if
ResetPending, NMIPending or IRQPending is set. -/
theorem C5_positive_budget_step {β : Type} (c : BaseCPU β) (h : 0 < c.Cycles)
    (hb : c.Cycles < 256) :
    mos6502.Step c = { c with Cycles := c.Cycles - 1 } ∧
    wdc65c02.Step c = { c with Cycles := c.Cycles - 1 } :=
  ⟨mos6502.step_positive c h hb, wdc65c02.wdc_step_positive c h hb⟩

/-- C5 at a concrete input: the CPU right after `Reset` with all three
interrupt latches set; the bus log is still the two reads of the reset. -/
theorem C5_positive_budget_step_witness :
    (0 : Nat) < 6 ∧
    (mos6502.Step { (mos6502.NewCPU (ramBus (demoRAM [0xEA]))).Reset with
        ResetPending := true, NMIPending := true, IRQPending := true }).Cycles = 5 ∧
    (mos6502.Step { (mos6502.NewCPU (ramBus (demoRAM [0xEA]))).Reset with
        ResetPending := true, NMIPending := true, IRQPending := true }).Bus.log
      = [Access.read 0xFFFD, Access.read 0xFFFC] :=
  ⟨by decide,
   by
     rw [(C5_positive_budget_step { (mos6502.NewCPU (ramBus (demoRAM [0xEA]))).Reset with
        ResetPending := true, NMIPending := true, IRQPending := true }
        (by decide) (by decide)).1]
     decide,
   by decide⟩

/-- C6: on the NMOS CPU, for every opcode of `instructionMap` that is not a
branch, when `Step` is taken with Cycles = 0, no interrupt pending and the
addressing mode reports no page cross, Cycles after that `Step` is the table's
base cycle count minus 1, and each of the following `Step` calls only counts
down, so the instruction occupies exactly base-many `Step` calls; the base
counts of LDA #imm, LDA zp, LDA abs, STA abs and NOP are 2, 3, 4, 4 and 2. -/
theorem C6_base_cycle_count {β : Type} (c : BaseCPU β) (ins : mos6502.Instruction)
    (h0 : c.Cycles = 0) (hr : c.ResetPending = false) (hn : c.NMIPending = false)
    (hi : c.IRQPending = false)
    (hop : mos6502.instructionMap (c.Bus.Read c.PC).1 = some ins)
    (hb : mos6502.isBranch ins.Operation = false)
    (hp : (mos6502.operand ins (mos6502.fetched c)).1.2 = false) :
    (mos6502.Step c).Cycles = ins.Cycles - 1 ∧
    (∀ k, k < ins.Cycles →
      mos6502.Step^[k] (mos6502.Step c) = { mos6502.Step c with Cycles := ins.Cycles - 1 - k }) ∧
    Option.map mos6502.Instruction.Cycles (mos6502.instructionMap 0xA9) = some 2 ∧
    Option.map mos6502.Instruction.Cycles (mos6502.instructionMap 0xA5) = some 3 ∧
    Option.map mos6502.Instruction.Cycles (mos6502.instructionMap 0xAD) = some 4 ∧
    Option.map mos6502.Instruction.Cycles (mos6502.instructionMap 0x8D) = some 4 ∧
    Option.map mos6502.Instruction.Cycles (mos6502.instructionMap 0xEA) = some 2 := by
  have hop2 : mos6502.instructionMap (c.read c.PC).1 = some ins := hop
  have hcy := mos6502.map_cycles _ ins hop
  have hstep : (mos6502.Step c).Cycles = ins.Cycles - 1 := by
    rw [mos6502.step_dispatch c h0 hr hn (by simp [hi])]
    unfold mos6502.dispatch
    rw [hop2]
    simp only [hp]
    rw [mos6502.op_cycles _ _ _ hb]
    have h2 := (mos6502.operand_frame ins (mos6502.fetched c)).2.2.2.2.2.1
    have h3 : (mos6502.fetched c).Cycles = c.Cycles := rfl
    rw [h2, h3, h0]
    omega
  refine ⟨hstep, ?_, by decide, by decide, by decide, by decide, by decide⟩
  intro k
  induction k with
  | zero =>
    intro _
    simp only [Function.iterate_zero, id_eq, Nat.sub_zero]
    rw [← hstep]
  | succ k ih =>
    intro hk
    have ih2 := ih (by omega)
    rw [Function.iterate_succ_apply', ih2]
    rw [mos6502.step_positive _ (by simp only []; omega) (by simp only []; omega)]
    simp only []
    congr 1

/-- C6 at a concrete input: LDA absolute (0xAD, base count 4) right after the
reset cycles; the dispatching `Step` leaves Cycles = 3. -/
theorem C6_base_cycle_count_witness :
    mos6502.instructionMap 0xAD = some (mos6502.Instruction.mk "LDA"
      (some mos6502.AddrModeFn.addrAbsolute) mos6502.OperationFn.lda 4) ∧
    (mos6502.Step (mos6502.afterReset [0xAD, 0x00, 0x02])).Cycles = 4 - 1 :=
  ⟨by decide,
   (C6_base_cycle_count (mos6502.afterReset [0xAD, 0x00, 0x02])
      (mos6502.Instruction.mk "LDA" (some mos6502.AddrModeFn.addrAbsolute)
        mos6502.OperationFn.lda 4)
      (by decide) (by decide) (by decide) (by decide) (by decide) (by decide) (by decide)).1⟩

/-- C7: at a zero-budget `Step` the driver of either variant services at most
one event, in the order reset, NMI, IRQ.  With ResetPending it performs
`HandleReset` only, which leaves the NMI and IRQ latches as they were; else
with NMIPending it performs `HandleNMI` only, which leaves IRQPending as it
was; else with IRQPending and I = 0 it performs `HandleIRQ`; and with
IRQPending and I = 1 (no reset, no NMI) it takes the opcode path, the one it
also takes when nothing is pending, and IRQPending is still set afterwards. -/
theorem C7_interrupt_priority {β : Type} (c : BaseCPU β) (h0 : c.Cycles = 0) :
    (c.ResetPending = true →
      mos6502.Step c = c.HandleReset ∧ wdc65c02.Step c = c.HandleReset ∧
      c.HandleReset.NMIPending = c.NMIPending ∧ c.HandleReset.IRQPending = c.IRQPending) ∧
    (c.ResetPending = false → c.NMIPending = true →
      mos6502.Step c = c.HandleNMI ∧ wdc65c02.Step c = c.HandleNMI ∧
      c.HandleNMI.IRQPending = c.IRQPending) ∧
    (c.ResetPending = false → c.NMIPending = false → c.IRQPending = true →
      c.GetFlag FlagInterruptDisable = false →
      mos6502.Step c = c.HandleIRQ ∧ wdc65c02.Step c = c.HandleIRQ) ∧
    (c.ResetPending = false → c.NMIPending = false → c.IRQPending = true →
      c.GetFlag FlagInterruptDisable = true →
      mos6502.Step c = mos6502.dispatch c ∧ wdc65c02.Step c = wdc65c02.dispatch c ∧
      (mos6502.Step c).IRQPending = true ∧ (wdc65c02.Step c).IRQPending = true) ∧
    (c.ResetPending = false → c.NMIPending = false → c.IRQPending = false →
      mos6502.Step c = mos6502.dispatch c ∧ wdc65c02.Step c = wdc65c02.dispatch c) := by
  refine ⟨?_, ?_, ?_, ?_, ?_⟩
  · intro hr
    refine ⟨?_, ?_, rfl, rfl⟩
    · simp only [mos6502.Step, h0, hr, beq_self_eq_true, if_true]
    · simp only [wdc65c02.Step, h0, hr, beq_self_eq_true, if_true]
  · intro hr hn
    refine ⟨?_, ?_, ?_⟩
    · simp only [mos6502.Step, h0, hr, hn, beq_self_eq_true, if_true, Bool.false_eq_true,
        if_false]
    · simp only [wdc65c02.Step, h0, hr, hn, beq_self_eq_true, if_true, Bool.false_eq_true,
        if_false]
    · simp only [BaseCPU.HandleNMI]
      split <;> simp only [read_fields, setFlag_fields, push_fields]
  · intro hr hn hi hI
    constructor
    · simp only [mos6502.Step, h0, hr, hn, hi, hI, beq_self_eq_true, if_true,
        Bool.false_eq_true, if_false, Bool.not_false, Bool.and_self]
    · simp only [wdc65c02.Step, h0, hr, hn, hi, hI, beq_self_eq_true, if_true,
        Bool.false_eq_true, if_false, Bool.not_false, Bool.and_self]
  · intro hr hn hi hI
    have hm : (c.IRQPending && !c.GetFlag FlagInterruptDisable) = false := by simp [hI]
    have e1 := mos6502.step_dispatch c h0 hr hn hm
    have e2 := wdc65c02.wdc_step_dispatch c h0 hr hn hm
    refine ⟨e1, e2, ?_, ?_⟩
    · rw [e1, (mos6502.dispatch_latches c).2.1, hi]
    · rw [e2, (wdc65c02.wdc_dispatch_latches c).2.1, hi]
  · intro hr hn hi
    have hm : (c.IRQPending && !c.GetFlag FlagInterruptDisable) = false := by simp [hi]
    exact ⟨mos6502.step_dispatch c h0 hr hn hm, wdc65c02.wdc_step_dispatch c h0 hr hn hm⟩

/-- C7 at a concrete input: all three latches set after the reset cycles; the
`Step` is the reset alone. -/
theorem C7_interrupt_priority_witness :
    ({ mos6502.afterReset [0xEA] with
        ResetPending := true, NMIPending := true, IRQPending := true }).Cycles = 0 ∧
    mos6502.Step { mos6502.afterReset [0xEA] with
        ResetPending := true, NMIPending := true, IRQPending := true }
      = BaseCPU.HandleReset { mos6502.afterReset [0xEA] with
        ResetPending := true, NMIPending := true, IRQPending := true } :=
  ⟨by decide,
   ((C7_interrupt_priority { mos6502.afterReset [0xEA] with
        ResetPending := true, NMIPending := true, IRQPending := true } (by decide)).1
      (by decide)).1⟩

/-- The three stack writes of an interrupt entry leave the bus that the
specification describes. -/
theorem push3_bus {β : Type} (c : BaseCPU β) (hsp : c.SP < 256) :
    (((c.Push ((c.PC >>> 8) % 256)).Push (c.PC % 256)).Push c.Status).Bus
      = c.interruptFrame := by
  have e1 : (256 + c.SP) % 65536 = 256 + c.SP := by omega
  have e2 : (256 + (c.SP + 255) % 256) % 65536 = 256 + (c.SP + 255) % 256 := by omega
  have e3 : (256 + ((c.SP + 255) % 256 + 255) % 256) % 65536 = 256 + (c.SP + 254) % 256 := by
    omega
  simp only [BaseCPU.Push, BaseCPU.write, BaseCPU.interruptFrame, e1, e2, e3]

theorem push3_sp {β : Type} (c : BaseCPU β) :
    (((c.Push ((c.PC >>> 8) % 256)).Push (c.PC % 256)).Push c.Status).SP
      = (c.SP + 253) % 256 := by
  simp only [BaseCPU.Push, BaseCPU.write]
  omega

theorem flag_set_bits (s : Nat) :
    (s ||| 4) &&& 4 = 4 ∧ ((s ||| 4) &&& (8 ^^^ 0xFF)) &&& 4 = 4 ∧
    ((s ||| 4) &&& (8 ^^^ 0xFF)) &&& 8 = 0 ∧ (s ||| 4) &&& 8 = s &&& 8 := by
  refine ⟨?_, ?_, ?_, ?_⟩
  · rw [Nat.and_distrib_right]; exact and_or_self_lit s 4
  · rw [and_and_lit _ _ _ (by decide), Nat.and_distrib_right]; exact and_or_self_lit s 4
  · rw [Nat.and_assoc, show ((8 ^^^ 0xFF) &&& 8 : Nat) = 0 by decide, Nat.and_zero]
  · exact or_and_lit s 4 8 (by decide)

/-- C8: interrupt entry.  For every state (SP a byte), `HandleNMI` (resp.
`HandleIRQ`) writes PC high at 0x0100+SP, PC low at 0x0100+(SP-1 mod 256) and
the status byte at 0x0100+(SP-2 mod 256), in that order and before the vector
is read, leaves SP decreased by 3 mod 256, sets I = 1, clears D on WDC65C02 and
leaves D unchanged on NMOS, loads PC from the little-endian vector at 0xFFFA
(resp. 0xFFFE), clears NMIPending (resp. IRQPending), sets Cycles = 7 and leaves
A, X and Y unchanged. -/
theorem C8_interrupt_entry {β : Type} (c : BaseCPU β) (hsp : c.SP < 256) :
    (c.HandleNMI.Bus = ((c.interruptFrame.Read 0xFFFA).2.Read 0xFFFB).2 ∧
      c.HandleNMI.PC = c.interruptFrame.readVector 0xFFFA ∧
      c.HandleNMI.SP = (c.SP + 253) % 256 ∧
      c.HandleNMI.GetFlag FlagInterruptDisable = true ∧
      ({ c with Variant := VariantWDC65C02 } : BaseCPU β).HandleNMI.GetFlag FlagDecimal = false ∧
      ({ c with Variant := VariantNMOS } : BaseCPU β).HandleNMI.GetFlag FlagDecimal
        = c.GetFlag FlagDecimal ∧
      c.HandleNMI.NMIPending = false ∧ c.HandleNMI.Cycles = 7 ∧
      c.HandleNMI.A = c.A ∧ c.HandleNMI.X = c.X ∧ c.HandleNMI.Y = c.Y) ∧
    (c.HandleIRQ.Bus = ((c.interruptFrame.Read 0xFFFE).2.Read 0xFFFF).2 ∧
      c.HandleIRQ.PC = c.interruptFrame.readVector 0xFFFE ∧
      c.HandleIRQ.SP = (c.SP + 253) % 256 ∧
      c.HandleIRQ.GetFlag FlagInterruptDisable = true ∧
      ({ c with Variant := VariantWDC65C02 } : BaseCPU β).HandleIRQ.GetFlag FlagDecimal = false ∧
      ({ c with Variant := VariantNMOS } : BaseCPU β).HandleIRQ.GetFlag FlagDecimal
        = c.GetFlag FlagDecimal ∧
      c.HandleIRQ.IRQPending = false ∧ c.HandleIRQ.Cycles = 7 ∧
      c.HandleIRQ.A = c.A ∧ c.HandleIRQ.X = c.X ∧ c.HandleIRQ.Y = c.Y) ∧
    c.interruptFrame.log =
      [Access.write (0x0100 + (c.SP + 254) % 256) c.Status,
       Access.write (0x0100 + (c.SP + 255) % 256) (c.PC % 256),
       Access.write (0x0100 + c.SP) ((c.PC >>> 8) % 256)] ++ c.Bus.log := by
  have hb := push3_bus c hsp
  have hs := push3_sp c
  obtain ⟨f1, f2, f3, f4⟩ := flag_set_bits c.Status
  have hw : ClearsDecimalOnInterrupt VariantWDC65C02 = true := by decide
  have hnm : ClearsDecimalOnInterrupt VariantNMOS = false := by decide
  refine ⟨⟨?_, ?_, ?_, ?_, ?_, ?_, ?_, rfl, ?_, ?_, ?_⟩,
    ⟨?_, ?_, ?_, ?_, ?_, ?_, ?_, rfl, ?_, ?_, ?_⟩, rfl⟩
  all_goals simp only [BaseCPU.HandleNMI, BaseCPU.HandleIRQ, setFlag_fields, push_fields, hw,
    hnm, if_true, Bool.false_eq_true, if_false]
  all_goals try split
  all_goals simp only [BaseCPU.GetFlag, read_fields, read_bus, setFlag_fields, push_fields, hb,
    hs, Bus.readVector, Nat.lor_comm, Nat.reduceAdd]
  all_goals simp only [BaseCPU.SetFlag, push_fields, FlagInterruptDisable, FlagDecimal, if_true,
    Bool.false_eq_true, if_false, f1, f2, f3, f4]
  all_goals decide

/-- C8 at a concrete input: an NMOS CPU with SP = 0x01, so that the three
writes wrap from `$0101` over `$0100` to `$01FF` and SP ends at 0xFE. -/
theorem C8_interrupt_entry_witness :
    ({ mos6502.afterReset [0xEA] with SP := 0x01 } : BaseCPU SimpleRAM).SP < 256 ∧
    (BaseCPU.HandleNMI { mos6502.afterReset [0xEA] with SP := 0x01 }).SP = (0x01 + 253) % 256 ∧
    (BaseCPU.interruptFrame { mos6502.afterReset [0xEA] with SP := 0x01 }).log.take 3
      = [Access.write 0x01FF 0x34, Access.write 0x0100 0x00, Access.write 0x0101 0x80] :=
  ⟨by decide,
   (C8_interrupt_entry { mos6502.afterReset [0xEA] with SP := 0x01 } (by decide)).1.2.2.1,
   by decide⟩

/-- C9, the code at the failing input: `Reset` leaves Status = 0x34, whose
Break bit (0x10) is set, and `HandleNMI` and `HandleIRQ` push Status as it is.
From any state, an interrupt entered right after `Reset` stacks 0x34 at
`$01FB`, with Break = 1.  Through the driver: an NMI latched once the reset
cycles are over stacks 0x34, and an IRQ taken after a CLI stacks 0x30, both
with bit 4 set. -/
theorem C9_break_pushed_after_reset {β : Type} (c : BaseCPU β) :
    c.Reset.HandleNMI.Bus.log.take 3 =
      [Access.read 0xFFFB, Access.read 0xFFFA, Access.write 0x01FB 0x34] ∧
    c.Reset.HandleIRQ.Bus.log.take 3 =
      [Access.read 0xFFFF, Access.read 0xFFFE, Access.write 0x01FB 0x34] ∧
    (0x34 : Nat) &&& FlagBreak = FlagBreak ∧ (0x34 : Nat) &&& FlagUnused = FlagUnused ∧
    (mos6502.Step { mos6502.afterReset [0xEA] with NMIPending := true }).Bus.dev 0x01FB = 0x34 ∧
    (mos6502.Step { mos6502.Step^[2] (mos6502.afterReset [0x58, 0xEA]) with
        IRQPending := true }).Bus.dev 0x01FB = 0x30 ∧
    (0x30 : Nat) &&& FlagBreak = FlagBreak := by
  refine ⟨?_, ?_, by decide, by decide, by decide, by decide, by decide⟩
  · simp only [BaseCPU.HandleNMI]
    split <;>
      simp only [BaseCPU.read, Bus.Read, BaseCPU.Push, BaseCPU.write, Bus.Write, setFlag_fields,
        reset_status, List.take_succ_cons, List.take_zero] <;>
      simp [BaseCPU.Reset, BaseCPU.read]
  · simp only [BaseCPU.HandleIRQ]
    split <;>
      simp only [BaseCPU.read, Bus.Read, BaseCPU.Push, BaseCPU.write, Bus.Write, setFlag_fields,
        reset_status, List.take_succ_cons, List.take_zero] <;>
      simp [BaseCPU.Reset, BaseCPU.read]

/-- C10: `AddrIndirect` with operand pointer P (little-endian at PC, PC+1)
advances PC by 2, reports no page cross and returns, on NMOS when the low byte
of P is 0xFF, `read(P & 0xFF00) << 8 | read(P)`, and in every other case on
NMOS and always on WDC65C02 `read((P+1) mod 65536) << 8 | read(P)`, the high
byte being read first.  JMP ($10FF) with $10FF=$34, $1000=$12, $1100=$56
yields PC=$1234 on NMOS and PC=$5634 on WDC65C02. -/
theorem C10_addr_indirect {β : Type} (c : BaseCPU β) :
    c.AddrIndirect.2.PC = (c.PC + 2) % 65536 ∧
    c.AddrIndirect.1.2 = false ∧
    c.AddrIndirect.1.1 =
      (if c.Variant = VariantNMOS ∧ (c.Bus.Read c.PC).1 = 0xFF then
        ((c.operandBus.Read (c.indirectPointer &&& 0xFF00)).1 <<< 8) |||
          ((c.operandBus.Read (c.indirectPointer &&& 0xFF00)).2.Read c.indirectPointer).1
      else
        ((c.operandBus.Read ((c.indirectPointer + 1) % 65536)).1 <<< 8) |||
          ((c.operandBus.Read ((c.indirectPointer + 1) % 65536)).2.Read c.indirectPointer).1) ∧
    (mos6502.Step (mos6502.bootOn
      (poke [(0x10FF, 0x34), (0x1000, 0x12), (0x1100, 0x56)] (demoRAM [0x6C, 0xFF, 0x10])))).PC
      = 0x1234 ∧
    (wdc65c02.Step (wdc65c02.bootOn
      (poke [(0x10FF, 0x34), (0x1000, 0x12), (0x1100, 0x56)] (demoRAM [0x6C, 0xFF, 0x10])))).PC
      = 0x5634 := by
  have hpc : ((c.PC + 1) % 65536 + 1) % 65536 = (c.PC + 2) % 65536 := by omega
  refine ⟨?_, ?_, ?_, by decide, by decide⟩
  · simp only [BaseCPU.AddrIndirect]
    split <;> simp only [read_fields, hpc]
  · simp only [BaseCPU.AddrIndirect]
    split <;> rfl
  · by_cases h : c.Variant = VariantNMOS ∧ (c.Bus.Read c.PC).1 = 0xFF
    · have hc : (HasJMPIndirectBug c.Variant && (c.Bus.Read c.PC).1 == 0x00FF) = true := by
        simp [HasJMPIndirectBug, h.1, h.2]
      rw [if_pos h]
      simp only [BaseCPU.AddrIndirect, read_fields, read_bus, hc, if_true,
        BaseCPU.operandBus, BaseCPU.indirectPointer]
    · have hc : (HasJMPIndirectBug c.Variant && (c.Bus.Read c.PC).1 == 0x00FF) = false := by
        simp only [HasJMPIndirectBug, Bool.and_eq_false_imp, beq_iff_eq, beq_eq_false_iff_ne]
        intro hv
        exact fun hl => h ⟨hv, hl⟩
      rw [if_neg h]
      simp only [BaseCPU.AddrIndirect, read_fields, read_bus, hc, Bool.false_eq_true, if_false,
        BaseCPU.operandBus, BaseCPU.indirectPointer]

/-! ## Bit operations as arithmetic -/

theorem and_two_pow_eq (x i : Nat) : x &&& 2 ^ i = 2 ^ i * (x / 2 ^ i % 2) := by
  apply Nat.eq_of_testBit_eq
  intro j
  rw [Nat.testBit_and, Nat.testBit_two_pow, Nat.testBit_mul_pow_two]
  by_cases h : i = j
  · subst h
    simp [Nat.testBit_to_div_mod]
  · have h2 : (x / 2 ^ i % 2).testBit (j - i) = false ∨ ¬ (i ≤ j) := by
      by_cases hle : i ≤ j
      · left
        apply Nat.testBit_lt_two_pow
        have : 1 ≤ j - i := by omega
        calc x / 2 ^ i % 2 < 2 := Nat.mod_lt _ (by decide)
          _ = 2 ^ 1 := rfl
          _ ≤ 2 ^ (j - i) := Nat.pow_le_pow_right (by decide) this
      · right; exact hle
    rcases h2 with h2 | h2 <;> simp [h, h2]

theorem and_255 (x : Nat) : x &&& 0xFF = x % 256 :=
  Nat.and_pow_two_sub_one_eq_mod x 8

theorem and_ff00 (x : Nat) : x &&& 0xFF00 = 256 * (x / 256 % 256) := by
  apply Nat.eq_of_testBit_eq
  intro j
  have e : (0xFF00 : Nat) = 2 ^ 8 * 255 := by decide
  have e2 : (256 : Nat) = 2 ^ 8 := by decide
  have e3 : (255 : Nat) = 2 ^ 8 - 1 := by decide
  rw [Nat.testBit_and, e, e2, Nat.testBit_mul_pow_two, Nat.testBit_mul_pow_two,
    Nat.testBit_mod_two_pow, e3, Nat.testBit_two_pow_sub_one, ← Nat.shiftRight_eq_div_pow,
    Nat.testBit_shiftRight]
  by_cases h : 8 ≤ j
  · have : 8 + (j - 8) = j := by omega
    simp [h, this, Bool.and_comm]
  · simp [h]

theorem shl8_or (h l : Nat) (hl : l < 256) : (h <<< 8) ||| l = h * 256 + l := by
  rw [Nat.shiftLeft_eq, Nat.mul_comm, ← Nat.mul_add_lt_is_or (by simpa using hl)]

theorem xor_255 (m : Nat) (hm : m < 256) : m ^^^ 0xFF = 255 - m := by
  revert m
  decide

theorem and_128 (x : Nat) : x &&& 0x80 = 128 * (x / 128 % 2) := and_two_pow_eq x 7

theorem and_64 (x : Nat) : x &&& 0x40 = 64 * (x / 64 % 2) := and_two_pow_eq x 6

theorem and_2 (x : Nat) : x &&& 0x02 = 2 * (x / 2 % 2) := and_two_pow_eq x 1

theorem and_1 (x : Nat) : x &&& 0x01 = x % 2 := by simp

/-! ## Indexed and indirect addressing -/

/-- C11: for every operand byte and every index, `AddrZeroPageX` and
`AddrZeroPageY` return (operand + index) mod 256, which is below 0x0100, with
page_crossed = false and PC advanced by 1 (16-bit); the operand 0x11 with
index 0xFF gives 0x0010, and the program LDX #$FF, LDA $11,X run from reset
reads its data at 0x0010. -/
theorem C11_zero_page_indexed {β : Type} (c : BaseCPU β) :
    c.AddrZeroPageX.1 = (((c.Bus.Read c.PC).1 + c.X) % 256, false) ∧
    c.AddrZeroPageX.1.1 < 0x0100 ∧
    c.AddrZeroPageX.2.PC = (c.PC + 1) % 65536 ∧
    c.AddrZeroPageY.1 = (((c.Bus.Read c.PC).1 + c.Y) % 256, false) ∧
    c.AddrZeroPageY.1.1 < 0x0100 ∧
    c.AddrZeroPageY.2.PC = (c.PC + 1) % 65536 ∧
    ((c.Bus.Read c.PC).1 = 0x11 → c.X = 0xFF → c.AddrZeroPageX.1.1 = 0x0010) ∧
    ((c.Bus.Read c.PC).1 = 0x11 → c.Y = 0xFF → c.AddrZeroPageY.1.1 = 0x0010) ∧
    (mos6502.Step^[2] (mos6502.Step (mos6502.afterReset [0xA2, 0xFF, 0xB5, 0x11]))).Bus.log.head?
      = some (Access.read 0x0010) := by
  have hx : c.AddrZeroPageX.1 = (((c.Bus.Read c.PC).1 + c.X) % 256, false) := by
    simp only [BaseCPU.AddrZeroPageX, BaseCPU.read, and_255, Nat.mod_mod]
  have hy : c.AddrZeroPageY.1 = (((c.Bus.Read c.PC).1 + c.Y) % 256, false) := by
    simp only [BaseCPU.AddrZeroPageY, BaseCPU.read, and_255, Nat.mod_mod]
  refine ⟨hx, ?_, rfl, hy, ?_, rfl, ?_, ?_, ?_⟩
  · rw [hx]; exact Nat.mod_lt _ (by decide)
  · rw [hy]; exact Nat.mod_lt _ (by decide)
  · intro h1 h2; rw [hx, h1, h2]
  · intro h1 h2; rw [hy, h1, h2]
  · decide

theorem word_high (l h : Nat) (hl : l < 256) : (l ||| (h <<< 8)) / 256 = h := by
  rw [Nat.lor_comm, shl8_or h l hl]
  omega

theorem word_low (l h : Nat) (hl : l < 256) : (l ||| (h <<< 8)) % 256 = l := by
  rw [Nat.lor_comm, shl8_or h l hl]
  omega

theorem busRead_lt {β : Type} (b : Bus β) (a : Nat) : (b.Read a).1 < 256 :=
  Nat.mod_lt _ (by decide)

theorem page_ne_iff (a h : Nat) (ha : a < 65536) :
    ((a &&& 0xFF00) != (h <<< 8)) = true ↔ a / 256 ≠ h := by
  rw [and_ff00, Nat.shiftLeft_eq]
  simp only [bne_iff_ne, ne_eq]
  omega

/-- C12: zero-page pointer reads wrap inside page zero.  With op the operand
byte, `AddrIndirectX` returns the word read at (op + X) mod 256 (low byte) and
(op + X + 1) mod 256 (high byte); `AddrIndirectY` and `AddrZeroPageIndirect`
read the pointer at op and (op + 1) mod 256, so for op = 0xFF the high byte
comes from 0x0000; `AddrIndirectY` returns (pointer + Y) mod 65536 with
page_crossed true exactly when the high byte of the result differs from the
high byte of the pointer.  The bus sees the operand read and these two reads
only. -/
theorem C12_zero_page_pointer {β : Type} (c : BaseCPU β) :
    c.AddrIndirectX.1 =
      ((c.Bus.Read c.PC).2.readWord (((c.Bus.Read c.PC).1 + c.X) % 256)
        (((c.Bus.Read c.PC).1 + c.X + 1) % 256), false) ∧
    c.AddrIndirectX.2.Bus.log =
      Access.read (((c.Bus.Read c.PC).1 + c.X + 1) % 256) ::
        Access.read (((c.Bus.Read c.PC).1 + c.X) % 256) :: Access.read c.PC :: c.Bus.log ∧
    c.AddrIndirectY.1.1 =
      ((c.Bus.Read c.PC).2.readWord (c.Bus.Read c.PC).1 (((c.Bus.Read c.PC).1 + 1) % 256)
        + c.Y) % 65536 ∧
    (c.AddrIndirectY.1.2 = true ↔
      highByte c.AddrIndirectY.1.1 ≠
        highByte ((c.Bus.Read c.PC).2.readWord (c.Bus.Read c.PC).1
          (((c.Bus.Read c.PC).1 + 1) % 256))) ∧
    c.AddrIndirectY.2.Bus.log =
      Access.read (((c.Bus.Read c.PC).1 + 1) % 256) ::
        Access.read (c.Bus.Read c.PC).1 :: Access.read c.PC :: c.Bus.log ∧
    c.AddrZeroPageIndirect.1 =
      ((c.Bus.Read c.PC).2.readWord (c.Bus.Read c.PC).1 (((c.Bus.Read c.PC).1 + 1) % 256),
        false) ∧
    c.AddrZeroPageIndirect.2.Bus.log =
      Access.read (((c.Bus.Read c.PC).1 + 1) % 256) ::
        Access.read (c.Bus.Read c.PC).1 :: Access.read c.PC :: c.Bus.log ∧
    ((c.Bus.Read c.PC).1 = 0xFF →
      c.AddrIndirectY.2.Bus.log =
        Access.read 0x0000 :: Access.read 0x00FF :: Access.read c.PC :: c.Bus.log ∧
      c.AddrZeroPageIndirect.2.Bus.log =
        Access.read 0x0000 :: Access.read 0x00FF :: Access.read c.PC :: c.Bus.log) := by
  have hop := busRead_lt c.Bus c.PC
  have e1 : ∀ z : Nat, ((z % 256 + 1) % 65536) &&& 0xFF = (z + 1) % 256 := by
    intro z; rw [and_255]; omega
  have e2 : ∀ z : Nat, z % 256 &&& 0xFF = z % 256 := by
    intro z; rw [and_255]; omega
  have e3 : (((c.Bus.Read c.PC).1 + 1) % 65536) &&& 0xFF = ((c.Bus.Read c.PC).1 + 1) % 256 := by
    rw [and_255]; omega
  have e4 : (c.Bus.Read c.PC).1 &&& 0xFF = (c.Bus.Read c.PC).1 := by
    rw [and_255]; omega
  have hY : c.AddrIndirectY.1.1 =
      ((c.Bus.Read c.PC).2.readWord (c.Bus.Read c.PC).1 (((c.Bus.Read c.PC).1 + 1) % 256)
        + c.Y) % 65536 := by
    simp only [BaseCPU.AddrIndirectY, BaseCPU.read, Bus.readWord, e3, e4, Nat.lor_comm]
  have hYlog : c.AddrIndirectY.2.Bus.log =
      Access.read (((c.Bus.Read c.PC).1 + 1) % 256) ::
        Access.read (c.Bus.Read c.PC).1 :: Access.read c.PC :: c.Bus.log := by
    simp only [BaseCPU.AddrIndirectY, BaseCPU.read, e3, e4]
    rfl
  have hZlog : c.AddrZeroPageIndirect.2.Bus.log =
      Access.read (((c.Bus.Read c.PC).1 + 1) % 256) ::
        Access.read (c.Bus.Read c.PC).1 :: Access.read c.PC :: c.Bus.log := by
    simp only [BaseCPU.AddrZeroPageIndirect, BaseCPU.read, e3, e4]
    rfl
  refine ⟨?_, ?_, hY, ?_, hYlog, ?_, hZlog, ?_⟩
  · simp only [BaseCPU.AddrIndirectX, BaseCPU.read, Bus.readWord, e1, e2, Nat.lor_comm]
  · simp only [BaseCPU.AddrIndirectX, BaseCPU.read, e1, e2]
    rfl
  · have hlt : c.AddrIndirectY.1.1 < 65536 := by
      rw [hY]; exact Nat.mod_lt _ (by decide)
    have hp : highByte ((c.Bus.Read c.PC).2.readWord (c.Bus.Read c.PC).1
        (((c.Bus.Read c.PC).1 + 1) % 256)) =
        (((c.Bus.Read c.PC).2.Read (c.Bus.Read c.PC).1).2.Read
          (((c.Bus.Read c.PC).1 + 1) % 256)).1 :=
      word_high _ _ (busRead_lt _ _)
    rw [hp]
    have hh : c.AddrIndirectY.1.2 =
        ((c.AddrIndirectY.1.1 &&& 0xFF00) !=
          ((((c.Bus.Read c.PC).2.Read (c.Bus.Read c.PC).1).2.Read
            (((c.Bus.Read c.PC).1 + 1) % 256)).1 <<< 8)) := by
      simp only [BaseCPU.AddrIndirectY, BaseCPU.read, e3, e4]
    rw [hh]
    exact page_ne_iff _ _ hlt
  · simp only [BaseCPU.AddrZeroPageIndirect, BaseCPU.read, Bus.readWord, e3, e4, Nat.lor_comm]
  · intro h
    rw [hYlog, hZlog, h]
    exact ⟨rfl, rfl⟩

theorem absX_unfold {β : Type} (c : BaseCPU β) :
    c.AddrAbsoluteX.1 =
      ((c.operandWord + c.X) % 65536,
        (((c.operandWord + c.X) % 65536) &&& 0xFF00) !=
          (((c.Bus.Read c.PC).2.Read ((c.PC + 1) % 65536)).1 <<< 8)) := by
  simp only [BaseCPU.AddrAbsoluteX, BaseCPU.read, BaseCPU.operandWord, Nat.lor_comm]

theorem absY_unfold {β : Type} (c : BaseCPU β) :
    c.AddrAbsoluteY.1 =
      ((c.operandWord + c.Y) % 65536,
        (((c.operandWord + c.Y) % 65536) &&& 0xFF00) !=
          (((c.Bus.Read c.PC).2.Read ((c.PC + 1) % 65536)).1 <<< 8)) := by
  simp only [BaseCPU.AddrAbsoluteY, BaseCPU.read, BaseCPU.operandWord, Nat.lor_comm]

theorem operandWord_split {β : Type} (c : BaseCPU β) :
    c.operandWord / 256 = ((c.Bus.Read c.PC).2.Read ((c.PC + 1) % 65536)).1 ∧
    c.operandWord % 256 = (c.Bus.Read c.PC).1 ∧ c.operandWord < 65536 := by
  have h1 := word_high (c.Bus.Read c.PC).1 ((c.Bus.Read c.PC).2.Read ((c.PC + 1) % 65536)).1
    (busRead_lt _ _)
  have h2 := word_low (c.Bus.Read c.PC).1 ((c.Bus.Read c.PC).2.Read ((c.PC + 1) % 65536)).1
    (busRead_lt _ _)
  have h3 := busRead_lt (c.Bus.Read c.PC).2 ((c.PC + 1) % 65536)
  refine ⟨h1, h2, ?_⟩
  unfold BaseCPU.operandWord
  omega

theorem indexed_page (base i r : Nat) (h : Nat) (hb : base < 65536) (hh : base / 256 = h)
    (hr : r = (base + i) % 65536) :
    (((r &&& 0xFF00) != (h <<< 8)) = true ↔ base &&& 0xFF00 ≠ r &&& 0xFF00) ∧
    (i < 256 → (((r &&& 0xFF00) != (h <<< 8)) = true ↔ (base &&& 0xFF) + i > 0xFF)) := by
  have hrlt : r < 65536 := by rw [hr]; exact Nat.mod_lt _ (by decide)
  rw [page_ne_iff r h hrlt, and_ff00, and_ff00, and_255]
  constructor
  · omega
  · intro hi
    omega

/-- C13: for every 16-bit operand base and every index byte, `AddrAbsoluteX`
and `AddrAbsoluteY` return (base + index) mod 65536, and page_crossed is true
exactly when (base & 0xFF00) differs from (result & 0xFF00), which is exactly
when (base & 0xFF) + index > 0xFF. -/
theorem C13_absolute_indexed {β : Type} (c : BaseCPU β) (hx : c.X < 256) (hy : c.Y < 256) :
    c.AddrAbsoluteX.1.1 = (c.operandWord + c.X) % 65536 ∧
    (c.AddrAbsoluteX.1.2 = true ↔
      c.operandWord &&& 0xFF00 ≠ c.AddrAbsoluteX.1.1 &&& 0xFF00) ∧
    (c.AddrAbsoluteX.1.2 = true ↔ (c.operandWord &&& 0xFF) + c.X > 0xFF) ∧
    c.AddrAbsoluteY.1.1 = (c.operandWord + c.Y) % 65536 ∧
    (c.AddrAbsoluteY.1.2 = true ↔
      c.operandWord &&& 0xFF00 ≠ c.AddrAbsoluteY.1.1 &&& 0xFF00) ∧
    (c.AddrAbsoluteY.1.2 = true ↔ (c.operandWord &&& 0xFF) + c.Y > 0xFF) := by
  have hs := operandWord_split c
  have hX := indexed_page c.operandWord c.X _ _ hs.2.2 hs.1 rfl
  have hY := indexed_page c.operandWord c.Y _ _ hs.2.2 hs.1 rfl
  rw [absX_unfold, absY_unfold]
  exact ⟨rfl, hX.1, hX.2 hx, rfl, hY.1, hY.2 hy⟩

/-- C13 at concrete inputs: the operand 0x20F0 with X = 0x20 gives 0x2110 with a
page cross, and the operand 0xFFF0 with Y = 0x20 wraps to 0x0010 with a page
cross. -/
theorem C13_absolute_indexed_witness :
    ({ mos6502.afterReset [0xF0, 0x20] with X := 0x20 }).AddrAbsoluteX.1 = (0x2110, true) ∧
    ({ mos6502.afterReset [0xF0, 0xFF] with Y := 0x20 }).AddrAbsoluteY.1 = (0x0010, true) ∧
    (({ mos6502.afterReset [0xF0, 0xFF] with Y := 0x20 }).AddrAbsoluteY.1.2 = true ↔
      (({ mos6502.afterReset [0xF0, 0xFF] with Y := 0x20 }).operandWord &&& 0xFF) + 0x20 > 0xFF) :=
  ⟨by decide, by decide,
   (C13_absolute_indexed { mos6502.afterReset [0xF0, 0xFF] with Y := 0x20 }
      (by decide) (by decide)).2.2.2.2.2⟩

/-! ## Conditional branches -/

theorem branch_entries :
    ∀ e ∈ mos6502.instructionTable,
      (mos6502.branchCondition e.2.Name).all (fun fw =>
        decide (e.2.AddrMode = some mos6502.AddrModeFn.addrRelative ∧ e.2.Cycles = 2 ∧
          (e.2.Operation, fw) ∈
            [(mos6502.OperationFn.bcc, FlagCarry, false), (mos6502.OperationFn.bcs, FlagCarry, true),
             (mos6502.OperationFn.beq, FlagZero, true), (mos6502.OperationFn.bne, FlagZero, false),
             (mos6502.OperationFn.bmi, FlagNegative, true),
             (mos6502.OperationFn.bpl, FlagNegative, false),
             (mos6502.OperationFn.bvc, FlagOverflow, false),
             (mos6502.OperationFn.bvs, FlagOverflow, true)])) = true := by
  decide

theorem branch_op_run {β : Type} (o : mos6502.OperationFn) (f : Nat) (w : Bool)
    (h : (o, f, w) ∈
      [(mos6502.OperationFn.bcc, FlagCarry, false), (mos6502.OperationFn.bcs, FlagCarry, true),
       (mos6502.OperationFn.beq, FlagZero, true), (mos6502.OperationFn.bne, FlagZero, false),
       (mos6502.OperationFn.bmi, FlagNegative, true),
       (mos6502.OperationFn.bpl, FlagNegative, false),
       (mos6502.OperationFn.bvc, FlagOverflow, false),
       (mos6502.OperationFn.bvs, FlagOverflow, true)])
    (c : BaseCPU β) (a : Nat) (p : Bool) :
    o.run c a p = if c.GetFlag f = w then mos6502.branch c a p else c := by
  simp only [List.mem_cons, Prod.mk.injEq, List.mem_singleton, List.not_mem_nil, or_false] at h
  rcases h with h | h | h | h | h | h | h | h <;>
  (obtain ⟨ho, hf, hw⟩ := h
   subst ho hf hw
   simp only [mos6502.OperationFn.run, mos6502.BCC, mos6502.BCS, mos6502.BEQ, mos6502.BNE,
     mos6502.BMI, mos6502.BPL, mos6502.BVC, mos6502.BVS]
   try (cases c.GetFlag _ <;> rfl))

/-- What the table holds for an opcode whose mnemonic is a conditional branch. -/
theorem branch_lookup {β : Type} (opcode : Nat) (ins : mos6502.Instruction) (f : Nat) (w : Bool)
    (hop : mos6502.instructionMap opcode = some ins)
    (hbc : mos6502.branchCondition ins.Name = some (f, w)) :
    ins.AddrMode = some mos6502.AddrModeFn.addrRelative ∧ ins.Cycles = 2 ∧
    ∀ (c : BaseCPU β) (a : Nat) (p : Bool),
      ins.Operation.run c a p = if c.GetFlag f = w then mos6502.branch c a p else c := by
  have hm := lookup_mem opcode ins mos6502.instructionTable hop
  have he := branch_entries (opcode, ins) hm
  simp only [hbc, Option.all_some, decide_eq_true_eq] at he
  exact ⟨he.1, he.2.1, branch_op_run _ _ _ he.2.2⟩

theorem addrRelative_spec {β : Type} (c : BaseCPU β) :
    c.AddrRelative.1.1 = branchTarget ((c.PC + 1) % 65536) (c.Bus.Read c.PC).1 ∧
    (c.AddrRelative.1.2 = true ↔
      highByte (branchTarget ((c.PC + 1) % 65536) (c.Bus.Read c.PC).1) ≠
        highByte ((c.PC + 1) % 65536)) ∧
    c.AddrRelative.2.PC = (c.PC + 1) % 65536 := by
  have hlt := busRead_lt c.Bus c.PC
  unfold BaseCPU.AddrRelative
  simp only [BaseCPU.read, branchTarget, signExtend, highByte, and_ff00]
  split
  · next h =>
    simp only [bne_iff_ne, ne_eq]
    refine ⟨by omega, ?_, trivial⟩
    have e : ((((c.PC + 1) % 65536 : Nat) : Int) + ((c.Bus.Read c.PC).1 : Int)) % 65536 =
        ((((c.PC + 1) % 65536 + (c.Bus.Read c.PC).1) % 65536 : Nat) : Int) := by omega
    rw [e, Int.toNat_ofNat]
    omega
  · next h =>
    simp only [bne_iff_ne, ne_eq]
    refine ⟨by omega, ?_, trivial⟩
    have e : ((((c.PC + 1) % 65536 : Nat) : Int) + (((c.Bus.Read c.PC).1 : Int) - 256)) % 65536 =
        ((((c.PC + 1) % 65536 + (c.Bus.Read c.PC).1 + 65536 - 256) % 65536 : Nat) : Int) := by
      omega
    rw [e, Int.toNat_ofNat]
    omega

/-- The zero-budget `Step` of a conditional branch, spelled out. -/
theorem branch_step {β : Type} (c : BaseCPU β) (ins : mos6502.Instruction) (f : Nat) (w : Bool)
    (h0 : c.Cycles = 0) (hr : c.ResetPending = false) (hn : c.NMIPending = false)
    (hi : (c.IRQPending && !c.GetFlag FlagInterruptDisable) = false)
    (hop : mos6502.instructionMap (c.Bus.Read c.PC).1 = some ins)
    (hbc : mos6502.branchCondition ins.Name = some (f, w)) :
    (mos6502.Step c).regs =
      ((if c.GetFlag f = w then
          branchTarget ((c.PC + 2) % 65536) ((c.Bus.Read c.PC).2.Read ((c.PC + 1) % 65536)).1
        else (c.PC + 2) % 65536), c.A, c.X, c.Y, c.SP, c.Status) ∧
    (mos6502.Step c).Cycles =
      if c.GetFlag f = w then
        (if highByte (branchTarget ((c.PC + 2) % 65536)
              ((c.Bus.Read c.PC).2.Read ((c.PC + 1) % 65536)).1) = highByte ((c.PC + 2) % 65536)
          then 2 else 3)
      else 1 := by
  obtain ⟨hAM, hCy, hrun⟩ := @branch_lookup β _ ins f w hop hbc
  have hop2 : mos6502.instructionMap (c.read c.PC).1 = some ins := hop
  have hs := addrRelative_spec (mos6502.fetched c)
  have hfr := mos6502.addrMode_frame mos6502.AddrModeFn.addrRelative (mos6502.fetched c)
  simp only [mos6502.AddrModeFn.run] at hfr
  have hpc : ((mos6502.fetched c).PC + 1) % 65536 = (c.PC + 2) % 65536 := by
    show ((c.PC + 1) % 65536 + 1) % 65536 = (c.PC + 2) % 65536
    omega
  have hoff : ((mos6502.fetched c).Bus.Read (mos6502.fetched c).PC).1 =
      ((c.Bus.Read c.PC).2.Read ((c.PC + 1) % 65536)).1 := rfl
  rw [hpc, hoff] at hs
  have hfl : (mos6502.fetched c).AddrRelative.2.GetFlag f = c.GetFlag f := by
    unfold BaseCPU.GetFlag
    rw [hfr.2.2.2.2.1]
    rfl
  have hcy0 : (mos6502.fetched c).AddrRelative.2.Cycles = 0 := by
    rw [hfr.2.2.2.2.2.1]
    exact h0
  rw [mos6502.step_dispatch c h0 hr hn hi]
  unfold mos6502.dispatch
  rw [hop2]
  simp only [mos6502.operand, hAM, mos6502.AddrModeFn.run, hrun, hfl, hCy, BaseCPU.regs]
  by_cases hc : c.GetFlag f = w
  · simp only [hc, if_true, mos6502.branch, hs.1, hcy0, hfr.1, hfr.2.1, hfr.2.2.1, hfr.2.2.2.1,
      hfr.2.2.2.2.1]
    refine ⟨rfl, ?_⟩
    by_cases hp : (mos6502.fetched c).AddrRelative.1.2 = true
    · have := hs.2.1.1 hp
      simp only [hp, if_true, if_neg this]
    · have hne : ¬ (highByte (branchTarget ((c.PC + 2) % 65536)
          ((c.Bus.Read c.PC).2.Read ((c.PC + 1) % 65536)).1) ≠ highByte ((c.PC + 2) % 65536)) :=
        fun h => hp (hs.2.1.2 h)
      have heq := not_not.mp hne
      simp only [hp, heq, if_true, Bool.false_eq_true, if_false]
  · simp only [hc, if_false, hs.2.2, hcy0, hfr.1, hfr.2.1, hfr.2.2.1, hfr.2.2.2.1,
      hfr.2.2.2.2.1]
    exact ⟨rfl, trivial⟩

/-- C14: for every NMOS opcode whose mnemonic is BCC, BCS, BEQ, BNE, BMI, BPL,
BVC or BVS, every offset byte and every PC: the zero-budget `Step` that runs
the branch leaves PC = (P2 + sign_extend(offset)) mod 65536 when the tested
flag has the value of the branch condition and PC = P2 otherwise, where
P2 = (PC + 2) mod 65536 and offset is the byte after the opcode; A, X, Y, SP
and the status byte are unchanged. -/
theorem C14_branch_target {β : Type} (c : BaseCPU β) (ins : mos6502.Instruction) (f : Nat)
    (w : Bool) (h0 : c.Cycles = 0) (hr : c.ResetPending = false) (hn : c.NMIPending = false)
    (hi : (c.IRQPending && !c.GetFlag FlagInterruptDisable) = false)
    (hop : mos6502.instructionMap (c.Bus.Read c.PC).1 = some ins)
    (hbc : mos6502.branchCondition ins.Name = some (f, w)) :
    (mos6502.Step c).PC =
      (if c.GetFlag f = w then
        branchTarget ((c.PC + 2) % 65536) ((c.Bus.Read c.PC).2.Read ((c.PC + 1) % 65536)).1
       else (c.PC + 2) % 65536) ∧
    (mos6502.Step c).A = c.A ∧ (mos6502.Step c).X = c.X ∧ (mos6502.Step c).Y = c.Y ∧
    (mos6502.Step c).SP = c.SP ∧ (mos6502.Step c).Status = c.Status := by
  have h := (branch_step c ins f w h0 hr hn hi hop hbc).1
  simp only [BaseCPU.regs, Prod.mk.injEq] at h
  exact h

/-- C14 at a concrete input: BEQ with offset 0xFB (-5) at 0x8000 and Z set goes
to 0x7FFD; the same opcode with Z clear goes on at 0x8002. -/
theorem C14_branch_target_witness :
    (mos6502.Step { mos6502.afterReset [0xF0, 0xFB] with Status := 0x36 }).PC = 0x7FFD ∧
    (mos6502.Step (mos6502.afterReset [0xF0, 0xFB])).PC = 0x8002 :=
  ⟨(C14_branch_target { mos6502.afterReset [0xF0, 0xFB] with Status := 0x36 }
      (mos6502.Instruction.mk "BEQ" (some mos6502.AddrModeFn.addrRelative)
        mos6502.OperationFn.beq 2) FlagZero true
      (by decide) (by decide) (by decide) (by decide) (by decide) (by decide)).1.trans
      (by decide),
   by decide⟩

/-- C15: for every NMOS conditional branch the cycles charged are 2 when the
branch is not taken, 3 when it is taken and the target has the high byte of
P2 (the address after the operand), and 4 when it is taken and the high bytes
differ. -/
theorem C15_branch_cycles {β : Type} (c : BaseCPU β) (ins : mos6502.Instruction) (f : Nat)
    (w : Bool) (h0 : c.Cycles = 0) (hr : c.ResetPending = false) (hn : c.NMIPending = false)
    (hi : (c.IRQPending && !c.GetFlag FlagInterruptDisable) = false)
    (hop : mos6502.instructionMap (c.Bus.Read c.PC).1 = some ins)
    (hbc : mos6502.branchCondition ins.Name = some (f, w)) :
    mos6502.charged c =
      if c.GetFlag f = w then
        (if highByte (branchTarget ((c.PC + 2) % 65536)
              ((c.Bus.Read c.PC).2.Read ((c.PC + 1) % 65536)).1) = highByte ((c.PC + 2) % 65536)
          then 3 else 4)
      else 2 := by
  have h := (branch_step c ins f w h0 hr hn hi hop hbc).2
  unfold mos6502.charged
  rw [h]
  split
  · split <;> rfl
  · rfl

/-- C15 at concrete inputs (BEQ at 0x8000): not taken 2 cycles, taken with
offset 5 three cycles, taken with offset 0xFB (-5, into page 0x7F) four
cycles. -/
theorem C15_branch_cycles_witness :
    mos6502.charged (mos6502.afterReset [0xF0, 0x05]) = 2 ∧
    mos6502.charged { mos6502.afterReset [0xF0, 0x05] with Status := 0x36 } = 3 ∧
    mos6502.charged { mos6502.afterReset [0xF0, 0xFB] with Status := 0x36 } = 4 :=
  ⟨by decide, by decide,
   (C15_branch_cycles { mos6502.afterReset [0xF0, 0xFB] with Status := 0x36 }
      (mos6502.Instruction.mk "BEQ" (some mos6502.AddrModeFn.addrRelative)
        mos6502.OperationFn.beq 2) FlagZero true
      (by decide) (by decide) (by decide) (by decide) (by decide) (by decide)).trans
      (by decide)⟩

/-! ## Flags after the arithmetic and load operations -/

theorem and_128_ne (x : Nat) : (x &&& 0x80 != 0) = x.testBit 7 := by
  rw [and_128, Nat.testBit_to_div_mod]
  have h : x / 128 % 2 = 0 ∨ x / 128 % 2 = 1 := by omega
  rcases h with h | h <;> simp [h]

theorem testBit7_congr (x y : Nat) (h : x % 256 = y % 256) : x.testBit 7 = y.testBit 7 := by
  have hx : (x % 2 ^ 8).testBit 7 = x.testBit 7 := by
    rw [Nat.testBit_mod_two_pow]; simp
  have hy : (y % 2 ^ 8).testBit 7 = y.testBit 7 := by
    rw [Nat.testBit_mod_two_pow]; simp
  rw [← hx, ← hy]
  exact congrArg (fun n => Nat.testBit n 7) h

theorem getFlag_setFlag_same {β : Type} (c : BaseCPU β) (f : Nat) (v : Bool) (h0 : f ≠ 0)
    (h : (f ^^^ 0xFF) &&& f = 0) : (c.SetFlag f v).GetFlag f = v := by
  unfold BaseCPU.GetFlag BaseCPU.SetFlag
  cases v
  · simp [Nat.and_assoc, h]
  · have e : (c.Status ||| f) &&& f = f := by
      rw [Nat.and_distrib_right, Nat.and_self]
      apply Nat.eq_of_testBit_eq
      intro i
      simp only [Nat.testBit_or, Nat.testBit_and]
      cases Nat.testBit f i <;> simp
    simp [e, h0]

theorem getFlag_setFlag_other {β : Type} (c : BaseCPU β) (f g : Nat) (v : Bool)
    (h1 : f &&& g = 0) (h2 : (f ^^^ 0xFF) &&& g = g) :
    (c.SetFlag f v).GetFlag g = c.GetFlag g := by
  unfold BaseCPU.GetFlag BaseCPU.SetFlag
  cases v
  · simp only [Bool.false_eq_true, if_false]
    rw [and_and_lit _ _ _ h2]
  · simp only [if_true]
    rw [or_and_lit _ _ _ h1]

theorem getFlag_setZN_zero {β : Type} (c : BaseCPU β) (v : Nat) :
    (c.SetZN v).GetFlag FlagZero = (v == 0) := by
  unfold BaseCPU.SetZN
  rw [getFlag_setFlag_other _ _ _ _ (by decide) (by decide),
    getFlag_setFlag_same _ _ _ (by decide) (by decide)]

theorem getFlag_setZN_negative {β : Type} (c : BaseCPU β) (v : Nat) :
    (c.SetZN v).GetFlag FlagNegative = (v &&& 0x80 != 0) := by
  unfold BaseCPU.SetZN
  rw [getFlag_setFlag_same _ _ _ (by decide) (by decide)]

theorem getFlag_setZN_other {β : Type} (c : BaseCPU β) (v g : Nat)
    (h1 : FlagZero &&& g = 0) (h2 : (FlagZero ^^^ 0xFF) &&& g = g)
    (h3 : FlagNegative &&& g = 0) (h4 : (FlagNegative ^^^ 0xFF) &&& g = g) :
    (c.SetZN v).GetFlag g = c.GetFlag g := by
  unfold BaseCPU.SetZN
  rw [getFlag_setFlag_other _ _ _ _ h3 h4, getFlag_setFlag_other _ _ _ _ h1 h2]

/-- `GetFlag` looks at the status byte only. -/
theorem getFlag_congr {β : Type} (c d : BaseCPU β) (h : c.Status = d.Status) (f : Nat) :
    c.GetFlag f = d.GetFlag f := by
  unfold BaseCPU.GetFlag
  rw [h]

theorem adc_unfold {β : Type} (c : BaseCPU β) (addr : Nat) (p : Bool) :
    (mos6502.ADC c addr p).A = (c.adcSum addr % 65536) % 256 ∧
    (mos6502.ADC c addr p).Status =
      (((c.SetFlag FlagCarry (decide (c.adcSum addr % 65536 > 0xFF))).SetFlag FlagOverflow
        ((((c.A ^^^ (c.adcSum addr % 65536)) &&&
          ((c.Bus.Read addr).1 ^^^ (c.adcSum addr % 65536))) &&& 0x80) != 0)).SetZN
        ((c.adcSum addr % 65536) % 256)).Status :=
  ⟨rfl, rfl⟩

theorem adcSum_lt {β : Type} (c : BaseCPU β) (addr : Nat) (hA : c.A < 256) :
    c.adcSum addr < 512 := by
  have hM := busRead_lt c.Bus addr
  unfold BaseCPU.adcSum BaseCPU.carryIn
  split <;> omega

/-- C16: for every byte A, every byte M at the operand address and every
carry-in C, whatever the Decimal flag is, NMOS `ADC` with r = A + M + C leaves
A = r mod 256, Carry = (r > 0xFF), Overflow = (((A xor r) and (M xor r) and
0x80) != 0), Zero = (A = 0 afterwards), Negative = bit 7 of the new A, and the
flags I, D, B and the unused bit as they were; 0x50 + 0x50 sets V and
0x50 + 0x10 leaves it clear. -/
theorem C16_adc_flags {β : Type} (c : BaseCPU β) (addr : Nat) (p : Bool) (hA : c.A < 256) :
    (mos6502.ADC c addr p).A = c.adcSum addr % 256 ∧
    (mos6502.ADC c addr p).GetFlag FlagCarry = decide (c.adcSum addr > 0xFF) ∧
    (mos6502.ADC c addr p).GetFlag FlagOverflow =
      ((((c.A ^^^ c.adcSum addr) &&& ((c.Bus.Read addr).1 ^^^ c.adcSum addr)) &&& 0x80) != 0) ∧
    (mos6502.ADC c addr p).GetFlag FlagZero = decide ((mos6502.ADC c addr p).A = 0) ∧
    (mos6502.ADC c addr p).GetFlag FlagNegative = (mos6502.ADC c addr p).A.testBit 7 ∧
    (∀ g ∈ [FlagInterruptDisable, FlagDecimal, FlagBreak, FlagUnused],
      (mos6502.ADC c addr p).GetFlag g = c.GetFlag g) ∧
    (c.A = 0x50 → (c.Bus.Read addr).1 = 0x50 →
      (mos6502.ADC c addr p).GetFlag FlagOverflow = true) ∧
    (c.A = 0x50 → (c.Bus.Read addr).1 = 0x10 →
      (mos6502.ADC c addr p).GetFlag FlagOverflow = false) := by
  have hlt := adcSum_lt c addr hA
  have hmod : c.adcSum addr % 65536 = c.adcSum addr := Nat.mod_eq_of_lt (by omega)
  obtain ⟨hAeq, hSt⟩ := adc_unfold c addr p
  rw [hmod] at hAeq hSt
  have hfl : ∀ g, (mos6502.ADC c addr p).GetFlag g = _ := fun g => getFlag_congr _ _ hSt g
  have hV : (mos6502.ADC c addr p).GetFlag FlagOverflow =
      ((((c.A ^^^ c.adcSum addr) &&& ((c.Bus.Read addr).1 ^^^ c.adcSum addr)) &&& 0x80) != 0) := by
    rw [hfl, getFlag_setZN_other _ _ _ (by decide) (by decide) (by decide) (by decide),
      getFlag_setFlag_same _ _ _ (by decide) (by decide)]
  refine ⟨hAeq, ?_, hV, ?_, ?_, ?_, ?_, ?_⟩
  · rw [hfl, getFlag_setZN_other _ _ _ (by decide) (by decide) (by decide) (by decide),
      getFlag_setFlag_other _ _ _ _ (by decide) (by decide),
      getFlag_setFlag_same _ _ _ (by decide) (by decide)]
  · rw [hfl, getFlag_setZN_zero, hAeq]
    generalize c.adcSum addr % 256 = n
    cases n <;> rfl
  · rw [hfl, getFlag_setZN_negative, hAeq, and_128_ne]
  · intro g hg
    simp only [List.mem_cons, List.mem_singleton, List.not_mem_nil, or_false] at hg
    rcases hg with rfl | rfl | rfl | rfl <;>
    rw [hfl, getFlag_setZN_other _ _ _ (by decide) (by decide) (by decide) (by decide),
      getFlag_setFlag_other _ _ _ _ (by decide) (by decide),
      getFlag_setFlag_other _ _ _ _ (by decide) (by decide)]
  · intro h1 h2
    rw [hV]
    unfold BaseCPU.adcSum BaseCPU.carryIn
    rw [h1, h2]
    cases c.GetFlag FlagCarry <;> decide
  · intro h1 h2
    rw [hV]
    unfold BaseCPU.adcSum BaseCPU.carryIn
    rw [h1, h2]
    cases c.GetFlag FlagCarry <;> decide

/-- C16 at a concrete input: A = 0x50 plus the byte 0x50 with carry clear gives
A = 0xA0 with V and N set and C and Z clear. -/
theorem C16_adc_flags_witness :
    (mos6502.ADC { mos6502.afterReset [0x50] with A := 0x50 } 0x8000 false).A = 0xA0 ∧
    (mos6502.ADC { mos6502.afterReset [0x50] with A := 0x50 } 0x8000 false).Status = 0xF4 ∧
    (mos6502.ADC { mos6502.afterReset [0x50] with A := 0x50 } 0x8000 false).GetFlag FlagOverflow
      = true :=
  ⟨by decide, by decide,
   (C16_adc_flags { mos6502.afterReset [0x50] with A := 0x50 } 0x8000 false (by decide)).2.2.2.2.2.2.1
     (by decide) (by decide)⟩

theorem sbc_unfold {β : Type} (c : BaseCPU β) (addr : Nat) (p : Bool) :
    (mos6502.SBC c addr p).A =
      ((c.A + 65536 - (c.Bus.Read addr).1 + 65536 - (1 - c.carryIn)) % 65536) % 256 ∧
    (mos6502.SBC c addr p).Status =
      (((c.SetFlag FlagCarry
          (decide ((c.A + 65536 - (c.Bus.Read addr).1 + 65536 - (1 - c.carryIn)) % 65536 < 0x100))).SetFlag
        FlagOverflow
        ((((c.A ^^^ ((c.A + 65536 - (c.Bus.Read addr).1 + 65536 - (1 - c.carryIn)) % 65536)) &&&
          (((c.Bus.Read addr).1 ^^^ 0xFFFF) ^^^
            ((c.A + 65536 - (c.Bus.Read addr).1 + 65536 - (1 - c.carryIn)) % 65536))) &&& 0x80)
              != 0)).SetZN
        (((c.A + 65536 - (c.Bus.Read addr).1 + 65536 - (1 - c.carryIn)) % 65536) % 256)).Status :=
  ⟨rfl, rfl⟩

theorem setFlag_status_congr {β : Type} (c d : BaseCPU β) (h : c.Status = d.Status) (f : Nat)
    (v w : Bool) (hvw : v = w) : (c.SetFlag f v).Status = (d.SetFlag f w).Status := by
  unfold BaseCPU.SetFlag
  simp only [h, hvw]

theorem setZN_status_congr {β : Type} (c d : BaseCPU β) (h : c.Status = d.Status)
    (x y : Nat) (hxy : x = y) : (c.SetZN x).Status = (d.SetZN y).Status := by
  unfold BaseCPU.SetZN
  subst hxy
  exact setFlag_status_congr _ _ (setFlag_status_congr _ _ h _ _ _ rfl) _ _ _ rfl

theorem carryIn_le {β : Type} (c : BaseCPU β) : c.carryIn ≤ 1 := by
  unfold BaseCPU.carryIn
  split <;> omega

/-- C17: for every byte A, every byte M and every carry-in, NMOS `SBC` of M
leaves the same accumulator and the same status byte (so the same Carry,
Overflow, Zero and Negative) as NMOS `ADC` of 0xFF xor M from a state with the
same accumulator and status; Carry after `SBC` is set exactly when
A >= M + (1 - C). -/
theorem C17_sbc_as_adc {β : Type} (c d : BaseCPU β) (a b : Nat) (p q : Bool) (hA : c.A < 256)
    (hdA : d.A = c.A) (hdS : d.Status = c.Status)
    (hM : (d.Bus.Read b).1 = 0xFF ^^^ (c.Bus.Read a).1) :
    (mos6502.SBC c a p).A = (mos6502.ADC d b q).A ∧
    (mos6502.SBC c a p).Status = (mos6502.ADC d b q).Status ∧
    ((mos6502.SBC c a p).GetFlag FlagCarry = true ↔
      c.A ≥ (c.Bus.Read a).1 + (1 - c.carryIn)) := by
  have hMlt := busRead_lt c.Bus a
  have hC := carryIn_le c
  have hdC : d.carryIn = c.carryIn := by
    unfold BaseCPU.carryIn
    rw [getFlag_congr d c hdS]
  have hM2 : (d.Bus.Read b).1 = 255 - (c.Bus.Read a).1 := by
    rw [hM, Nat.xor_comm]
    exact xor_255 _ hMlt
  obtain ⟨hsA, hsS⟩ := sbc_unfold c a p
  obtain ⟨haA, haS⟩ := adc_unfold d b q
  have hsum : d.adcSum b = c.A + (255 - (c.Bus.Read a).1) + c.carryIn := by
    unfold BaseCPU.adcSum
    rw [hdA, hM2, hdC]
  have hlow : ((c.A + 65536 - (c.Bus.Read a).1 + 65536 - (1 - c.carryIn)) % 65536) % 256 =
      (d.adcSum b % 65536) % 256 := by
    rw [hsum]; omega
  have hcarry : decide ((c.A + 65536 - (c.Bus.Read a).1 + 65536 - (1 - c.carryIn)) % 65536 < 0x100)
      = decide (d.adcSum b % 65536 > 0xFF) := by
    rw [hsum]
    apply decide_eq_decide.mpr
    omega
  have hbit := testBit7_congr _ _ hlow
  have h1 : Nat.testBit 65535 7 = true := by decide
  have h2 : Nat.testBit 255 7 = true := by decide
  refine ⟨by rw [hsA, haA, hlow], ?_, ?_⟩
  · rw [hsS, haS]
    apply setZN_status_congr
    · apply setFlag_status_congr
      · exact setFlag_status_congr _ _ hdS.symm _ _ _ hcarry
      · rw [and_128_ne, and_128_ne, hM, hdA]
        simp only [Nat.testBit_and, Nat.testBit_xor, hbit, h1, h2]
        cases Nat.testBit (c.Bus.Read a).1 7 <;> rfl
    · rw [hlow]
  · rw [getFlag_congr _ _ hsS,
      getFlag_setZN_other _ _ _ (by decide) (by decide) (by decide) (by decide),
      getFlag_setFlag_other _ _ _ _ (by decide) (by decide),
      getFlag_setFlag_same _ _ _ (by decide) (by decide), decide_eq_true_eq]
    omega

/-- C17 at a concrete input: A = 0x50 minus the byte 0x30 with carry clear gives
0x1F, and the status byte is the one `ADC` of 0xCF gives. -/
theorem C17_sbc_as_adc_witness :
    (mos6502.SBC { mos6502.afterReset [0x30] with A := 0x50 } 0x8000 false).A = 0x1F ∧
    (mos6502.SBC { mos6502.afterReset [0x30] with A := 0x50 } 0x8000 false).Status =
      (mos6502.ADC { mos6502.afterReset [0xCF] with A := 0x50 } 0x8000 false).Status :=
  ⟨by decide,
   (C17_sbc_as_adc { mos6502.afterReset [0x30] with A := 0x50 }
      { mos6502.afterReset [0xCF] with A := 0x50 } 0x8000 0x8000 false false
      (by decide) (by decide) (by decide) (by decide)).2.1⟩

theorem compare_spec {β : Type} (c : BaseCPU β) (r m : Nat) (hr : r < 256) (hm : m < 256) :
    (mos6502.compare c r m).GetFlag FlagCarry = decide (r ≥ m) ∧
    (mos6502.compare c r m).GetFlag FlagZero = decide (r = m) ∧
    (mos6502.compare c r m).GetFlag FlagNegative = ((((r : Int) - (m : Int)) % 256).toNat).testBit 7 ∧
    (∀ g ∈ [FlagOverflow, FlagInterruptDisable, FlagDecimal, FlagBreak, FlagUnused],
      (mos6502.compare c r m).GetFlag g = c.GetFlag g) := by
  have e : ((((r : Int) - (m : Int)) % 256).toNat) = (r + 256 - m) % 256 := by omega
  unfold mos6502.compare
  refine ⟨?_, ?_, ?_, ?_⟩
  · rw [getFlag_setFlag_other _ _ _ _ (by decide) (by decide),
      getFlag_setFlag_other _ _ _ _ (by decide) (by decide),
      getFlag_setFlag_same _ _ _ (by decide) (by decide)]
  · rw [getFlag_setFlag_same _ _ _ (by decide) (by decide)]
    have h : ((r + 256 - m) % 256 = 0) ↔ r = m := by omega
    by_cases hrm : r = m
    · simp [hrm]
    · have h2 : (r + 256 - m) % 256 ≠ 0 := fun h3 => hrm (h.mp h3)
      simp [hrm, h2]
  · rw [getFlag_setFlag_other _ _ _ _ (by decide) (by decide),
      getFlag_setFlag_same _ _ _ (by decide) (by decide), and_128_ne, e]
  · intro g hg
    simp only [List.mem_cons, List.mem_singleton, List.not_mem_nil, or_false] at hg
    rcases hg with rfl | rfl | rfl | rfl | rfl <;>
    rw [getFlag_setFlag_other _ _ _ _ (by decide) (by decide),
      getFlag_setFlag_other _ _ _ _ (by decide) (by decide),
      getFlag_setFlag_other _ _ _ _ (by decide) (by decide)]

/-- C18: with R the register compared (A for `CMP`, X for `CPX`, Y for `CPY`)
and M the byte read at the operand address, the NMOS compare operations set
Carry = (R >= M), Zero = (R = M) and Negative = bit 7 of (R - M) mod 256, and
leave A, X, Y and the flags V, I, D, B and unused as they were; R = 0x00 with
M = 0xFF gives C = 0, Z = 0, N = 0. -/
theorem C18_compare {β : Type} (c : BaseCPU β) (addr : Nat) (p : Bool)
    (hA : c.A < 256) (hX : c.X < 256) (hY : c.Y < 256) :
    ((mos6502.CMP c addr p).GetFlag FlagCarry = decide (c.A ≥ (c.Bus.Read addr).1) ∧
     (mos6502.CMP c addr p).GetFlag FlagZero = decide (c.A = (c.Bus.Read addr).1) ∧
     (mos6502.CMP c addr p).GetFlag FlagNegative =
       ((((c.A : Int) - ((c.Bus.Read addr).1 : Int)) % 256).toNat).testBit 7 ∧
     (∀ g ∈ [FlagOverflow, FlagInterruptDisable, FlagDecimal, FlagBreak, FlagUnused],
       (mos6502.CMP c addr p).GetFlag g = c.GetFlag g) ∧
     ((mos6502.CMP c addr p).A, (mos6502.CMP c addr p).X, (mos6502.CMP c addr p).Y)
       = (c.A, c.X, c.Y)) ∧
    ((mos6502.CPX c addr p).GetFlag FlagCarry = decide (c.X ≥ (c.Bus.Read addr).1) ∧
     (mos6502.CPX c addr p).GetFlag FlagZero = decide (c.X = (c.Bus.Read addr).1) ∧
     (mos6502.CPX c addr p).GetFlag FlagNegative =
       ((((c.X : Int) - ((c.Bus.Read addr).1 : Int)) % 256).toNat).testBit 7 ∧
     (∀ g ∈ [FlagOverflow, FlagInterruptDisable, FlagDecimal, FlagBreak, FlagUnused],
       (mos6502.CPX c addr p).GetFlag g = c.GetFlag g) ∧
     ((mos6502.CPX c addr p).A, (mos6502.CPX c addr p).X, (mos6502.CPX c addr p).Y)
       = (c.A, c.X, c.Y)) ∧
    ((mos6502.CPY c addr p).GetFlag FlagCarry = decide (c.Y ≥ (c.Bus.Read addr).1) ∧
     (mos6502.CPY c addr p).GetFlag FlagZero = decide (c.Y = (c.Bus.Read addr).1) ∧
     (mos6502.CPY c addr p).GetFlag FlagNegative =
       ((((c.Y : Int) - ((c.Bus.Read addr).1 : Int)) % 256).toNat).testBit 7 ∧
     (∀ g ∈ [FlagOverflow, FlagInterruptDisable, FlagDecimal, FlagBreak, FlagUnused],
       (mos6502.CPY c addr p).GetFlag g = c.GetFlag g) ∧
     ((mos6502.CPY c addr p).A, (mos6502.CPY c addr p).X, (mos6502.CPY c addr p).Y)
       = (c.A, c.X, c.Y)) ∧
    (c.A = 0x00 → (c.Bus.Read addr).1 = 0xFF →
      (mos6502.CMP c addr p).GetFlag FlagCarry = false ∧
      (mos6502.CMP c addr p).GetFlag FlagZero = false ∧
      (mos6502.CMP c addr p).GetFlag FlagNegative = false) := by
  have hM := busRead_lt c.Bus addr
  have hcmp : ∀ g, (mos6502.CMP c addr p).GetFlag g =
      (mos6502.compare c c.A (c.Bus.Read addr).1).GetFlag g := fun g => rfl
  have hcpx : ∀ g, (mos6502.CPX c addr p).GetFlag g =
      (mos6502.compare c c.X (c.Bus.Read addr).1).GetFlag g := fun g => rfl
  have hcpy : ∀ g, (mos6502.CPY c addr p).GetFlag g =
      (mos6502.compare c c.Y (c.Bus.Read addr).1).GetFlag g := fun g => rfl
  have sA := compare_spec c c.A (c.Bus.Read addr).1 hA hM
  have sX := compare_spec c c.X (c.Bus.Read addr).1 hX hM
  have sY := compare_spec c c.Y (c.Bus.Read addr).1 hY hM
  refine ⟨⟨?_, ?_, ?_, ?_, rfl⟩, ⟨?_, ?_, ?_, ?_, rfl⟩, ⟨?_, ?_, ?_, ?_, rfl⟩, ?_⟩
  · rw [hcmp]; exact sA.1
  · rw [hcmp]; exact sA.2.1
  · rw [hcmp]; exact sA.2.2.1
  · intro g hg; rw [hcmp]; exact sA.2.2.2 g hg
  · rw [hcpx]; exact sX.1
  · rw [hcpx]; exact sX.2.1
  · rw [hcpx]; exact sX.2.2.1
  · intro g hg; rw [hcpx]; exact sX.2.2.2 g hg
  · rw [hcpy]; exact sY.1
  · rw [hcpy]; exact sY.2.1
  · rw [hcpy]; exact sY.2.2.1
  · intro g hg; rw [hcpy]; exact sY.2.2.2 g hg
  · intro h1 h2
    rw [hcmp, hcmp, hcmp, sA.1, sA.2.1, sA.2.2.1, h1, h2]
    decide

/-- C18 at a concrete input: A = 0x00 compared with the byte 0xFF leaves the
status byte 0x34 (C, Z and N clear) and the registers alone. -/
theorem C18_compare_witness :
    (mos6502.CMP (mos6502.afterReset [0xFF]) 0x8000 false).Status = 0x34 ∧
    (mos6502.CMP (mos6502.afterReset [0xFF]) 0x8000 false).GetFlag FlagCarry = false ∧
    (mos6502.CMP (mos6502.afterReset [0xFF]) 0x8000 false).GetFlag FlagZero = false ∧
    (mos6502.CMP (mos6502.afterReset [0xFF]) 0x8000 false).GetFlag FlagNegative = false :=
  ⟨by decide,
   (C18_compare (mos6502.afterReset [0xFF]) 0x8000 false (by decide) (by decide)
      (by decide)).2.2.2 (by decide) (by decide)⟩

theorem load_flags {β : Type} (c d : BaseCPU β) (v : Nat) (hS : d.Status = (c.SetZN v).Status) :
    d.GetFlag FlagZero = decide (v = 0) ∧
    d.GetFlag FlagNegative = v.testBit 7 ∧
    (∀ g ∈ [FlagCarry, FlagInterruptDisable, FlagDecimal, FlagBreak, FlagUnused, FlagOverflow],
      d.GetFlag g = c.GetFlag g) := by
  have hfl : ∀ g, d.GetFlag g = (c.SetZN v).GetFlag g := fun g => getFlag_congr _ _ hS g
  refine ⟨?_, ?_, ?_⟩
  · rw [hfl, getFlag_setZN_zero]
    cases v <;> rfl
  · rw [hfl, getFlag_setZN_negative, and_128_ne]
  · intro g hg
    simp only [List.mem_cons, List.mem_singleton, List.not_mem_nil, or_false] at hg
    rcases hg with rfl | rfl | rfl | rfl | rfl | rfl <;>
    rw [hfl, getFlag_setZN_other _ _ _ (by decide) (by decide) (by decide) (by decide)]

/-- C19: for each of `LDA`, `LDX`, `LDY` of both variants (listed with the
register it loads and the two other data registers) and the byte v read at the
effective address: afterwards the destination register is v, Zero is set
exactly when v = 0, Negative is bit 7 of v, the flags C, I, D, B, unused and V
are as before, the other data registers, SP and PC are as before, and the bus
has seen that one read and no write.  In both instruction tables every entry
named LDA, LDX or LDY runs the operation of that name. -/
theorem C19_load_register {β : Type} (c : BaseCPU β) (addr : Nat) (p : Bool) :
    (∀ h ∈ ([(mos6502.LDA, BaseCPU.A, fun d => (d.X, d.Y)),
             (mos6502.LDX, BaseCPU.X, fun d => (d.A, d.Y)),
             (mos6502.LDY, BaseCPU.Y, fun d => (d.A, d.X)),
             (wdc65c02.LDA, BaseCPU.A, fun d => (d.X, d.Y)),
             (wdc65c02.LDX, BaseCPU.X, fun d => (d.A, d.Y)),
             (wdc65c02.LDY, BaseCPU.Y, fun d => (d.A, d.X))] :
            List ((BaseCPU β → Nat → Bool → BaseCPU β) × (BaseCPU β → Nat) ×
              (BaseCPU β → Nat × Nat))),
      h.2.1 (h.1 c addr p) = (c.Bus.Read addr).1 ∧
      (h.1 c addr p).GetFlag FlagZero = decide ((c.Bus.Read addr).1 = 0) ∧
      (h.1 c addr p).GetFlag FlagNegative = (c.Bus.Read addr).1.testBit 7 ∧
      (∀ g ∈ [FlagCarry, FlagInterruptDisable, FlagDecimal, FlagBreak, FlagUnused, FlagOverflow],
        (h.1 c addr p).GetFlag g = c.GetFlag g) ∧
      h.2.2 (h.1 c addr p) = h.2.2 c ∧
      (h.1 c addr p).SP = c.SP ∧
      (h.1 c addr p).PC = c.PC ∧
      (h.1 c addr p).Bus = (c.Bus.Read addr).2) ∧
    (∀ e ∈ mos6502.instructionTable,
      (e.2.Name = "LDA" → e.2.Operation = mos6502.OperationFn.lda) ∧
      (e.2.Name = "LDX" → e.2.Operation = mos6502.OperationFn.ldx) ∧
      (e.2.Name = "LDY" → e.2.Operation = mos6502.OperationFn.ldy)) ∧
    (∀ e ∈ wdc65c02.instructionTable,
      (e.2.Name = "LDA" → e.2.Operation = wdc65c02.OperationFn.lda) ∧
      (e.2.Name = "LDX" → e.2.Operation = wdc65c02.OperationFn.ldx) ∧
      (e.2.Name = "LDY" → e.2.Operation = wdc65c02.OperationFn.ldy)) := by
  refine ⟨?_, by decide, by decide⟩
  intro h hh
  simp only [List.mem_cons, List.mem_singleton, List.not_mem_nil, or_false] at hh
  rcases hh with rfl | rfl | rfl | rfl | rfl | rfl
  · have hf := load_flags c (mos6502.LDA c addr p) (c.Bus.Read addr).1 rfl
    exact ⟨rfl, hf.1, hf.2.1, hf.2.2, rfl, rfl, rfl, rfl⟩
  · have hf := load_flags c (mos6502.LDX c addr p) (c.Bus.Read addr).1 rfl
    exact ⟨rfl, hf.1, hf.2.1, hf.2.2, rfl, rfl, rfl, rfl⟩
  · have hf := load_flags c (mos6502.LDY c addr p) (c.Bus.Read addr).1 rfl
    exact ⟨rfl, hf.1, hf.2.1, hf.2.2, rfl, rfl, rfl, rfl⟩
  · have hf := load_flags c (wdc65c02.LDA c addr p) (c.Bus.Read addr).1 rfl
    exact ⟨rfl, hf.1, hf.2.1, hf.2.2, rfl, rfl, rfl, rfl⟩
  · have hf := load_flags c (wdc65c02.LDX c addr p) (c.Bus.Read addr).1 rfl
    exact ⟨rfl, hf.1, hf.2.1, hf.2.2, rfl, rfl, rfl, rfl⟩
  · have hf := load_flags c (wdc65c02.LDY c addr p) (c.Bus.Read addr).1 rfl
    exact ⟨rfl, hf.1, hf.2.1, hf.2.2, rfl, rfl, rfl, rfl⟩

theorem absX_page {β : Type} (c : BaseCPU β) :
    c.AddrAbsoluteX.1.2 = true ↔
      highByte ((c.operandWord + c.X) % 65536) ≠ highByte c.operandWord := by
  have hs := operandWord_split c
  rw [absX_unfold]
  show ((((c.operandWord + c.X) % 65536) &&& 0xFF00) !=
          (((c.Bus.Read c.PC).2.Read ((c.PC + 1) % 65536)).1 <<< 8)) = true ↔ _
  rw [page_ne_iff _ _ (Nat.mod_lt _ (by decide)), ← hs.1]
  rfl

/-- C20: the page-cross penalty applies to reads only.  On NMOS, at a
zero-budget `Step` with no event pending, LDA abs,X (opcode 0xBD) is charged 4
cycles when the operand base and (base + X) mod 65536 have the same high byte
and 5 when they do not, and STA abs,X (opcode 0x9D) is charged 5 in both cases;
`STA`, `STX` and `STY` leave the cycle budget alone whatever page_crossed is. -/
theorem C20_page_cross_penalty {β : Type} (c : BaseCPU β) (h0 : c.Cycles = 0)
    (hr : c.ResetPending = false) (hn : c.NMIPending = false)
    (hi : (c.IRQPending && !c.GetFlag FlagInterruptDisable) = false) :
    ((c.Bus.Read c.PC).1 = 0xBD →
      mos6502.charged c =
        if highByte (((mos6502.fetched c).operandWord + c.X) % 65536) =
            highByte (mos6502.fetched c).operandWord then 4 else 5) ∧
    ((c.Bus.Read c.PC).1 = 0x9D → mos6502.charged c = 5) ∧
    (∀ (d : BaseCPU β) (addr : Nat) (p : Bool),
      (mos6502.STA d addr p).Cycles = d.Cycles ∧ (mos6502.STX d addr p).Cycles = d.Cycles ∧
      (mos6502.STY d addr p).Cycles = d.Cycles) := by
  have hfr := mos6502.addrMode_frame mos6502.AddrModeFn.addrAbsoluteX (mos6502.fetched c)
  simp only [mos6502.AddrModeFn.run] at hfr
  have hcy0 : (mos6502.fetched c).AddrAbsoluteX.2.Cycles = 0 := by
    rw [hfr.2.2.2.2.2.1]
    exact h0
  have hpg := absX_page (mos6502.fetched c)
  have hX : (mos6502.fetched c).X = c.X := rfl
  rw [hX] at hpg
  refine ⟨?_, ?_, fun d addr p => ⟨rfl, rfl, rfl⟩⟩
  · intro hop
    have hop2 : mos6502.instructionMap (c.read c.PC).1 =
        some (mos6502.Instruction.mk "LDA" (some mos6502.AddrModeFn.addrAbsoluteX)
          mos6502.OperationFn.lda 4) := by
      show mos6502.instructionMap (c.Bus.Read c.PC).1 = _
      rw [hop]
      decide
    unfold mos6502.charged
    rw [mos6502.step_dispatch c h0 hr hn hi]
    unfold mos6502.dispatch
    rw [hop2]
    simp only [mos6502.operand, mos6502.AddrModeFn.run, mos6502.OperationFn.run, mos6502.LDA,
      setZN_fields, read_fields, hcy0]
    by_cases hp : (mos6502.fetched c).AddrAbsoluteX.1.2 = true
    · have hne := hpg.1 hp
      simp only [hp, if_true, if_neg hne]
    · have heq : highByte (((mos6502.fetched c).operandWord + c.X) % 65536) =
          highByte (mos6502.fetched c).operandWord :=
        not_not.mp (fun h => hp (hpg.2 h))
      simp only [hp, heq, if_true, Bool.false_eq_true, if_false]
  · intro hop
    have hop2 : mos6502.instructionMap (c.read c.PC).1 =
        some (mos6502.Instruction.mk "STA" (some mos6502.AddrModeFn.addrAbsoluteX)
          mos6502.OperationFn.sta 5) := by
      show mos6502.instructionMap (c.Bus.Read c.PC).1 = _
      rw [hop]
      decide
    unfold mos6502.charged
    rw [mos6502.step_dispatch c h0 hr hn hi]
    unfold mos6502.dispatch
    rw [hop2]
    simp only [mos6502.operand, mos6502.AddrModeFn.run, mos6502.OperationFn.run, mos6502.STA,
      write_fields, hcy0]

/-- C20 at concrete inputs (X = 0x20 right after reset): LDA $20F0,X is charged
5 cycles and LDA $2000,X is charged 4; STA $20F0,X and STA $2000,X are charged
5 each. -/
theorem C20_page_cross_penalty_witness :
    mos6502.charged { mos6502.afterReset [0xBD, 0xF0, 0x20] with X := 0x20 } = 5 ∧
    mos6502.charged { mos6502.afterReset [0xBD, 0x00, 0x20] with X := 0x20 } = 4 ∧
    mos6502.charged { mos6502.afterReset [0x9D, 0xF0, 0x20] with X := 0x20 } = 5 ∧
    mos6502.charged { mos6502.afterReset [0x9D, 0x00, 0x20] with X := 0x20 } = 5 :=
  ⟨((C20_page_cross_penalty { mos6502.afterReset [0xBD, 0xF0, 0x20] with X := 0x20 }
      (by decide) (by decide) (by decide) (by decide)).1 (by decide)).trans (by decide),
   by decide, by decide, by decide⟩

/-! ## The stack -/

theorem page_one_or (s : Nat) (h : s < 256) : 0x0100 ||| s = 0x0100 + s := by
  have e := shl8_or 1 s h
  simpa using e

theorem push_spec {β : Type} (c : BaseCPU β) (d : Nat) (hsp : c.SP < 256) :
    (c.Push d).Bus = c.Bus.Write (0x0100 + c.SP) d ∧ (c.Push d).SP = (c.SP + 255) % 256 := by
  have e : (0x0100 + c.SP) % 65536 = 0x0100 + c.SP := by omega
  simp only [BaseCPU.Push, BaseCPU.write, e, and_self]

theorem pull_spec {β : Type} (c : BaseCPU β) :
    c.Pull.1 = (c.Bus.Read (0x0100 + (c.SP + 1) % 256)).1 ∧
    c.Pull.2.Bus = (c.Bus.Read (0x0100 + (c.SP + 1) % 256)).2 ∧
    c.Pull.2.SP = (c.SP + 1) % 256 := by
  have e : (0x0100 + (c.SP + 1) % 256) % 65536 = 0x0100 + (c.SP + 1) % 256 := by omega
  simp only [BaseCPU.Pull, BaseCPU.read, e, and_self]

/-- C24: every stack access stays in page one and SP wraps modulo 256.  For a
byte SP, `Push` writes its argument at 0x0100 | SP and leaves
SP = (SP - 1) mod 256; `Pull` leaves SP = (SP + 1) mod 256 and reads at
0x0100 | SP for that new SP; both addresses lie in 0x0100..0x01FF.  With
SP = 0x00 a push writes 0x0100 and leaves SP = 0xFF; with SP = 0xFF a pull
reads 0x0100 and leaves SP = 0x00. -/
theorem C24_stack_page_one {β : Type} (c : BaseCPU β) (d : Nat) (hsp : c.SP < 256) :
    (c.Push d).Bus = c.Bus.Write (0x0100 ||| c.SP) d ∧
    ((c.Push d).SP : Int) = ((c.SP : Int) - 1) % 256 ∧
    c.Pull.2.SP = (c.SP + 1) % 256 ∧
    c.Pull.1 = (c.Bus.Read (0x0100 ||| c.Pull.2.SP)).1 ∧
    c.Pull.2.Bus = (c.Bus.Read (0x0100 ||| c.Pull.2.SP)).2 ∧
    (0x0100 ≤ (0x0100 ||| c.SP) ∧ (0x0100 ||| c.SP) ≤ 0x01FF) ∧
    (0x0100 ≤ (0x0100 ||| c.Pull.2.SP) ∧ (0x0100 ||| c.Pull.2.SP) ≤ 0x01FF) ∧
    (c.SP = 0x00 → (c.Push d).Bus = c.Bus.Write 0x0100 d ∧ (c.Push d).SP = 0xFF) ∧
    (c.SP = 0xFF → c.Pull.1 = (c.Bus.Read 0x0100).1 ∧ c.Pull.2.SP = 0x00) := by
  obtain ⟨hb, hs⟩ := push_spec c d hsp
  obtain ⟨hv, hpb, hps⟩ := pull_spec c
  have hlt : (c.SP + 1) % 256 < 256 := Nat.mod_lt _ (by decide)
  rw [hps, page_one_or _ hsp, page_one_or _ hlt]
  refine ⟨hb, ?_, rfl, hv, hpb, ⟨by omega, by omega⟩, ⟨by omega, by omega⟩, ?_, ?_⟩
  · rw [hs]; omega
  · intro h0
    rw [hb, hs, h0]
    exact ⟨rfl, rfl⟩
  · intro h0
    rw [hv, h0]
    exact ⟨rfl, rfl⟩

/-- C24 at the concrete input of the test: PHA with A = 0x42 and SP = 0x00
through `Step` writes 0x42 at 0x0100 and leaves SP = 0xFF. -/
theorem C24_stack_page_one_witness :
    ({ mos6502.afterReset [0x48] with A := 0x42, SP := 0x00 }.Push 0x42).Bus =
      ({ mos6502.afterReset [0x48] with A := 0x42, SP := 0x00 } : BaseCPU SimpleRAM).Bus.Write
        0x0100 0x42 ∧
    (mos6502.Step { mos6502.afterReset [0x48] with A := 0x42, SP := 0x00 }).SP = 0xFF ∧
    (mos6502.Step { mos6502.afterReset [0x48] with A := 0x42, SP := 0x00 }).Bus.log.head?
      = some (Access.write 0x0100 0x42) :=
  ⟨((C24_stack_page_one { mos6502.afterReset [0x48] with A := 0x42, SP := 0x00 } 0x42
      (by decide)).2.2.2.2.2.2.2.1 rfl).1,
   by decide, by decide⟩

theorem ramLike_simpleRAM (b : Bus SimpleRAM) (hr : b.readFn = SimpleRAM.Read)
    (hw : b.writeFn = SimpleRAM.Write) : b.RamLike := by
  unfold Bus.RamLike
  rw [hr, hw]
  refine ⟨fun d a => rfl, fun d a v => ?_, fun d a v a2 h => ?_⟩
  · simp [SimpleRAM.Read, SimpleRAM.Write]
  · simp [SimpleRAM.Read, SimpleRAM.Write, h]

theorem ramLike_read_write {β : Type} (b : Bus β) (h : b.RamLike) (a v : Nat) :
    ((b.Write a v).Read a).1 = v % 256 := by
  have h2 := h.2.1 b.dev a v
  simp only [Bus.Read, Bus.Write]
  exact h2

/-- On a RAM-like bus, the two bytes written by two pushes at different
addresses are read back by reading the later address first. -/
theorem ramLike_read_two {β : Type} (b : Bus β) (h : b.RamLike) (a1 v1 a2 v2 : Nat)
    (hne : a1 ≠ a2) :
    (((b.Write a1 v1).Write a2 v2).Read a2).1 = v2 % 256 ∧
    ((((b.Write a1 v1).Write a2 v2).Read a2).2.Read a1).1 = v1 % 256 := by
  obtain ⟨h1, h2, h3⟩ := h
  simp only [Bus.Read, Bus.Write]
  refine ⟨h2 _ _ _, ?_⟩
  rw [h1, h3 _ _ _ _ hne]
  exact h2 _ _ _

theorem pull_after_push {β : Type} (c d : BaseCPU β) (v : Nat) (hsp : c.SP < 256)
    (hram : c.Bus.RamLike) (hb : d.Bus = (c.Push v).Bus) (hs : d.SP = (c.Push v).SP) :
    d.Pull.1 = v % 256 ∧ d.Pull.2.SP = c.SP := by
  obtain ⟨hpb, hps⟩ := push_spec c v hsp
  obtain ⟨hv, _, hsp2⟩ := pull_spec d
  have e : (d.SP + 1) % 256 = c.SP := by rw [hs, hps]; omega
  rw [hv, hsp2, e, hb, hpb]
  exact ⟨ramLike_read_write _ hram _ _, rfl⟩

/-- C21: with a RAM-like bus, for every byte A and every byte SP (SP = 0x00
included), on both variants: `PLA` run on any state that has the bus and the SP
that `PHA` left (A and everything else may have changed in between) leaves A
equal to the pushed value, Zero set exactly when that value is 0, Negative
equal to its bit 7, and SP equal to its value before `PHA`. -/
theorem C21_pha_pla {β : Type} (c d : BaseCPU β) (a1 a2 : Nat) (p1 p2 : Bool)
    (hA : c.A < 256) (hsp : c.SP < 256) (hram : c.Bus.RamLike) :
    (d.Bus = (mos6502.PHA c a1 p1).Bus → d.SP = (mos6502.PHA c a1 p1).SP →
      (mos6502.PLA d a2 p2).A = c.A ∧
      (mos6502.PLA d a2 p2).GetFlag FlagZero = decide (c.A = 0) ∧
      (mos6502.PLA d a2 p2).GetFlag FlagNegative = c.A.testBit 7 ∧
      (mos6502.PLA d a2 p2).SP = c.SP) ∧
    (d.Bus = (wdc65c02.PHA c a1 p1).Bus → d.SP = (wdc65c02.PHA c a1 p1).SP →
      (wdc65c02.PLA d a2 p2).A = c.A ∧
      (wdc65c02.PLA d a2 p2).GetFlag FlagZero = decide (c.A = 0) ∧
      (wdc65c02.PLA d a2 p2).GetFlag FlagNegative = c.A.testBit 7 ∧
      (wdc65c02.PLA d a2 p2).SP = c.SP) := by
  have key : d.Bus = (c.Push c.A).Bus → d.SP = (c.Push c.A).SP →
      d.Pull.1 = c.A ∧ d.Pull.2.SP = c.SP := by
    intro hb hs
    have h := pull_after_push c d c.A hsp hram hb hs
    rw [Nat.mod_eq_of_lt hA] at h
    exact h
  constructor
  · intro hb hs
    obtain ⟨hv, hs2⟩ := key hb hs
    have hf := load_flags d.Pull.2 (mos6502.PLA d a2 p2) d.Pull.1 rfl
    rw [hv] at hf
    exact ⟨hv, hf.1, hf.2.1, hs2⟩
  · intro hb hs
    obtain ⟨hv, hs2⟩ := key hb hs
    have hf := load_flags d.Pull.2 (wdc65c02.PLA d a2 p2) d.Pull.1 rfl
    rw [hv] at hf
    exact ⟨hv, hf.1, hf.2.1, hs2⟩

/-- C21 at a concrete input: A = 0x80 pushed with SP = 0x00, A overwritten with
0x11, then pulled: A = 0x80 again, N set, Z clear, SP = 0x00. -/
theorem C21_pha_pla_witness :
    (mos6502.PLA { mos6502.PHA { mos6502.NewCPU (ramBus (demoRAM [])) with A := 0x80, SP := 0x00 }
        0 false with A := 0x11 } 0 false).A = 0x80 ∧
    (mos6502.PLA { mos6502.PHA { mos6502.NewCPU (ramBus (demoRAM [])) with A := 0x80, SP := 0x00 }
        0 false with A := 0x11 } 0 false).GetFlag FlagNegative = true ∧
    (mos6502.PLA { mos6502.PHA { mos6502.NewCPU (ramBus (demoRAM [])) with A := 0x80, SP := 0x00 }
        0 false with A := 0x11 } 0 false).SP = 0x00 :=
  ⟨((C21_pha_pla { mos6502.NewCPU (ramBus (demoRAM [])) with A := 0x80, SP := 0x00 }
      { mos6502.PHA { mos6502.NewCPU (ramBus (demoRAM [])) with A := 0x80, SP := 0x00 }
        0 false with A := 0x11 } 0 0 false false (by decide) (by decide)
      (ramLike_simpleRAM _ rfl rfl)).1 rfl rfl).1,
   by decide, by decide⟩

theorem php_plp_bits : ∀ p < 256,
    p ||| 0x10 ||| 0x20 = p ||| 0x30 ∧ (p ||| 0x30) % 256 = p ||| 0x30 ∧
    ((p ||| 0x30) ||| 0x20) &&& (0x10 ^^^ 0xFF) = (p ||| 0x20) &&& 0xEF := by
  decide

/-- C22: with a RAM-like bus, for every status byte P and every byte SP, on
both variants: `PHP` writes P | 0x30 at the top of the stack and leaves the
live Status as it was; `PLP` run on any state that has the bus and the SP that
`PHP` left gives Status = (P | 0x20) & 0xEF (Unused forced to 1, Break forced
to 0, every other flag restored) and SP equal to its value before `PHP`. -/
theorem C22_php_plp {β : Type} (c d : BaseCPU β) (a1 a2 : Nat) (p1 p2 : Bool)
    (hP : c.Status < 256) (hsp : c.SP < 256) (hram : c.Bus.RamLike) :
    ((mos6502.PHP c a1 p1).Bus = c.Bus.Write (0x0100 + c.SP) (c.Status ||| 0x30) ∧
     (mos6502.PHP c a1 p1).Status = c.Status ∧
     (d.Bus = (mos6502.PHP c a1 p1).Bus → d.SP = (mos6502.PHP c a1 p1).SP →
       (mos6502.PLP d a2 p2).Status = (c.Status ||| 0x20) &&& 0xEF ∧
       (mos6502.PLP d a2 p2).SP = c.SP)) ∧
    ((wdc65c02.PHP c a1 p1).Bus = c.Bus.Write (0x0100 + c.SP) (c.Status ||| 0x30) ∧
     (wdc65c02.PHP c a1 p1).Status = c.Status ∧
     (d.Bus = (wdc65c02.PHP c a1 p1).Bus → d.SP = (wdc65c02.PHP c a1 p1).SP →
       (wdc65c02.PLP d a2 p2).Status = (c.Status ||| 0x20) &&& 0xEF ∧
       (wdc65c02.PLP d a2 p2).SP = c.SP)) := by
  obtain ⟨e1, e2, e3⟩ := php_plp_bits c.Status hP
  have hpush : (c.Push (c.Status ||| 0x10 ||| 0x20)).Bus =
      c.Bus.Write (0x0100 + c.SP) (c.Status ||| 0x30) := by
    rw [← e1]
    exact (push_spec c (c.Status ||| 0x10 ||| 0x20) hsp).1
  have key : d.Bus = (c.Push (c.Status ||| 0x10 ||| 0x20)).Bus →
      d.SP = (c.Push (c.Status ||| 0x10 ||| 0x20)).SP →
      d.Pull.1 = c.Status ||| 0x30 ∧ d.Pull.2.SP = c.SP := by
    intro hb hs
    have h := pull_after_push c d _ hsp hram hb hs
    rw [e1, e2] at h
    exact h
  have hn : ∀ x : BaseCPU β, (mos6502.PLP x a2 p2).Status =
      (x.Pull.1 ||| 0x20) &&& (0x10 ^^^ 0xFF) ∧ (mos6502.PLP x a2 p2).SP = x.Pull.2.SP :=
    fun x => ⟨rfl, rfl⟩
  have hwd : ∀ x : BaseCPU β, (wdc65c02.PLP x a2 p2).Status =
      (x.Pull.1 ||| 0x20) &&& (0x10 ^^^ 0xFF) ∧ (wdc65c02.PLP x a2 p2).SP = x.Pull.2.SP :=
    fun x => ⟨rfl, rfl⟩
  refine ⟨⟨hpush, rfl, ?_⟩, ⟨hpush, rfl, ?_⟩⟩
  · intro hb hs
    obtain ⟨hv, hs2⟩ := key hb hs
    rw [(hn d).1, (hn d).2, hv, e3]
    exact ⟨rfl, hs2⟩
  · intro hb hs
    obtain ⟨hv, hs2⟩ := key hb hs
    rw [(hwd d).1, (hwd d).2, hv, e3]
    exact ⟨rfl, hs2⟩

/-- C22 at a concrete input: P = 0xC3 (N, V, Z, C set) pushed as 0xF3; after
the live status is overwritten with 0x20, `PLP` restores 0xE3. -/
theorem C22_php_plp_witness :
    (mos6502.PHP { mos6502.NewCPU (ramBus (demoRAM [])) with Status := 0xC3 } 0 false).Bus.log
      = [Access.write 0x01FD 0xF3] ∧
    (mos6502.PLP { mos6502.PHP { mos6502.NewCPU (ramBus (demoRAM [])) with Status := 0xC3 }
        0 false with Status := 0x20 } 0 false).Status = 0xE3 :=
  ⟨by decide,
   (((C22_php_plp { mos6502.NewCPU (ramBus (demoRAM [])) with Status := 0xC3 }
      { mos6502.PHP { mos6502.NewCPU (ramBus (demoRAM [])) with Status := 0xC3 }
        0 false with Status := 0x20 } 0 0 false false (by decide) (by decide)
      (ramLike_simpleRAM _ rfl rfl)).1.2.2 rfl rfl).1).trans (by decide)⟩

theorem jsr_frame {β : Type} (e : BaseCPU β) (hsp : e.SP < 256) (hram : e.Bus.RamLike) :
    ((e.Push ((((e.PC + 65535) % 65536) >>> 8) % 256)).Push (((e.PC + 65535) % 65536) % 256)).Bus =
      (e.Bus.Write (0x0100 + e.SP) (highByte ((e.PC + 65535) % 65536))).Write
        (0x0100 + (e.SP + 255) % 256) (((e.PC + 65535) % 65536) % 256) ∧
    ((e.Push ((((e.PC + 65535) % 65536) >>> 8) % 256)).Push (((e.PC + 65535) % 65536) % 256)).SP =
      (e.SP + 254) % 256 ∧
    ∀ d : BaseCPU β,
      d.Bus = ((e.Push ((((e.PC + 65535) % 65536) >>> 8) % 256)).Push
        (((e.PC + 65535) % 65536) % 256)).Bus →
      d.SP = (e.SP + 254) % 256 →
      (((d.Pull.2.Pull.1 <<< 8) ||| d.Pull.1) + 1) % 65536 = ((e.PC + 65535) % 65536 + 1) % 65536 ∧
      d.Pull.2.Pull.2.SP = e.SP := by
  have hhi : (((e.PC + 65535) % 65536) >>> 8) % 256 = highByte ((e.PC + 65535) % 65536) := by
    rw [Nat.shiftRight_eq_div_pow]
    unfold highByte
    omega
  have hb : ((e.Push ((((e.PC + 65535) % 65536) >>> 8) % 256)).Push
        (((e.PC + 65535) % 65536) % 256)).Bus =
      (e.Bus.Write (0x0100 + e.SP) (highByte ((e.PC + 65535) % 65536))).Write
        (0x0100 + (e.SP + 255) % 256) (((e.PC + 65535) % 65536) % 256) := by
    have e1 : (0x0100 + e.SP) % 65536 = 0x0100 + e.SP := by omega
    have e2 : (0x0100 + (e.SP + 255) % 256) % 65536 = 0x0100 + (e.SP + 255) % 256 := by omega
    rw [hhi]
    simp only [BaseCPU.Push, BaseCPU.write, e1, e2]
  have hs : ((e.Push ((((e.PC + 65535) % 65536) >>> 8) % 256)).Push
        (((e.PC + 65535) % 65536) % 256)).SP = (e.SP + 254) % 256 := by
    simp only [BaseCPU.Push, BaseCPU.write]
    omega
  refine ⟨hb, hs, ?_⟩
  intro d hdb hds
  obtain ⟨hv1, hb1, hs1⟩ := pull_spec d
  obtain ⟨hv2, _, hs2⟩ := pull_spec d.Pull.2
  have a1 : (d.SP + 1) % 256 = (e.SP + 255) % 256 := by rw [hds]; omega
  have a2 : (d.Pull.2.SP + 1) % 256 = e.SP := by rw [hs1, a1]; omega
  have hne : 0x0100 + e.SP ≠ 0x0100 + (e.SP + 255) % 256 := by omega
  have hrd := ramLike_read_two e.Bus hram (0x0100 + e.SP) (highByte ((e.PC + 65535) % 65536))
    (0x0100 + (e.SP + 255) % 256) (((e.PC + 65535) % 65536) % 256) hne
  rw [hv2, hs2, a2, hb1, hv1, a1, hdb, hb, hrd.1, hrd.2]
  refine ⟨?_, rfl⟩
  have hlo : (e.PC + 65535) % 65536 % 256 % 256 < 256 := Nat.mod_lt _ (by decide)
  rw [shl8_or _ _ hlo]
  unfold highByte
  omega

theorem ramLike_operandBus {β : Type} (c : BaseCPU β) (h : c.Bus.RamLike) :
    c.operandBus.RamLike := h

theorem addrAbsolute_spec {β : Type} (c : BaseCPU β) :
    c.AddrAbsolute.1 = (c.operandWord, false) ∧
    c.AddrAbsolute.2.PC = ((c.PC + 1) % 65536 + 1) % 65536 ∧
    c.AddrAbsolute.2.Bus = c.operandBus ∧
    c.AddrAbsolute.2.SP = c.SP := by
  simp only [BaseCPU.AddrAbsolute, BaseCPU.read, BaseCPU.operandWord, BaseCPU.operandBus,
    Nat.lor_comm, and_self]

theorem jsr_step_nmos {β : Type} (c : BaseCPU β)
    (h0 : c.Cycles = 0) (hr : c.ResetPending = false) (hn : c.NMIPending = false)
    (hi : (c.IRQPending && !c.GetFlag FlagInterruptDisable) = false)
    (hop : (c.Bus.Read c.PC).1 = 0x20) :
    (mos6502.Step c).Bus =
          (((mos6502.fetched c).AddrAbsolute.2.Push
            (((((mos6502.fetched c).AddrAbsolute.2.PC + 65535) % 65536) >>> 8) % 256)).Push
            ((((mos6502.fetched c).AddrAbsolute.2.PC + 65535) % 65536) % 256)).Bus ∧
        (mos6502.Step c).SP =
          (((mos6502.fetched c).AddrAbsolute.2.Push
            (((((mos6502.fetched c).AddrAbsolute.2.PC + 65535) % 65536) >>> 8) % 256)).Push
            ((((mos6502.fetched c).AddrAbsolute.2.PC + 65535) % 65536) % 256)).SP ∧
        (mos6502.Step c).PC = (mos6502.fetched c).AddrAbsolute.1.1 := by
  have hop2 : mos6502.instructionMap (c.read c.PC).1 =
        some (mos6502.Instruction.mk "JSR" (some mos6502.AddrModeFn.addrAbsolute)
          mos6502.OperationFn.jsr 6) := by
      show mos6502.instructionMap (c.Bus.Read c.PC).1 = _
      rw [hop]
      decide
  rw [mos6502.step_dispatch c h0 hr hn hi]
  unfold mos6502.dispatch
  rw [hop2]
  simp only [mos6502.operand, mos6502.AddrModeFn.run, mos6502.OperationFn.run, mos6502.JSR,
    BaseCPU.Push, BaseCPU.write, and_self]

theorem jsr_step_wdc {β : Type} (c : BaseCPU β)
    (h0 : c.Cycles = 0) (hr : c.ResetPending = false) (hn : c.NMIPending = false)
    (hi : (c.IRQPending && !c.GetFlag FlagInterruptDisable) = false)
    (hop : (c.Bus.Read c.PC).1 = 0x20) :
    (wdc65c02.Step c).Bus =
          (((wdc65c02.fetched c).AddrAbsolute.2.Push
            (((((wdc65c02.fetched c).AddrAbsolute.2.PC + 65535) % 65536) >>> 8) % 256)).Push
            ((((wdc65c02.fetched c).AddrAbsolute.2.PC + 65535) % 65536) % 256)).Bus ∧
        (wdc65c02.Step c).SP =
          (((wdc65c02.fetched c).AddrAbsolute.2.Push
            (((((wdc65c02.fetched c).AddrAbsolute.2.PC + 65535) % 65536) >>> 8) % 256)).Push
            ((((wdc65c02.fetched c).AddrAbsolute.2.PC + 65535) % 65536) % 256)).SP ∧
        (wdc65c02.Step c).PC = (wdc65c02.fetched c).AddrAbsolute.1.1 := by
  have hop2 : wdc65c02.instructionMap (c.read c.PC).1 =
        some (wdc65c02.Instruction.mk "JSR" (some wdc65c02.AddrModeFn.addrAbsolute)
          wdc65c02.OperationFn.jsr 6) := by
      show wdc65c02.instructionMap (c.Bus.Read c.PC).1 = _
      rw [hop]
      decide
  rw [wdc65c02.wdc_step_dispatch c h0 hr hn hi]
  unfold wdc65c02.dispatch
  rw [hop2]
  simp only [wdc65c02.operand, wdc65c02.AddrModeFn.run, wdc65c02.OperationFn.run, wdc65c02.JSR,
    BaseCPU.Push, BaseCPU.write, and_self]

/-- What a JSR entered with the operand resolved leaves, in terms of the state
before the opcode fetch. -/
theorem jsr_entry {β : Type} (c e : BaseCPU β) (hpc : e.PC = (((c.PC + 1) % 65536 + 1) % 65536 + 1) % 65536)
    (hsp : e.SP = c.SP) (hlt : c.SP < 256) (hram : e.Bus.RamLike) :
    ((e.Push ((((e.PC + 65535) % 65536) >>> 8) % 256)).Push (((e.PC + 65535) % 65536) % 256)).Bus =
      (e.Bus.Write (0x0100 + c.SP) (highByte ((c.PC + 2) % 65536))).Write
        (0x0100 + (c.SP + 255) % 256) (((c.PC + 2) % 65536) % 256) ∧
    ((e.Push ((((e.PC + 65535) % 65536) >>> 8) % 256)).Push (((e.PC + 65535) % 65536) % 256)).SP =
      (c.SP + 254) % 256 ∧
    ∀ d : BaseCPU β,
      d.Bus = ((e.Push ((((e.PC + 65535) % 65536) >>> 8) % 256)).Push
        (((e.PC + 65535) % 65536) % 256)).Bus →
      d.SP = (c.SP + 254) % 256 →
      (((d.Pull.2.Pull.1 <<< 8) ||| d.Pull.1) + 1) % 65536 = (c.PC + 3) % 65536 ∧
      d.Pull.2.Pull.2.SP = c.SP := by
  have e1 : (e.PC + 65535) % 65536 = (c.PC + 2) % 65536 := by rw [hpc]; omega
  have e2 : ((c.PC + 2) % 65536 + 1) % 65536 = (c.PC + 3) % 65536 := by omega
  obtain ⟨hb, hs, hrts⟩ := jsr_frame e (by rw [hsp]; exact hlt) hram
  refine ⟨?_, ?_, ?_⟩
  · rw [hb, e1, hsp]
  · rw [hs, hsp]
  · intro d hdb hds
    have h := hrts d hdb (by rw [hds, hsp])
    rw [e1, e2, hsp] at h
    exact h

/-- C23: with a RAM-like bus, for every JSR (opcode 0x20) at address X = PC,
any target and any byte SP, on both variants: the zero-budget `Step` that runs
the JSR writes the high byte of (X + 2) mod 65536 at 0x0100 + SP, then its low
byte at 0x0100 + (SP - 1) mod 256, and sets PC to the operand word; `RTS` run
on any state that has the bus and the SP the JSR left sets
PC = (X + 3) mod 65536 and leaves SP equal to its value before the JSR. -/
theorem C23_jsr_rts {β : Type} (c d : BaseCPU β) (a : Nat) (p : Bool)
    (h0 : c.Cycles = 0) (hr : c.ResetPending = false) (hn : c.NMIPending = false)
    (hi : (c.IRQPending && !c.GetFlag FlagInterruptDisable) = false)
    (hop : (c.Bus.Read c.PC).1 = 0x20) (hsp : c.SP < 256) (hram : c.Bus.RamLike) :
    ((mos6502.Step c).Bus =
       ((mos6502.fetched c).operandBus.Write (0x0100 + c.SP)
          (highByte ((c.PC + 2) % 65536))).Write
        (0x0100 + (c.SP + 255) % 256) (((c.PC + 2) % 65536) % 256) ∧
     (mos6502.Step c).PC = (mos6502.fetched c).operandWord ∧
     (mos6502.Step c).SP = (c.SP + 254) % 256 ∧
     (d.Bus = (mos6502.Step c).Bus → d.SP = (mos6502.Step c).SP →
       (mos6502.RTS d a p).PC = (c.PC + 3) % 65536 ∧ (mos6502.RTS d a p).SP = c.SP)) ∧
    ((wdc65c02.Step c).Bus =
       ((wdc65c02.fetched c).operandBus.Write (0x0100 + c.SP)
          (highByte ((c.PC + 2) % 65536))).Write
        (0x0100 + (c.SP + 255) % 256) (((c.PC + 2) % 65536) % 256) ∧
     (wdc65c02.Step c).PC = (wdc65c02.fetched c).operandWord ∧
     (wdc65c02.Step c).SP = (c.SP + 254) % 256 ∧
     (d.Bus = (wdc65c02.Step c).Bus → d.SP = (wdc65c02.Step c).SP →
       (wdc65c02.RTS d a p).PC = (c.PC + 3) % 65536 ∧ (wdc65c02.RTS d a p).SP = c.SP)) := by
  constructor
  · obtain ⟨_, ha2, ha3, ha4⟩ := addrAbsolute_spec (mos6502.fetched c)
    have hfpc : (mos6502.fetched c).PC = (c.PC + 1) % 65536 := rfl
    have hfsp : (mos6502.fetched c).SP = c.SP := rfl
    rw [hfpc] at ha2
    rw [hfsp] at ha4
    obtain ⟨hB, hS, hP⟩ := jsr_step_nmos c h0 hr hn hi hop
    obtain ⟨hb, hs, hrts⟩ := jsr_entry c (mos6502.fetched c).AddrAbsolute.2 ha2 ha4 hsp
      (by rw [ha3]; exact hram)
    rw [ha3] at hb
    refine ⟨hB.trans hb, ?_, hS.trans hs, ?_⟩
    · rw [hP, (addrAbsolute_spec (mos6502.fetched c)).1]
    · intro hdb hds
      exact hrts d (hdb.trans hB) (hds.trans (hS.trans hs))
  · obtain ⟨_, ha2, ha3, ha4⟩ := addrAbsolute_spec (wdc65c02.fetched c)
    have hfpc : (wdc65c02.fetched c).PC = (c.PC + 1) % 65536 := rfl
    have hfsp : (wdc65c02.fetched c).SP = c.SP := rfl
    rw [hfpc] at ha2
    rw [hfsp] at ha4
    obtain ⟨hB, hS, hP⟩ := jsr_step_wdc c h0 hr hn hi hop
    obtain ⟨hb, hs, hrts⟩ := jsr_entry c (wdc65c02.fetched c).AddrAbsolute.2 ha2 ha4 hsp
      (by rw [ha3]; exact hram)
    rw [ha3] at hb
    refine ⟨hB.trans hb, ?_, hS.trans hs, ?_⟩
    · rw [hP, (addrAbsolute_spec (wdc65c02.fetched c)).1]
    · intro hdb hds
      exact hrts d (hdb.trans hB) (hds.trans (hS.trans hs))

/-- C23 at the concrete input of the test: JSR $8010 at $8000 stacks 0x80 at
0x01FD and 0x02 at 0x01FC and goes to 0x8010; the RTS there returns to 0x8003
with SP = 0xFD again. -/
theorem C23_jsr_rts_witness :
    ((mos6502.Step (mos6502.afterReset
        [0x20, 0x10, 0x80, 0xEA, 0, 0, 0, 0, 0, 0, 0, 0, 0, 0, 0, 0, 0x60])).Bus.log.take 2
      = [Access.write 0x01FC 0x02, Access.write 0x01FD 0x80]) ∧
    (mos6502.Step (mos6502.afterReset
        [0x20, 0x10, 0x80, 0xEA, 0, 0, 0, 0, 0, 0, 0, 0, 0, 0, 0, 0, 0x60])).PC = 0x8010 ∧
    (mos6502.Step^[7] (mos6502.afterReset
        [0x20, 0x10, 0x80, 0xEA, 0, 0, 0, 0, 0, 0, 0, 0, 0, 0, 0, 0, 0x60])).PC = 0x8003 ∧
    (mos6502.Step^[7] (mos6502.afterReset
        [0x20, 0x10, 0x80, 0xEA, 0, 0, 0, 0, 0, 0, 0, 0, 0, 0, 0, 0, 0x60])).SP = 0xFD :=
  ⟨by decide,
   ((C23_jsr_rts (mos6502.afterReset
        [0x20, 0x10, 0x80, 0xEA, 0, 0, 0, 0, 0, 0, 0, 0, 0, 0, 0, 0, 0x60])
      (mos6502.afterReset [0x60]) 0 false (by decide) (by decide) (by decide) (by decide)
      (by decide) (by decide) (ramLike_simpleRAM _ rfl rfl)).1.2.1).trans (by decide),
   by decide, by decide⟩

/-! ## BIT -/

theorem and_64_ne (x : Nat) : (x &&& 0x40 != 0) = x.testBit 6 := by
  rw [and_64, Nat.testBit_to_div_mod]
  have h : x / 64 % 2 = 0 ∨ x / 64 % 2 = 1 := by omega
  rcases h with h | h <;> simp [h]

/-- The flags a `BIT` leaves, for any state whose status byte is the one the
three `SetFlag` calls of the handler produce. -/
theorem bit_flags {β : Type} (c d : BaseCPU β) (m : Nat)
    (hS : d.Status =
      (((c.SetFlag FlagNegative (m &&& 0x80 != 0)).SetFlag FlagOverflow (m &&& 0x40 != 0)).SetFlag
        FlagZero (m &&& c.A == 0)).Status) :
    d.GetFlag FlagNegative = m.testBit 7 ∧
    d.GetFlag FlagOverflow = m.testBit 6 ∧
    d.GetFlag FlagZero = decide (c.A &&& m = 0) ∧
    (∀ g ∈ [FlagCarry, FlagInterruptDisable, FlagDecimal, FlagBreak, FlagUnused],
      d.GetFlag g = c.GetFlag g) := by
  have hfl : ∀ g, d.GetFlag g = _ := fun g => getFlag_congr _ _ hS g
  refine ⟨?_, ?_, ?_, ?_⟩
  · rw [hfl, getFlag_setFlag_other _ _ _ _ (by decide) (by decide),
      getFlag_setFlag_other _ _ _ _ (by decide) (by decide),
      getFlag_setFlag_same _ _ _ (by decide) (by decide), and_128_ne]
  · rw [hfl, getFlag_setFlag_other _ _ _ _ (by decide) (by decide),
      getFlag_setFlag_same _ _ _ (by decide) (by decide), and_64_ne]
  · rw [hfl, getFlag_setFlag_same _ _ _ (by decide) (by decide), Nat.land_comm]
    generalize c.A &&& m = n
    cases n <;> rfl
  · intro g hg
    simp only [List.mem_cons, List.mem_singleton, List.not_mem_nil, or_false] at hg
    rcases hg with h | h | h | h | h <;>
    (subst h
     rw [hfl, getFlag_setFlag_other _ _ _ _ (by decide) (by decide),
       getFlag_setFlag_other _ _ _ _ (by decide) (by decide),
       getFlag_setFlag_other _ _ _ _ (by decide) (by decide)])

/-- C26: for every A and every byte M read at the operand address, NMOS `BIT`
sets Negative = bit 7 of M, Overflow = bit 6 of M and Zero = ((A and M) = 0),
leaves Carry, I, D, B and the unused bit, and A, X, Y, SP and PC as they were,
and makes that one read and no write on the bus. -/
theorem C26_bit_flags {β : Type} (c : BaseCPU β) (addr : Nat) (p : Bool) :
    (mos6502.BIT c addr p).GetFlag FlagNegative = (c.Bus.Read addr).1.testBit 7 ∧
    (mos6502.BIT c addr p).GetFlag FlagOverflow = (c.Bus.Read addr).1.testBit 6 ∧
    (mos6502.BIT c addr p).GetFlag FlagZero = decide (c.A &&& (c.Bus.Read addr).1 = 0) ∧
    (∀ g ∈ [FlagCarry, FlagInterruptDisable, FlagDecimal, FlagBreak, FlagUnused],
      (mos6502.BIT c addr p).GetFlag g = c.GetFlag g) ∧
    ((mos6502.BIT c addr p).A, (mos6502.BIT c addr p).X, (mos6502.BIT c addr p).Y,
      (mos6502.BIT c addr p).SP, (mos6502.BIT c addr p).PC) = (c.A, c.X, c.Y, c.SP, c.PC) ∧
    (mos6502.BIT c addr p).Bus = (c.Bus.Read addr).2 ∧
    (mos6502.BIT c addr p).Bus.log = Access.read addr :: c.Bus.log := by
  have hf := bit_flags c (mos6502.BIT c addr p) (c.Bus.Read addr).1 rfl
  exact ⟨hf.1, hf.2.1, hf.2.2.1, hf.2.2.2, rfl, rfl, rfl⟩

/-- C27 as stated fails: on the WDC65C02, BIT #$C0 (opcode 0x89) run right
after reset, with N and V clear, sets both. -/
theorem C27_bit_immediate_counterexample :
    ((wdc65c02.afterReset [0x89, 0xC0]).Bus.Read (wdc65c02.afterReset [0x89, 0xC0]).PC).1 = 0x89 ∧
    (wdc65c02.afterReset [0x89, 0xC0]).Cycles = 0 ∧
    (wdc65c02.afterReset [0x89, 0xC0]).GetFlag FlagNegative = false ∧
    (wdc65c02.afterReset [0x89, 0xC0]).GetFlag FlagOverflow = false ∧
    (wdc65c02.Step (wdc65c02.afterReset [0x89, 0xC0])).GetFlag FlagNegative = true ∧
    (wdc65c02.Step (wdc65c02.afterReset [0x89, 0xC0])).GetFlag FlagOverflow = true := by
  refine ⟨?_, ?_, ?_, ?_, ?_, ?_⟩ <;> decide

theorem bit_immediate_step {β : Type} (c : BaseCPU β)
    (h0 : c.Cycles = 0) (hr : c.ResetPending = false) (hn : c.NMIPending = false)
    (hi : (c.IRQPending && !c.GetFlag FlagInterruptDisable) = false)
    (hop : (c.Bus.Read c.PC).1 = 0x89) :
    (wdc65c02.Step c).Status =
      (((c.SetFlag FlagNegative
          (((c.Bus.Read c.PC).2.Read ((c.PC + 1) % 65536)).1 &&& 0x80 != 0)).SetFlag FlagOverflow
          (((c.Bus.Read c.PC).2.Read ((c.PC + 1) % 65536)).1 &&& 0x40 != 0)).SetFlag FlagZero
          (((c.Bus.Read c.PC).2.Read ((c.PC + 1) % 65536)).1 &&& c.A == 0)).Status ∧
    (wdc65c02.Step c).regs =
      (((c.PC + 1) % 65536 + 1) % 65536, c.A, c.X, c.Y, c.SP, (wdc65c02.Step c).Status) ∧
    (wdc65c02.Step c).Bus = ((c.Bus.Read c.PC).2.Read ((c.PC + 1) % 65536)).2 := by
  have hop2 : wdc65c02.instructionMap (c.read c.PC).1 =
      some (wdc65c02.Instruction.mk "BIT" (some wdc65c02.AddrModeFn.addrImmediate)
        wdc65c02.OperationFn.bit 2) := by
    show wdc65c02.instructionMap (c.Bus.Read c.PC).1 = _
    rw [hop]
    decide
  rw [wdc65c02.wdc_step_dispatch c h0 hr hn hi]
  unfold wdc65c02.dispatch
  rw [hop2]
  simp only [wdc65c02.operand, wdc65c02.AddrModeFn.run, wdc65c02.OperationFn.run, wdc65c02.BIT,
    BaseCPU.AddrImmediate, wdc65c02.fetched, BaseCPU.read, BaseCPU.SetFlag, BaseCPU.regs,
    and_self]

/-- C27 amended: on the WDC65C02, BIT with immediate addressing (opcode 0x89)
sets the flags as `BIT` does in every other mode.  For every A, operand byte M
(the byte after the opcode) and prior status, after the zero-budget `Step`
that runs it Zero = ((A and M) = 0), Negative = bit 7 of M and Overflow = bit 6
of M; Carry, I, D, B and the unused bit, and A, X, Y and SP are unchanged, PC
is advanced by 2 and the bus has seen the two reads only. -/
theorem C27_bit_immediate_amended {β : Type} (c : BaseCPU β)
    (h0 : c.Cycles = 0) (hr : c.ResetPending = false) (hn : c.NMIPending = false)
    (hi : (c.IRQPending && !c.GetFlag FlagInterruptDisable) = false)
    (hop : (c.Bus.Read c.PC).1 = 0x89) :
    (wdc65c02.Step c).GetFlag FlagZero =
      decide (c.A &&& ((c.Bus.Read c.PC).2.Read ((c.PC + 1) % 65536)).1 = 0) ∧
    (wdc65c02.Step c).GetFlag FlagNegative =
      ((c.Bus.Read c.PC).2.Read ((c.PC + 1) % 65536)).1.testBit 7 ∧
    (wdc65c02.Step c).GetFlag FlagOverflow =
      ((c.Bus.Read c.PC).2.Read ((c.PC + 1) % 65536)).1.testBit 6 ∧
    (∀ g ∈ [FlagCarry, FlagInterruptDisable, FlagDecimal, FlagBreak, FlagUnused],
      (wdc65c02.Step c).GetFlag g = c.GetFlag g) ∧
    ((wdc65c02.Step c).A, (wdc65c02.Step c).X, (wdc65c02.Step c).Y, (wdc65c02.Step c).SP)
      = (c.A, c.X, c.Y, c.SP) ∧
    (wdc65c02.Step c).PC = (c.PC + 2) % 65536 ∧
    (wdc65c02.Step c).Bus.log =
      Access.read ((c.PC + 1) % 65536) :: Access.read c.PC :: c.Bus.log := by
  obtain ⟨hS, hR, hB⟩ := bit_immediate_step c h0 hr hn hi hop
  have hf := bit_flags c (wdc65c02.Step c) _ hS
  simp only [BaseCPU.regs, Prod.mk.injEq] at hR
  refine ⟨hf.2.2.1, hf.1, hf.2.1, hf.2.2.2, ?_, ?_, ?_⟩
  · rw [hR.2.1, hR.2.2.1, hR.2.2.2.1, hR.2.2.2.2.1]
  · rw [hR.1]
    omega
  · rw [hB]
    rfl

/-- C27 amended, at a concrete input: BIT #$C0 with A = 0 right after reset
sets Z, N and V: the status byte goes from 0x34 to 0xF6. -/
theorem C27_bit_immediate_amended_witness :
    (wdc65c02.Step (wdc65c02.afterReset [0x89, 0xC0])).Status = 0xF6 ∧
    (wdc65c02.Step (wdc65c02.afterReset [0x89, 0xC0])).GetFlag FlagNegative = true :=
  ⟨by decide,
   ((C27_bit_immediate_amended (wdc65c02.afterReset [0x89, 0xC0]) (by decide) (by decide)
      (by decide) (by decide) (by decide)).2.1).trans (by decide)⟩

/-! ## BRA and the WDC65C02 dispatch table -/

/-- C28 as stated fails: `80 10` at 0x8000 on the WDC65C02 from Cycles = 0 does
set PC = 0x8012, but the dispatching `Step` leaves Cycles = 3, not 2, and the
budget reaches 0 only after three more `Step` calls: four calls in all. -/
theorem C28_bra_cycles_counterexample :
    (wdc65c02.afterReset [0x80, 0x10]).PC = 0x8000 ∧
    (wdc65c02.afterReset [0x80, 0x10]).Cycles = 0 ∧
    (wdc65c02.Step (wdc65c02.afterReset [0x80, 0x10])).PC = 0x8012 ∧
    (wdc65c02.Step (wdc65c02.afterReset [0x80, 0x10])).Cycles = 3 ∧
    (wdc65c02.Step (wdc65c02.afterReset [0x80, 0x10])).Cycles ≠ 2 ∧
    (wdc65c02.Step^[2] (wdc65c02.Step (wdc65c02.afterReset [0x80, 0x10]))).Cycles = 1 ∧
    (wdc65c02.Step^[3] (wdc65c02.Step (wdc65c02.afterReset [0x80, 0x10]))).Cycles = 0 := by
  refine ⟨?_, ?_, ?_, ?_, ?_, ?_, ?_⟩ <;> decide

theorem branchTarget_lt (p2 offset : Nat) : branchTarget p2 offset < 65536 := by
  unfold branchTarget signExtend
  split <;> omega

theorem page_differs_iff (x y : Nat) (hx : x < 65536) (hy : y < 65536) :
    ((x &&& 0xFF00) != (y &&& 0xFF00)) = true ↔ highByte x ≠ highByte y := by
  rw [and_ff00, and_ff00]
  unfold highByte
  simp only [bne_iff_ne, ne_eq]
  omega

theorem bra_step {β : Type} (c : BaseCPU β)
    (h0 : c.Cycles = 0) (hr : c.ResetPending = false) (hn : c.NMIPending = false)
    (hi : (c.IRQPending && !c.GetFlag FlagInterruptDisable) = false)
    (hop : (c.Bus.Read c.PC).1 = 0x80) :
    (wdc65c02.Step c).PC = (wdc65c02.fetched c).AddrRelative.1.1 ∧
    (wdc65c02.Step c).Cycles =
      (((if ((wdc65c02.fetched c).AddrRelative.2.PC &&& 0xFF00) !=
            ((wdc65c02.fetched c).AddrRelative.1.1 &&& 0xFF00)
          then (((wdc65c02.fetched c).AddrRelative.2.Cycles + 1) % 256 + 1) % 256
          else ((wdc65c02.fetched c).AddrRelative.2.Cycles + 1) % 256) + 3) % 256 + 255) % 256 ∧
    ((wdc65c02.Step c).A, (wdc65c02.Step c).X, (wdc65c02.Step c).Y, (wdc65c02.Step c).SP,
      (wdc65c02.Step c).Status) =
      ((wdc65c02.fetched c).AddrRelative.2.A, (wdc65c02.fetched c).AddrRelative.2.X,
       (wdc65c02.fetched c).AddrRelative.2.Y, (wdc65c02.fetched c).AddrRelative.2.SP,
       (wdc65c02.fetched c).AddrRelative.2.Status) := by
  have hop2 : wdc65c02.instructionMap (c.read c.PC).1 =
      some (wdc65c02.Instruction.mk "BRA" (some wdc65c02.AddrModeFn.addrRelative)
        wdc65c02.OperationFn.bra 3) := by
    show wdc65c02.instructionMap (c.Bus.Read c.PC).1 = _
    rw [hop]
    decide
  rw [wdc65c02.wdc_step_dispatch c h0 hr hn hi]
  unfold wdc65c02.dispatch
  rw [hop2]
  simp only [wdc65c02.operand, wdc65c02.AddrModeFn.run, wdc65c02.OperationFn.run, wdc65c02.BRA,
    and_self]

/-- C28 amended: on the WDC65C02, BRA (opcode 0x80) is charged the table base 3
plus 1 for the taken branch: 4 cycles in all when the target lies in the page
of P2 = (PC + 2) mod 65536 (5 when it does not).  The zero-budget `Step` that
runs it sets PC = (P2 + sign_extend(offset)) mod 65536 and leaves Cycles = 3,
so the instruction occupies exactly 4 `Step` calls; A, X, Y, SP and the
status byte are unchanged.  `80 10` at 0x8000 sets PC = 0x8012. -/
theorem C28_bra_cycles_amended {β : Type} (c : BaseCPU β)
    (h0 : c.Cycles = 0) (hr : c.ResetPending = false) (hn : c.NMIPending = false)
    (hi : (c.IRQPending && !c.GetFlag FlagInterruptDisable) = false)
    (hop : (c.Bus.Read c.PC).1 = 0x80) :
    (wdc65c02.Step c).PC =
      branchTarget ((c.PC + 2) % 65536) ((c.Bus.Read c.PC).2.Read ((c.PC + 1) % 65536)).1 ∧
    wdc65c02.charged c =
      (if highByte (branchTarget ((c.PC + 2) % 65536)
            ((c.Bus.Read c.PC).2.Read ((c.PC + 1) % 65536)).1) = highByte ((c.PC + 2) % 65536)
        then 4 else 5) ∧
    (highByte (branchTarget ((c.PC + 2) % 65536)
        ((c.Bus.Read c.PC).2.Read ((c.PC + 1) % 65536)).1) = highByte ((c.PC + 2) % 65536) →
      (wdc65c02.Step c).Cycles = 3) ∧
    ((wdc65c02.Step c).A, (wdc65c02.Step c).X, (wdc65c02.Step c).Y, (wdc65c02.Step c).SP,
      (wdc65c02.Step c).Status) = (c.A, c.X, c.Y, c.SP, c.Status) := by
  obtain ⟨hP, hC, hR⟩ := bra_step c h0 hr hn hi hop
  have hs := addrRelative_spec (wdc65c02.fetched c)
  have hfr := wdc65c02.wdc_addrMode_frame wdc65c02.AddrModeFn.addrRelative (wdc65c02.fetched c)
  simp only [wdc65c02.AddrModeFn.run] at hfr
  have hpc : ((wdc65c02.fetched c).PC + 1) % 65536 = (c.PC + 2) % 65536 := by
    show ((c.PC + 1) % 65536 + 1) % 65536 = (c.PC + 2) % 65536
    omega
  have hoff : ((wdc65c02.fetched c).Bus.Read (wdc65c02.fetched c).PC).1 =
      ((c.Bus.Read c.PC).2.Read ((c.PC + 1) % 65536)).1 := rfl
  rw [hpc, hoff] at hs
  have hcy0 : (wdc65c02.fetched c).AddrRelative.2.Cycles = 0 := by
    rw [hfr.2.2.2.2.2.1]
    exact h0
  have hpg := page_differs_iff ((c.PC + 2) % 65536)
    (branchTarget ((c.PC + 2) % 65536) ((c.Bus.Read c.PC).2.Read ((c.PC + 1) % 65536)).1)
    (Nat.mod_lt _ (by decide)) (branchTarget_lt _ _)
  rw [hs.1, hs.2.2, hcy0] at hC
  have hcyc : (wdc65c02.Step c).Cycles =
      (if highByte (branchTarget ((c.PC + 2) % 65536)
            ((c.Bus.Read c.PC).2.Read ((c.PC + 1) % 65536)).1) = highByte ((c.PC + 2) % 65536)
        then 3 else 4) := by
    rw [hC]
    by_cases hq : highByte (branchTarget ((c.PC + 2) % 65536)
        ((c.Bus.Read c.PC).2.Read ((c.PC + 1) % 65536)).1) = highByte ((c.PC + 2) % 65536)
    · have hnot : ¬ (((c.PC + 2) % 65536 &&& 0xFF00) !=
          (branchTarget ((c.PC + 2) % 65536)
            ((c.Bus.Read c.PC).2.Read ((c.PC + 1) % 65536)).1 &&& 0xFF00)) = true :=
        fun h => (hpg.1 h) hq.symm
      rw [if_neg hnot, if_pos hq]
    · have hyes : (((c.PC + 2) % 65536 &&& 0xFF00) !=
          (branchTarget ((c.PC + 2) % 65536)
            ((c.Bus.Read c.PC).2.Read ((c.PC + 1) % 65536)).1 &&& 0xFF00)) = true :=
        hpg.2 (fun h => hq h.symm)
      rw [if_pos hyes, if_neg hq]
  refine ⟨by rw [hP, hs.1], ?_, ?_, ?_⟩
  · unfold wdc65c02.charged
    rw [hcyc]
    split <;> rfl
  · intro hq
    rw [hcyc, if_pos hq]
  · rw [hR, hfr.1, hfr.2.1, hfr.2.2.1, hfr.2.2.2.1, hfr.2.2.2.2.1]
    rfl

/-- C28 amended, at the concrete input: `80 10` at 0x8000 sets PC = 0x8012 and
is charged 4 cycles (Cycles = 3 after the dispatching `Step`). -/
theorem C28_bra_cycles_amended_witness :
    (wdc65c02.Step (wdc65c02.afterReset [0x80, 0x10])).PC = 0x8012 ∧
    wdc65c02.charged (wdc65c02.afterReset [0x80, 0x10]) = 4 ∧
    (wdc65c02.Step (wdc65c02.afterReset [0x80, 0x10])).Cycles = 3 :=
  ⟨by decide,
   ((C28_bra_cycles_amended (wdc65c02.afterReset [0x80, 0x10]) (by decide) (by decide)
      (by decide) (by decide) (by decide)).2.1).trans (by decide),
   by decide⟩

/-- C29 fails on the code: the WDC65C02 table has 254 entries and none for the
opcodes 0x34 and 0x3C (every other opcode byte has one), so the fallback of
`Step` is reached: 0x34 at 0x8000 right after reset is run as a one-byte
instruction that sets Cycles = 1, does not halt, and leaves the registers and
flags alone. -/
theorem C29_table_misses_two_opcodes :
    wdc65c02.instructionTable.length = 254 ∧
    wdc65c02.instructionMap 0x34 = none ∧
    wdc65c02.instructionMap 0x3C = none ∧
    (∀ opcode < 256, opcode ≠ 0x34 → opcode ≠ 0x3C →
      (wdc65c02.instructionMap opcode).isSome = true) ∧
    ((wdc65c02.afterReset [0x34, 0x10]).Bus.Read (wdc65c02.afterReset [0x34, 0x10]).PC).1 = 0x34 ∧
    (wdc65c02.Step (wdc65c02.afterReset [0x34, 0x10])).Cycles = 1 ∧
    (wdc65c02.Step (wdc65c02.afterReset [0x34, 0x10])).Halted = false ∧
    (wdc65c02.Step (wdc65c02.afterReset [0x34, 0x10])).regs =
      (0x8001, 0, 0, 0, 0xFD, 0x34) := by
  refine ⟨?_, ?_, ?_, ?_, ?_, ?_, ?_, ?_⟩ <;> decide

/-- C30 as stated fails: an NMOS CPU whose Decimal flag is set has it cleared by
`Reset`. -/
theorem C30_reset_decimal_counterexample :
    ({ mos6502.NewCPU (ramBus (demoRAM [])) with Status := 0x3C } : BaseCPU SimpleRAM).Variant
      = VariantNMOS ∧
    ({ mos6502.NewCPU (ramBus (demoRAM [])) with Status := 0x3C } : BaseCPU SimpleRAM).GetFlag
      FlagDecimal = true ∧
    ({ mos6502.NewCPU (ramBus (demoRAM [])) with Status := 0x3C } : BaseCPU SimpleRAM).Reset.GetFlag
      FlagDecimal = false := by
  refine ⟨?_, ?_, ?_⟩ <;> decide

/-- C30 amended: `Reset` does not look at the variant for the Decimal flag.  For
every prior Status, on the NMOS variant as on the WDC65C02, `Reset` sets the
status byte to 0x34, so the Decimal flag is 0 afterwards; the variant only
selects the cycle count. -/
theorem C30_reset_decimal_amended {β : Type} (c : BaseCPU β) :
    c.Reset.Status = 0x34 ∧ c.Reset.GetFlag FlagDecimal = false ∧
    c.Reset.Variant = c.Variant := by
  have h : c.Reset.Status = 0x34 := reset_status c
  refine ⟨h, ?_, rfl⟩
  unfold BaseCPU.GetFlag
  rw [h]
  decide

/-! ## BRK -/

/-- C25 fails on the NMOS code: `BRK` sets InterruptDisable before it pushes
the status, so the byte stacked is (P | 0x04) | 0x10, with I set whatever it
was before and Unused as it is in P, while the WDC65C02 `BRK` stacks
P | 0x10 | 0x20.  After CLI (P = 0x30) a BRK at 0x8001 stacks the return
address 0x8003 on both variants, then the status byte 0x34 on NMOS and 0x30 on
the WDC65C02. -/
theorem C25_nmos_brk_stacks_interrupt_disable {β : Type} (c : BaseCPU β) (a : Nat) (p : Bool) :
    ((mos6502.BRK c a p).Bus.log.drop 2).head? =
      some (Access.write ((0x0100 + ((c.SP + 255) % 256 + 255) % 256) % 65536)
        ((c.Status ||| FlagInterruptDisable) ||| FlagBreak)) ∧
    ((wdc65c02.BRK c a p).Bus.log.drop 2).head? =
      some (Access.write ((0x0100 + ((c.SP + 255) % 256 + 255) % 256) % 65536)
        (c.Status ||| FlagBreak ||| FlagUnused)) ∧
    (mos6502.Step^[2] (mos6502.afterReset [0x58, 0x00])).regs =
      (0x8001, 0, 0, 0, 0xFD, 0x30) ∧
    (mos6502.Step^[3] (mos6502.afterReset [0x58, 0x00])).Bus.log.take 5 =
      [Access.read 0xFFFF, Access.read 0xFFFE, Access.write 0x01FB 0x34,
       Access.write 0x01FC 0x03, Access.write 0x01FD 0x80] ∧
    (wdc65c02.Step^[2] (wdc65c02.afterReset [0x58, 0x00])).regs =
      (0x8001, 0, 0, 0, 0xFD, 0x30) ∧
    (wdc65c02.Step^[3] (wdc65c02.afterReset [0x58, 0x00])).Bus.log.take 5 =
      [Access.read 0xFFFF, Access.read 0xFFFE, Access.write 0x01FB 0x30,
       Access.write 0x01FC 0x03, Access.write 0x01FD 0x80] := by
  refine ⟨rfl, rfl, ?_, ?_, ?_, ?_⟩ <;> decide

/-! ## Shifts and rotates of the accumulator -/

theorem asl_ror_bits : ∀ a < 128,
    (a &&& 0x80 != 0) = false ∧ (((a <<< 1) % 256) &&& 0x01 != 0) = false ∧
    (((a <<< 1) % 256) >>> 1) ||| ((0 <<< 7) % 256) = a := by
  decide

theorem rol_ror_bits : ∀ a < 256,
    (((((a <<< 1) % 256) ||| 0) &&& 0x01 != 0) = false ∧
     ((((a <<< 1) % 256) ||| 1) &&& 0x01 != 0) = true ∧
     ((((a <<< 1) % 256) ||| 0) >>> 1) |||
       (((if a &&& 0x80 != 0 then 1 else 0) <<< 7) % 256) = a ∧
     ((((a <<< 1) % 256) ||| 1) >>> 1) |||
       (((if a &&& 0x80 != 0 then 1 else 0) <<< 7) % 256) = a) ∧
    ((((a >>> 1) ||| ((0 <<< 7) % 256)) &&& 0x80 != 0) = false ∧
     (((a >>> 1) ||| ((1 <<< 7) % 256)) &&& 0x80 != 0) = true ∧
     ((((a >>> 1) ||| ((0 <<< 7) % 256)) <<< 1) % 256) |||
       (if a &&& 0x01 != 0 then 1 else 0) = a ∧
     ((((a >>> 1) ||| ((1 <<< 7) % 256)) <<< 1) % 256) |||
       (if a &&& 0x01 != 0 then 1 else 0) = a) := by
  decide

/-- What `ASLAccumulator`, `ROLAccumulator` and `RORAccumulator` of either
variant leave in A and in the Carry flag. -/
theorem shift_acc_unfold {β : Type} (c : BaseCPU β) (a : Nat) (p : Bool) :
    ((mos6502.ASLAccumulator c a p).A = (c.A <<< 1) % 256 ∧
     (mos6502.ASLAccumulator c a p).GetFlag FlagCarry = (c.A &&& 0x80 != 0)) ∧
    ((mos6502.ROLAccumulator c a p).A = ((c.A <<< 1) % 256) ||| c.carryIn ∧
     (mos6502.ROLAccumulator c a p).GetFlag FlagCarry = (c.A &&& 0x80 != 0)) ∧
    ((mos6502.RORAccumulator c a p).A = (c.A >>> 1) ||| ((c.carryIn <<< 7) % 256) ∧
     (mos6502.RORAccumulator c a p).GetFlag FlagCarry = (c.A &&& 0x01 != 0)) ∧
    ((wdc65c02.ASLAccumulator c a p).A = (c.A <<< 1) % 256 ∧
     (wdc65c02.ASLAccumulator c a p).GetFlag FlagCarry = (c.A &&& 0x80 != 0)) ∧
    ((wdc65c02.ROLAccumulator c a p).A = ((c.A <<< 1) % 256) ||| c.carryIn ∧
     (wdc65c02.ROLAccumulator c a p).GetFlag FlagCarry = (c.A &&& 0x80 != 0)) ∧
    ((wdc65c02.RORAccumulator c a p).A = (c.A >>> 1) ||| ((c.carryIn <<< 7) % 256) ∧
     (wdc65c02.RORAccumulator c a p).GetFlag FlagCarry = (c.A &&& 0x01 != 0)) := by
  have key : ∀ (v : Bool) (x : Nat) (d : BaseCPU β),
      d.Status = ((c.SetFlag FlagCarry v).SetZN x).Status → d.GetFlag FlagCarry = v := by
    intro v x d hd
    rw [getFlag_congr _ _ hd,
      getFlag_setZN_other _ _ _ (by decide) (by decide) (by decide) (by decide),
      getFlag_setFlag_same _ _ _ (by decide) (by decide)]
  exact ⟨⟨rfl, key _ _ _ rfl⟩, ⟨rfl, key _ _ _ rfl⟩, ⟨rfl, key _ _ _ rfl⟩, ⟨rfl, key _ _ _ rfl⟩,
    ⟨rfl, key _ _ _ rfl⟩, ⟨rfl, key _ _ _ rfl⟩⟩

theorem carryIn_of_flag {β : Type} (c : BaseCPU β) (v : Bool) (h : c.GetFlag FlagCarry = v) :
    c.carryIn = if v then 1 else 0 := by
  unfold BaseCPU.carryIn
  rw [h]

/-- C31: for every accumulator value A with bit 7 clear (A < 0x80) and any
initial Carry, on either variant, `ASLAccumulator` followed by `RORAccumulator`
leaves the accumulator equal to the original A with Carry = 0. -/
theorem C31_asl_ror_round_trip {β : Type} (c : BaseCPU β) (a1 a2 : Nat) (p1 p2 : Bool)
    (hA : c.A < 0x80) :
    ((mos6502.RORAccumulator (mos6502.ASLAccumulator c a1 p1) a2 p2).A = c.A ∧
     (mos6502.RORAccumulator (mos6502.ASLAccumulator c a1 p1) a2 p2).GetFlag FlagCarry = false) ∧
    ((wdc65c02.RORAccumulator (wdc65c02.ASLAccumulator c a1 p1) a2 p2).A = c.A ∧
     (wdc65c02.RORAccumulator (wdc65c02.ASLAccumulator c a1 p1) a2 p2).GetFlag FlagCarry
       = false) := by
  obtain ⟨b1, b2, b3⟩ := asl_ror_bits c.A hA
  obtain ⟨⟨hnA, hnC⟩, _, _, ⟨hwA, hwC⟩, _, _⟩ := shift_acc_unfold c a1 p1
  rw [b1] at hnC hwC
  constructor
  · obtain ⟨_, _, ⟨hrA, hrC⟩, _, _, _⟩ := shift_acc_unfold (mos6502.ASLAccumulator c a1 p1) a2 p2
    rw [hrA, hrC, carryIn_of_flag _ false hnC, hnA]
    exact ⟨b3, b2⟩
  · obtain ⟨_, _, _, _, _, ⟨hrA, hrC⟩⟩ := shift_acc_unfold (wdc65c02.ASLAccumulator c a1 p1) a2 p2
    rw [hrA, hrC, carryIn_of_flag _ false hwC, hwA]
    exact ⟨b3, b2⟩

/-- C31 at a concrete input: A = 0x55 with Carry set comes back as 0x55 with
Carry clear. -/
theorem C31_asl_ror_round_trip_witness :
    (mos6502.RORAccumulator (mos6502.ASLAccumulator
      { mos6502.afterReset [] with A := 0x55, Status := 0x35 } 0 false) 0 false).A = 0x55 ∧
    (mos6502.RORAccumulator (mos6502.ASLAccumulator
      { mos6502.afterReset [] with A := 0x55, Status := 0x35 } 0 false) 0 false).GetFlag FlagCarry
      = false :=
  (C31_asl_ror_round_trip { mos6502.afterReset [] with A := 0x55, Status := 0x35 } 0 0 false false
    (by decide)).1

/-- C35: for every byte A and every carry-in, on either variant,
`ROLAccumulator` followed by `RORAccumulator` restores the accumulator and the
Carry flag, and so does `RORAccumulator` followed by `ROLAccumulator`. -/
theorem C35_rol_ror_round_trip {β : Type} (c : BaseCPU β) (a1 a2 : Nat) (p1 p2 : Bool)
    (hA : c.A < 256) :
    ((mos6502.RORAccumulator (mos6502.ROLAccumulator c a1 p1) a2 p2).A = c.A ∧
     (mos6502.RORAccumulator (mos6502.ROLAccumulator c a1 p1) a2 p2).GetFlag FlagCarry
       = c.GetFlag FlagCarry) ∧
    ((mos6502.ROLAccumulator (mos6502.RORAccumulator c a1 p1) a2 p2).A = c.A ∧
     (mos6502.ROLAccumulator (mos6502.RORAccumulator c a1 p1) a2 p2).GetFlag FlagCarry
       = c.GetFlag FlagCarry) ∧
    ((wdc65c02.RORAccumulator (wdc65c02.ROLAccumulator c a1 p1) a2 p2).A = c.A ∧
     (wdc65c02.RORAccumulator (wdc65c02.ROLAccumulator c a1 p1) a2 p2).GetFlag FlagCarry
       = c.GetFlag FlagCarry) ∧
    ((wdc65c02.ROLAccumulator (wdc65c02.RORAccumulator c a1 p1) a2 p2).A = c.A ∧
     (wdc65c02.ROLAccumulator (wdc65c02.RORAccumulator c a1 p1) a2 p2).GetFlag FlagCarry
       = c.GetFlag FlagCarry) := by
  obtain ⟨⟨r1, r2, r3, r4⟩, ⟨s1, s2, s3, s4⟩⟩ := rol_ror_bits c.A hA
  obtain ⟨_, ⟨hLA, hLC⟩, ⟨hRA, hRC⟩, _, ⟨wLA, wLC⟩, ⟨wRA, wRC⟩⟩ := shift_acc_unfold c a1 p1
  have hcin : c.carryIn = if c.GetFlag FlagCarry then 1 else 0 := rfl
  refine ⟨?_, ?_, ?_, ?_⟩
  · obtain ⟨_, _, ⟨hA2, hC2⟩, _, _, _⟩ := shift_acc_unfold (mos6502.ROLAccumulator c a1 p1) a2 p2
    rw [hA2, hC2, carryIn_of_flag _ _ hLC, hLA, hcin]
    cases c.GetFlag FlagCarry
    · exact ⟨r3, r1⟩
    · exact ⟨r4, r2⟩
  · obtain ⟨_, ⟨hA2, hC2⟩, _, _, _, _⟩ := shift_acc_unfold (mos6502.RORAccumulator c a1 p1) a2 p2
    rw [hA2, hC2, carryIn_of_flag _ _ hRC, hRA, hcin]
    cases c.GetFlag FlagCarry
    · exact ⟨s3, s1⟩
    · exact ⟨s4, s2⟩
  · obtain ⟨_, _, _, _, _, ⟨hA2, hC2⟩⟩ := shift_acc_unfold (wdc65c02.ROLAccumulator c a1 p1) a2 p2
    rw [hA2, hC2, carryIn_of_flag _ _ wLC, wLA, hcin]
    cases c.GetFlag FlagCarry
    · exact ⟨r3, r1⟩
    · exact ⟨r4, r2⟩
  · obtain ⟨_, _, _, _, ⟨hA2, hC2⟩, _⟩ := shift_acc_unfold (wdc65c02.RORAccumulator c a1 p1) a2 p2
    rw [hA2, hC2, carryIn_of_flag _ _ wRC, wRA, hcin]
    cases c.GetFlag FlagCarry
    · exact ⟨s3, s1⟩
    · exact ⟨s4, s2⟩

/-- C35 at a concrete input: A = 0x81 with Carry clear; ROL gives 0x02 with
Carry set, and ROR brings back 0x81 with Carry clear. -/
theorem C35_rol_ror_round_trip_witness :
    (mos6502.ROLAccumulator { mos6502.afterReset [] with A := 0x81 } 0 false).A = 0x02 ∧
    (mos6502.RORAccumulator (mos6502.ROLAccumulator
      { mos6502.afterReset [] with A := 0x81 } 0 false) 0 false).A = 0x81 ∧
    (mos6502.RORAccumulator (mos6502.ROLAccumulator
      { mos6502.afterReset [] with A := 0x81 } 0 false) 0 false).GetFlag FlagCarry = false :=
  ⟨by decide,
   (C35_rol_ror_round_trip { mos6502.afterReset [] with A := 0x81 } 0 0 false false
      (by decide)).1.1,
   by decide⟩

/-! ## TSB and TRB -/

theorem zero_flag_only {β : Type} (c d : BaseCPU β) (v : Bool)
    (hS : d.Status = (c.SetFlag FlagZero v).Status) :
    d.GetFlag FlagZero = v ∧
    (∀ g ∈ [FlagCarry, FlagInterruptDisable, FlagDecimal, FlagBreak, FlagUnused, FlagOverflow,
        FlagNegative], d.GetFlag g = c.GetFlag g) := by
  have hfl : ∀ g, d.GetFlag g = _ := fun g => getFlag_congr _ _ hS g
  refine ⟨?_, ?_⟩
  · rw [hfl, getFlag_setFlag_same _ _ _ (by decide) (by decide)]
  · intro g hg
    simp only [List.mem_cons, List.mem_singleton, List.not_mem_nil, or_false] at hg
    rcases hg with h | h | h | h | h | h | h <;>
    (subst h
     rw [hfl, getFlag_setFlag_other _ _ _ _ (by decide) (by decide)])

/-- C32: on the WDC65C02, for every A and every byte M read at the effective
address: `TSB` writes M | A and `TRB` writes M & ~A (the complement taken on a
byte) to that address, after the read; both set Zero = ((A and M) = 0) from
the byte read, and leave Carry, I, D, B, unused, Overflow and Negative and the
registers A, X, Y, SP and PC as they were.  A = 0x0F, M = 0xF0: `TSB` stores
0xFF with Z = 1; A = 0x0F, M = 0xFF: `TRB` stores 0xF0. -/
theorem C32_tsb_trb {β : Type} (c : BaseCPU β) (addr : Nat) (p : Bool) :
    ((wdc65c02.TSB c addr p).Bus =
        (c.Bus.Read addr).2.Write addr ((c.Bus.Read addr).1 ||| c.A) ∧
     (wdc65c02.TSB c addr p).GetFlag FlagZero = decide (c.A &&& (c.Bus.Read addr).1 = 0) ∧
     (∀ g ∈ [FlagCarry, FlagInterruptDisable, FlagDecimal, FlagBreak, FlagUnused, FlagOverflow,
        FlagNegative], (wdc65c02.TSB c addr p).GetFlag g = c.GetFlag g) ∧
     (wdc65c02.TSB c addr p).regs =
       (c.PC, c.A, c.X, c.Y, c.SP, (wdc65c02.TSB c addr p).Status)) ∧
    ((wdc65c02.TRB c addr p).Bus =
        (c.Bus.Read addr).2.Write addr ((c.Bus.Read addr).1 &&& (c.A ^^^ 0xFF)) ∧
     (wdc65c02.TRB c addr p).GetFlag FlagZero = decide (c.A &&& (c.Bus.Read addr).1 = 0) ∧
     (∀ g ∈ [FlagCarry, FlagInterruptDisable, FlagDecimal, FlagBreak, FlagUnused, FlagOverflow,
        FlagNegative], (wdc65c02.TRB c addr p).GetFlag g = c.GetFlag g) ∧
     (wdc65c02.TRB c addr p).regs =
       (c.PC, c.A, c.X, c.Y, c.SP, (wdc65c02.TRB c addr p).Status)) ∧
    (c.A = 0x0F → (c.Bus.Read addr).1 = 0xF0 →
      (wdc65c02.TSB c addr p).Bus.log.head? = some (Access.write addr 0xFF) ∧
      (wdc65c02.TSB c addr p).GetFlag FlagZero = true) ∧
    (c.A = 0x0F → (c.Bus.Read addr).1 = 0xFF →
      (wdc65c02.TRB c addr p).Bus.log.head? = some (Access.write addr 0xF0)) := by
  have hz : ((c.Bus.Read addr).1 &&& c.A == 0) = decide (c.A &&& (c.Bus.Read addr).1 = 0) := by
    rw [Nat.land_comm]
    generalize c.A &&& (c.Bus.Read addr).1 = n
    cases n <;> rfl
  have hs := zero_flag_only c (wdc65c02.TSB c addr p) ((c.Bus.Read addr).1 &&& c.A == 0) rfl
  have hr := zero_flag_only c (wdc65c02.TRB c addr p) ((c.Bus.Read addr).1 &&& c.A == 0) rfl
  rw [hz] at hs hr
  have hbs : (wdc65c02.TSB c addr p).Bus =
      (c.Bus.Read addr).2.Write addr ((c.Bus.Read addr).1 ||| c.A) := rfl
  have hbr : (wdc65c02.TRB c addr p).Bus =
      (c.Bus.Read addr).2.Write addr ((c.Bus.Read addr).1 &&& (c.A ^^^ 0xFF)) := rfl
  refine ⟨⟨hbs, hs.1, hs.2, rfl⟩, ⟨hbr, hr.1, hr.2, rfl⟩, ?_, ?_⟩
  · intro h1 h2
    rw [hbs, hs.1, h1, h2]
    exact ⟨rfl, by decide⟩
  · intro h1 h2
    rw [hbr, h1, h2]
    rfl

/-! ## Signed overflow, and compare against subtract -/

theorem testBit7_iff (x : Nat) : x.testBit 7 = decide (x / 128 % 2 = 1) :=
  Nat.testBit_to_div_mod

theorem signExtend_eq (x : Nat) (hx : x < 256) : signExtend x = (x : Int) - 256 * ((x / 128 : Nat) : Int) := by
  unfold signExtend
  split <;> omega

theorem adc_overflow_eq {β : Type} (c : BaseCPU β) (addr : Nat) (p : Bool) (hA : c.A < 256) :
    (mos6502.ADC c addr p).GetFlag FlagOverflow =
      ((c.A.testBit 7 ^^ (c.adcSum addr).testBit 7) &&
        ((c.Bus.Read addr).1.testBit 7 ^^ (c.adcSum addr).testBit 7)) := by
  have hlt := adcSum_lt c addr hA
  have hmod : c.adcSum addr % 65536 = c.adcSum addr := Nat.mod_eq_of_lt (by omega)
  obtain ⟨_, hSt⟩ := adc_unfold c addr p
  rw [hmod] at hSt
  rw [getFlag_congr _ _ hSt,
    getFlag_setZN_other _ _ _ (by decide) (by decide) (by decide) (by decide),
    getFlag_setFlag_same _ _ _ (by decide) (by decide), and_128_ne]
  simp only [Nat.testBit_and, Nat.testBit_xor]

/-- C38: the Overflow flag of NMOS `ADC` is signed overflow.  For every byte A,
every byte M read and every carry-in C, Overflow is set if and only if
signed(A) + signed(M) + C lies outside -128..127, where signed is the
two's-complement value of the byte. -/
theorem C38_adc_signed_overflow {β : Type} (c : BaseCPU β) (addr : Nat) (p : Bool)
    (hA : c.A < 256) :
    (mos6502.ADC c addr p).GetFlag FlagOverflow = true ↔
      (signExtend c.A + signExtend (c.Bus.Read addr).1 + (c.carryIn : Int) < -128 ∨
       127 < signExtend c.A + signExtend (c.Bus.Read addr).1 + (c.carryIn : Int)) := by
  have hM := busRead_lt c.Bus addr
  have hC := carryIn_le c
  have hr : c.adcSum addr = c.A + (c.Bus.Read addr).1 + c.carryIn := rfl
  rw [adc_overflow_eq c addr p hA, testBit7_iff, testBit7_iff, testBit7_iff,
    signExtend_eq _ hA, signExtend_eq _ hM, hr]
  by_cases h1 : c.A / 128 % 2 = 1 <;> by_cases h2 : (c.Bus.Read addr).1 / 128 % 2 = 1 <;>
    by_cases h3 : (c.A + (c.Bus.Read addr).1 + c.carryIn) / 128 % 2 = 1 <;>
    simp only [h1, h2, h3, decide_True, decide_False, Bool.xor_self, Bool.xor_false,
      Bool.xor_true, Bool.false_xor, Bool.true_xor, Bool.not_true, Bool.not_false,
      Bool.and_self, Bool.and_false, Bool.false_and, Bool.and_true, Bool.true_and,
      Bool.false_eq_true, false_iff, true_iff] <;>
    omega

/-- C38 at concrete inputs: 0x50 + 0x50 (80 + 80 = 160 > 127) sets V. -/
theorem C38_adc_signed_overflow_witness :
    (mos6502.ADC { mos6502.afterReset [0x50] with A := 0x50 } 0x8000 false).GetFlag FlagOverflow
      = true :=
  (C38_adc_signed_overflow { mos6502.afterReset [0x50] with A := 0x50 } 0x8000 false
    (by decide)).2 (by decide)

/-- The Carry, Zero and Negative flags that NMOS `SBC` leaves. -/
theorem sbc_flags {β : Type} (c : BaseCPU β) (addr : Nat) (p : Bool) :
    (mos6502.SBC c addr p).GetFlag FlagCarry =
      decide ((c.A + 65536 - (c.Bus.Read addr).1 + 65536 - (1 - c.carryIn)) % 65536 < 0x100) ∧
    (mos6502.SBC c addr p).GetFlag FlagZero =
      (((c.A + 65536 - (c.Bus.Read addr).1 + 65536 - (1 - c.carryIn)) % 65536) % 256 == 0) ∧
    (mos6502.SBC c addr p).GetFlag FlagNegative =
      (((c.A + 65536 - (c.Bus.Read addr).1 + 65536 - (1 - c.carryIn)) % 65536) % 256).testBit 7 := by
  obtain ⟨_, hS⟩ := sbc_unfold c addr p
  refine ⟨?_, ?_, ?_⟩
  · rw [getFlag_congr _ _ hS,
      getFlag_setZN_other _ _ _ (by decide) (by decide) (by decide) (by decide),
      getFlag_setFlag_other _ _ _ _ (by decide) (by decide),
      getFlag_setFlag_same _ _ _ (by decide) (by decide)]
  · rw [getFlag_congr _ _ hS, getFlag_setZN_zero]
  · rw [getFlag_congr _ _ hS, getFlag_setZN_negative, and_128_ne]

/-- C40: for every byte A and every byte M read, the Carry, Zero and Negative
flags left by NMOS `CMP` equal those left by NMOS `SBC` of M run from the same
state with Carry set; `CMP` leaves A and the Overflow flag as they were. -/
theorem C40_cmp_as_sbc {β : Type} (c : BaseCPU β) (addr : Nat) (p q : Bool) (hA : c.A < 256) :
    (∀ g ∈ [FlagCarry, FlagZero, FlagNegative],
      (mos6502.CMP c addr p).GetFlag g =
        (mos6502.SBC (c.SetFlag FlagCarry true) addr q).GetFlag g) ∧
    (mos6502.CMP c addr p).A = c.A ∧
    (mos6502.CMP c addr p).GetFlag FlagOverflow = c.GetFlag FlagOverflow := by
  have hM := busRead_lt c.Bus addr
  have hcmp : ∀ g, (mos6502.CMP c addr p).GetFlag g =
      (mos6502.compare c c.A (c.Bus.Read addr).1).GetFlag g := fun g => rfl
  obtain ⟨cC, cZ, cN, cO⟩ := compare_spec c c.A (c.Bus.Read addr).1 hA hM
  obtain ⟨sC, sZ, sN⟩ := sbc_flags (c.SetFlag FlagCarry true) addr q
  have hcar : (c.SetFlag FlagCarry true).carryIn = 1 := by
    rw [carryIn_of_flag _ true (getFlag_setFlag_same _ _ _ (by decide) (by decide))]
    rfl
  have hAeq : (c.SetFlag FlagCarry true).A = c.A := rfl
  have hBeq : (c.SetFlag FlagCarry true).Bus = c.Bus := rfl
  rw [hcar, hAeq, hBeq] at sC sZ sN
  have e1 : (c.A + 65536 - (c.Bus.Read addr).1 + 65536 - (1 - 1)) % 65536 % 256 =
      ((((c.A : Int) - ((c.Bus.Read addr).1 : Int)) % 256).toNat) := by omega
  refine ⟨?_, rfl, ?_⟩
  · intro g hg
    simp only [List.mem_cons, List.mem_singleton, List.not_mem_nil, or_false] at hg
    rcases hg with h | h | h
    · subst h
      rw [hcmp, cC, sC]
      apply decide_eq_decide.mpr
      omega
    · subst h
      rw [hcmp, cZ, sZ, e1]
      by_cases hz : c.A = (c.Bus.Read addr).1
      · have h0 : ((((c.A : Int) - ((c.Bus.Read addr).1 : Int)) % 256).toNat) = 0 := by omega
        rw [h0]
        simp [hz]
      · have h0 : ((((c.A : Int) - ((c.Bus.Read addr).1 : Int)) % 256).toNat) ≠ 0 := by omega
        simp [hz, h0]
    · subst h
      rw [hcmp, cN, sN, e1]
  · rw [hcmp]
    exact cO FlagOverflow (by simp)

/-- C40 at a concrete input: A = 0x40 against the byte 0x41; both `CMP` and
`SBC` with Carry set leave C clear, Z clear and N set. -/
theorem C40_cmp_as_sbc_witness :
    (mos6502.CMP { mos6502.afterReset [0x41] with A := 0x40 } 0x8000 false).GetFlag FlagNegative
      = (mos6502.SBC (BaseCPU.SetFlag { mos6502.afterReset [0x41] with A := 0x40 }
          FlagCarry true) 0x8000 false).GetFlag FlagNegative ∧
    (mos6502.CMP { mos6502.afterReset [0x41] with A := 0x40 } 0x8000 false).Status = 0xB4 :=
  ⟨(C40_cmp_as_sbc { mos6502.afterReset [0x41] with A := 0x40 } 0x8000 false false
      (by decide)).1 FlagNegative (by decide),
   by decide⟩

/-! ## The cycle budget of the NMOS driver -/

theorem op_cycles_le {β : Type} (o : mos6502.OperationFn) (c : BaseCPU β) (a : Nat) (p : Bool) :
    (o.run c a p).Cycles ≤ c.Cycles + (if mos6502.isBranch o then 2 else 1) := by
  cases o <;>
    simp only [mos6502.OperationFn.run, mos6502.LDA, mos6502.LDX, mos6502.LDY, mos6502.STA,
      mos6502.STX, mos6502.STY, mos6502.TAX, mos6502.TAY, mos6502.TXA, mos6502.TYA, mos6502.TSX,
      mos6502.TXS, mos6502.PHA, mos6502.PLA, mos6502.PHP, mos6502.PLP, mos6502.ADC, mos6502.SBC,
      mos6502.compare, mos6502.CMP, mos6502.CPX, mos6502.CPY, mos6502.INC, mos6502.DEC,
      mos6502.INX, mos6502.DEX, mos6502.INY, mos6502.DEY, mos6502.ASL, mos6502.ASLAccumulator,
      mos6502.LSR, mos6502.LSRAccumulator, mos6502.ROL, mos6502.ROLAccumulator, mos6502.ROR,
      mos6502.RORAccumulator, mos6502.AND, mos6502.ORA, mos6502.EOR, mos6502.BIT, mos6502.JMP,
      mos6502.JSR, mos6502.RTS, mos6502.RTI, mos6502.BRK, mos6502.branch, mos6502.BCC,
      mos6502.BCS, mos6502.BEQ, mos6502.BMI, mos6502.BNE, mos6502.BPL, mos6502.BVC, mos6502.BVS,
      mos6502.CLC, mos6502.CLD, mos6502.CLI, mos6502.CLV, mos6502.SEC, mos6502.SED, mos6502.SEI,
      mos6502.NOP, mos6502.isBranch,
      setFlag_fields, setZN_fields, read_fields, write_fields, push_fields, pull_fields,
      Bool.false_eq_true, if_false, if_true] <;>
    (repeat' split) <;>
    (try simp only []) <;>
    omega

theorem branch_base :
    ∀ e ∈ mos6502.instructionTable, mos6502.isBranch e.2.Operation = true → e.2.Cycles = 2 := by
  decide

/-- C37: the cycle counter of the NMOS CPU never wraps.  For every state with
Cycles <= 7, every opcode and every bus: Cycles <= 7 after `Step`.  At
Cycles = 0 a dispatched instruction has charged between 1 and 8 cycles when
the decrement comes, so `Step` never decrements a zero counter (the reset,
interrupt and undefined-opcode paths return without decrementing); at
Cycles > 0 `Step` takes exactly one off. -/
theorem C37_cycle_counter_no_wrap {β : Type} (c : BaseCPU β) (h7 : c.Cycles ≤ 7) :
    (mos6502.Step c).Cycles ≤ 7 ∧
    (0 < c.Cycles → (mos6502.Step c).Cycles + 1 = c.Cycles) ∧
    (c.Cycles = 0 → c.ResetPending = false → c.NMIPending = false →
      (c.IRQPending && !c.GetFlag FlagInterruptDisable) = false →
      ∀ ins, mos6502.instructionMap (c.Bus.Read c.PC).1 = some ins →
        1 ≤ (ins.Operation.run (mos6502.operand ins (mos6502.fetched c)).2
              (mos6502.operand ins (mos6502.fetched c)).1.1
              (mos6502.operand ins (mos6502.fetched c)).1.2).Cycles + ins.Cycles ∧
        (ins.Operation.run (mos6502.operand ins (mos6502.fetched c)).2
              (mos6502.operand ins (mos6502.fetched c)).1.1
              (mos6502.operand ins (mos6502.fetched c)).1.2).Cycles + ins.Cycles ≤ 8 ∧
        (mos6502.Step c).Cycles + 1 =
          (ins.Operation.run (mos6502.operand ins (mos6502.fetched c)).2
              (mos6502.operand ins (mos6502.fetched c)).1.1
              (mos6502.operand ins (mos6502.fetched c)).1.2).Cycles + ins.Cycles) := by
  have hdisp : ∀ ins, c.Cycles = 0 → mos6502.instructionMap (c.Bus.Read c.PC).1 = some ins →
      1 ≤ (ins.Operation.run (mos6502.operand ins (mos6502.fetched c)).2
              (mos6502.operand ins (mos6502.fetched c)).1.1
              (mos6502.operand ins (mos6502.fetched c)).1.2).Cycles + ins.Cycles ∧
      (ins.Operation.run (mos6502.operand ins (mos6502.fetched c)).2
              (mos6502.operand ins (mos6502.fetched c)).1.1
              (mos6502.operand ins (mos6502.fetched c)).1.2).Cycles + ins.Cycles ≤ 8 ∧
      (mos6502.dispatch c).Cycles + 1 =
        (ins.Operation.run (mos6502.operand ins (mos6502.fetched c)).2
              (mos6502.operand ins (mos6502.fetched c)).1.1
              (mos6502.operand ins (mos6502.fetched c)).1.2).Cycles + ins.Cycles := by
    intro ins h0 hop
    have hop2 : mos6502.instructionMap (c.read c.PC).1 = some ins := hop
    have hmem := lookup_mem _ ins mos6502.instructionTable hop
    have hcy : 1 ≤ ins.Cycles ∧ ins.Cycles ≤ 7 := mos6502.table_cycles _ hmem
    have hbr : mos6502.isBranch ins.Operation = true → ins.Cycles = 2 := branch_base _ hmem
    have hle := op_cycles_le ins.Operation (mos6502.operand ins (mos6502.fetched c)).2
      (mos6502.operand ins (mos6502.fetched c)).1.1 (mos6502.operand ins (mos6502.fetched c)).1.2
    have hfr := (mos6502.operand_frame ins (mos6502.fetched c)).2.2.2.2.2.1
    have hf0 : (mos6502.fetched c).Cycles = 0 := h0
    rw [hfr, hf0] at hle
    have hd : (mos6502.dispatch c).Cycles =
        (((ins.Operation.run (mos6502.operand ins (mos6502.fetched c)).2
              (mos6502.operand ins (mos6502.fetched c)).1.1
              (mos6502.operand ins (mos6502.fetched c)).1.2).Cycles + ins.Cycles) % 256
          + 255) % 256 := by
      unfold mos6502.dispatch
      rw [hop2]
    rw [hd]
    generalize (ins.Operation.run (mos6502.operand ins (mos6502.fetched c)).2
              (mos6502.operand ins (mos6502.fetched c)).1.1
              (mos6502.operand ins (mos6502.fetched c)).1.2).Cycles = x at hle
    generalize ins.Cycles = b at hcy hbr
    by_cases hb : mos6502.isBranch ins.Operation = true
    · have h2 := hbr hb
      rw [if_pos hb] at hle
      omega
    · rw [if_neg hb] at hle
      omega
  refine ⟨?_, ?_, ?_⟩
  · by_cases h0 : c.Cycles = 0
    · unfold mos6502.Step
      simp only [h0, beq_self_eq_true, if_true]
      split
      · show ResetCycles c.Variant ≤ 7
        unfold ResetCycles
        split
        · decide
        · split <;> decide
      · split
        · show (7 : Nat) ≤ 7
          decide
        · split
          · show (7 : Nat) ≤ 7
            decide
          · cases hm : mos6502.instructionMap (c.read c.PC).1 with
            | none =>
              show c.Cycles ≤ 7
              exact h7
            | some ins =>
              have hd := hdisp ins h0 hm
              have he : (mos6502.dispatch c).Cycles ≤ 7 := by omega
              unfold mos6502.dispatch at he
              rw [hm] at he
              cases ha : ins.AddrMode <;> simp only [mos6502.operand, mos6502.fetched, ha] at he <;>
                simp only [ha] <;> exact he
    · rw [mos6502.step_positive c (by omega) (by omega)]
      show c.Cycles - 1 ≤ 7
      omega
  · intro hpos
    rw [mos6502.step_positive c hpos (by omega)]
    show c.Cycles - 1 + 1 = c.Cycles
    omega
  · intro h0 hr hn hi ins hop
    rw [mos6502.step_dispatch c h0 hr hn hi]
    exact hdisp ins h0 hop

/-- C37 at a concrete input: a branch taken across a page (the largest bonus)
right after reset leaves Cycles = 3, and the NMI entry leaves 7. -/
theorem C37_cycle_counter_no_wrap_witness :
    (mos6502.Step { mos6502.afterReset [0xF0, 0xFB] with Status := 0x36 }).Cycles ≤ 7 ∧
    (mos6502.Step { mos6502.afterReset [0xF0, 0xFB] with Status := 0x36 }).Cycles = 3 ∧
    (mos6502.Step { mos6502.afterReset [0xEA] with NMIPending := true }).Cycles = 7 :=
  ⟨(C37_cycle_counter_no_wrap { mos6502.afterReset [0xF0, 0xFB] with Status := 0x36 }
      (by decide)).1,
   by decide, by decide⟩

/-! ## The two tables, and WAI -/

/-- C36 fails on the code: every opcode of the NMOS table has a WDC65C02 entry
with the same mnemonic and the same addressing mode, but for 14 of them the
base cycle counts differ (listed as opcode, NMOS count, WDC65C02 count); LDA
$10,X (opcode 0xB5) right after reset is charged 3 cycles on NMOS and 4 on the
WDC65C02. -/
theorem C36_tables_differ_in_cycles :
    (∀ e ∈ mos6502.instructionTable,
      (wdc65c02.sharedEntry e).map (fun t => (t.1, t.2.1)) = some (true, true)) ∧
    (mos6502.instructionTable.filter
        (fun e => wdc65c02.sharedEntry e != some (true, true, true))).map
      (fun e => (e.1, e.2.Cycles,
        (wdc65c02.instructionMap e.1).map wdc65c02.Instruction.Cycles)) =
      [(0x2E, 7, some 6), (0x4E, 7, some 6), (0x5E, 7, some 6), (0x6E, 7, some 6),
       (0x94, 3, some 4), (0x95, 3, some 4), (0xB4, 3, some 4), (0xB5, 3, some 4),
       (0xB6, 3, some 4), (0xD5, 3, some 4), (0xD6, 5, some 6), (0xEE, 7, some 6),
       (0xF5, 3, some 4), (0xF6, 5, some 6)] ∧
    mos6502.charged (mos6502.afterReset [0xB5, 0x10]) = 3 ∧
    wdc65c02.charged (wdc65c02.afterReset [0xB5, 0x10]) = 4 := by
  refine ⟨?_, ?_, ?_, ?_⟩ <;> decide

/-- On a RAM-like bus, the three bytes of an interrupt frame are read back, the
last written first, after any two reads in between. -/
theorem ramLike_frame_reads {β : Type} (b : Bus β) (h : b.RamLike)
    (a1 v1 a2 v2 a3 v3 r1 r2 : Nat) (h12 : a1 ≠ a2) (h13 : a1 ≠ a3) (h23 : a2 ≠ a3) :
    ((((((b.Write a1 v1).Write a2 v2).Write a3 v3).Read r1).2.Read r2).2.Read a3).1 = v3 % 256 ∧
    (((((((b.Write a1 v1).Write a2 v2).Write a3 v3).Read r1).2.Read r2).2.Read a3).2.Read a2).1
      = v2 % 256 ∧
    ((((((((b.Write a1 v1).Write a2 v2).Write a3 v3).Read r1).2.Read r2).2.Read a3).2.Read
      a2).2.Read a1).1 = v1 % 256 := by
  obtain ⟨h1, h2, h3⟩ := h
  simp only [Bus.Read, Bus.Write, h1]
  refine ⟨h2 _ _ _, ?_, ?_⟩
  · rw [h3 _ _ _ _ h23]
    exact h2 _ _ _
  · rw [h3 _ _ _ _ h13, h3 _ _ _ _ h12]
    exact h2 _ _ _

theorem interrupt_entry_bus {β : Type} (c : BaseCPU β) (hsp : c.SP < 256) :
    (c.HandleIRQ.Bus = ((c.interruptFrame.Read 0xFFFE).2.Read 0xFFFF).2 ∧
     c.HandleIRQ.SP = (c.SP + 253) % 256) ∧
    (c.HandleNMI.Bus = ((c.interruptFrame.Read 0xFFFA).2.Read 0xFFFB).2 ∧
     c.HandleNMI.SP = (c.SP + 253) % 256) := by
  have hb := push3_bus c hsp
  have hs := push3_sp c
  constructor
  · unfold BaseCPU.HandleIRQ
    simp only []
    split <;> simp only [BaseCPU.read, BaseCPU.SetFlag, push_fields, hb, hs, and_self]
  · unfold BaseCPU.HandleNMI
    simp only []
    split <;> simp only [BaseCPU.read, BaseCPU.SetFlag, push_fields, hb, hs, and_self]

theorem rti_unfold {β : Type} (d : BaseCPU β) (a : Nat) (p : Bool) :
    (mos6502.RTI d a p).Status = (d.Pull.1 &&& (0x10 ^^^ 0xFF)) ||| 0x20 ∧
    (mos6502.RTI d a p).PC = (d.Pull.2.Pull.2.Pull.1 <<< 8) ||| d.Pull.2.Pull.1 ∧
    (mos6502.RTI d a p).SP = d.Pull.2.Pull.2.Pull.2.SP := by
  simp only [mos6502.RTI, BaseCPU.Pull, BaseCPU.read, BaseCPU.SetFlag, Bool.false_eq_true,
    if_false, if_true, FlagBreak, FlagUnused, and_self]

theorem rti_bits : ∀ s < 256,
    (s % 256 &&& (0x10 ^^^ 0xFF)) ||| 0x20 = (s &&& 0xEF) ||| 0x20 ∧
    (((s &&& 0xEF) ||| 0x20) &&& 0x04 != 0) = (s &&& 0x04 != 0) ∧
    (((s &&& 0xEF) ||| 0x20) &&& 0x10 != 0) = false ∧
    (((s &&& 0xEF) ||| 0x20) &&& 0x20 != 0) = true := by
  decide

/-- `RTI` run on a state that holds an interrupt frame of `c` (after any two
reads) and the SP the entry left. -/
theorem rti_after_frame {β : Type} (c d : BaseCPU β) (a r1 r2 : Nat) (p : Bool)
    (hpc : c.PC < 65536) (hsp : c.SP < 256) (hP : c.Status < 256) (hram : c.Bus.RamLike)
    (hb : d.Bus = ((c.interruptFrame.Read r1).2.Read r2).2) (hs : d.SP = (c.SP + 253) % 256) :
    (mos6502.RTI d a p).PC = c.PC ∧ (mos6502.RTI d a p).SP = c.SP ∧
    (mos6502.RTI d a p).Status = (c.Status &&& 0xEF) ||| 0x20 := by
  obtain ⟨hS, hPC, hSP⟩ := rti_unfold d a p
  obtain ⟨v1, b1, s1⟩ := pull_spec d
  obtain ⟨v2, b2, s2⟩ := pull_spec d.Pull.2
  obtain ⟨v3, _, s3⟩ := pull_spec d.Pull.2.Pull.2
  have e1 : (d.SP + 1) % 256 = (c.SP + 254) % 256 := by rw [hs]; omega
  have e2 : (d.Pull.2.SP + 1) % 256 = (c.SP + 255) % 256 := by rw [s1, e1]; omega
  have e3 : (d.Pull.2.Pull.2.SP + 1) % 256 = c.SP := by rw [s2, e2]; omega
  have hfr := ramLike_frame_reads c.Bus hram (0x0100 + c.SP) ((c.PC >>> 8) % 256)
    (0x0100 + (c.SP + 255) % 256) (c.PC % 256) (0x0100 + (c.SP + 254) % 256) c.Status r1 r2
    (by omega) (by omega) (by omega)
  have hframe : c.interruptFrame =
      ((c.Bus.Write (0x0100 + c.SP) ((c.PC >>> 8) % 256)).Write
        (0x0100 + (c.SP + 255) % 256) (c.PC % 256)).Write (0x0100 + (c.SP + 254) % 256)
          c.Status := rfl
  rw [← hframe, ← hb] at hfr
  have w1 : d.Pull.1 = c.Status % 256 := by rw [v1, e1]; exact hfr.1
  have w2 : d.Pull.2.Pull.1 = c.PC % 256 % 256 := by rw [v2, e2, b1, e1]; exact hfr.2.1
  have w3 : d.Pull.2.Pull.2.Pull.1 = (c.PC >>> 8) % 256 % 256 := by
    rw [v3, e3, b2, e2, b1, e1]; exact hfr.2.2
  refine ⟨?_, ?_, ?_⟩
  · rw [hPC, w2, w3, shl8_or _ _ (Nat.mod_lt _ (by decide)), Nat.shiftRight_eq_div_pow]
    omega
  · rw [hSP, s3, e3]
  · rw [hS, w1]
    exact (rti_bits c.Status hP).1

/-- C39: with a RAM-like bus, interrupt entry followed by NMOS `RTI` is a round
trip.  For every 16-bit PC, byte SP and status byte P: `RTI` run on any state
that holds the bus and the SP that `HandleIRQ` (or `HandleNMI`) left restores
PC and SP and gives Status = (P and 0xEF) or 0x20, that is P with Break
cleared and Unused set, so InterruptDisable is back at its value before the
interrupt. -/
theorem C39_interrupt_rti_round_trip {β : Type} (c d : BaseCPU β) (a : Nat) (p : Bool)
    (hpc : c.PC < 65536) (hsp : c.SP < 256) (hP : c.Status < 256) (hram : c.Bus.RamLike) :
    (d.Bus = c.HandleIRQ.Bus → d.SP = c.HandleIRQ.SP →
      (mos6502.RTI d a p).PC = c.PC ∧ (mos6502.RTI d a p).SP = c.SP ∧
      (mos6502.RTI d a p).Status = (c.Status &&& 0xEF) ||| 0x20 ∧
      (mos6502.RTI d a p).GetFlag FlagInterruptDisable = c.GetFlag FlagInterruptDisable ∧
      (mos6502.RTI d a p).GetFlag FlagBreak = false ∧
      (mos6502.RTI d a p).GetFlag FlagUnused = true) ∧
    (d.Bus = c.HandleNMI.Bus → d.SP = c.HandleNMI.SP →
      (mos6502.RTI d a p).PC = c.PC ∧ (mos6502.RTI d a p).SP = c.SP ∧
      (mos6502.RTI d a p).Status = (c.Status &&& 0xEF) ||| 0x20 ∧
      (mos6502.RTI d a p).GetFlag FlagInterruptDisable = c.GetFlag FlagInterruptDisable ∧
      (mos6502.RTI d a p).GetFlag FlagBreak = false ∧
      (mos6502.RTI d a p).GetFlag FlagUnused = true) := by
  obtain ⟨⟨ib, is⟩, ⟨nb, ns⟩⟩ := interrupt_entry_bus c hsp
  obtain ⟨_, k1, k2, k3⟩ := rti_bits c.Status hP
  have fin : ∀ x : BaseCPU β, x.Status = (c.Status &&& 0xEF) ||| 0x20 →
      x.GetFlag FlagInterruptDisable = c.GetFlag FlagInterruptDisable ∧
      x.GetFlag FlagBreak = false ∧ x.GetFlag FlagUnused = true := by
    intro x hx
    unfold BaseCPU.GetFlag
    rw [hx]
    exact ⟨k1, k2, k3⟩
  constructor
  · intro hb hs
    obtain ⟨r1, r2, r3⟩ := rti_after_frame c d a 0xFFFE 0xFFFF p hpc hsp hP hram
      (hb.trans ib) (hs.trans is)
    exact ⟨r1, r2, r3, fin _ r3⟩
  · intro hb hs
    obtain ⟨r1, r2, r3⟩ := rti_after_frame c d a 0xFFFA 0xFFFB p hpc hsp hP hram
      (hb.trans nb) (hs.trans ns)
    exact ⟨r1, r2, r3, fin _ r3⟩

/-- C39 at a concrete input: an IRQ taken at PC = 0x8001 with P = 0x30 (after
CLI), then `RTI`: PC = 0x8001, SP = 0xFD and Status = 0x20 with I clear. -/
theorem C39_interrupt_rti_round_trip_witness :
    (mos6502.Step^[2] (mos6502.afterReset [0x58, 0xEA])).regs = (0x8001, 0, 0, 0, 0xFD, 0x30) ∧
    (mos6502.RTI (mos6502.Step^[2] (mos6502.afterReset [0x58, 0xEA])).HandleIRQ 0 false).regs
      = (0x8001, 0, 0, 0, 0xFD, 0x20) ∧
    (mos6502.RTI (mos6502.Step^[2] (mos6502.afterReset [0x58, 0xEA])).HandleIRQ 0 false).PC
      = (mos6502.Step^[2] (mos6502.afterReset [0x58, 0xEA])).PC :=
  ⟨by decide, by decide,
   ((C39_interrupt_rti_round_trip (mos6502.Step^[2] (mos6502.afterReset [0x58, 0xEA]))
      (mos6502.Step^[2] (mos6502.afterReset [0x58, 0xEA])).HandleIRQ 0 false
      (by decide) (by decide) (by decide) (ramLike_simpleRAM _ rfl rfl)).1 rfl rfl).1⟩

/-! ## The bit branches BBRn and BBSn -/

theorem shift_bit_test (m n : Nat) : ((m >>> n) &&& 1 == 1) = m.testBit n := by
  unfold Nat.testBit
  rw [Nat.and_comm 1, and_1]
  have h : (m >>> n) % 2 = 0 ∨ (m >>> n) % 2 = 1 := by omega
  rcases h with h | h <;> simp [h]

theorem branchOnBit_spec {β : Type} (s : BaseCPU β) (m n : Nat) (t : Bool) :
    (wdc65c02.branchOnBit s m n t).PC =
      (if m.testBit n = t then branchTarget ((s.PC + 1) % 65536) (s.Bus.Read s.PC).1
        else (s.PC + 1) % 65536) ∧
    (wdc65c02.branchOnBit s m n t).Cycles =
      (if m.testBit n = t then
        (if highByte (branchTarget ((s.PC + 1) % 65536) (s.Bus.Read s.PC).1) =
            highByte ((s.PC + 1) % 65536)
          then (s.Cycles + 1) % 256 else ((s.Cycles + 1) % 256 + 1) % 256)
        else s.Cycles) ∧
    (wdc65c02.branchOnBit s m n t).Bus =
      (if m.testBit n = t then (s.Bus.Read s.PC).2 else s.Bus) ∧
    ((wdc65c02.branchOnBit s m n t).A, (wdc65c02.branchOnBit s m n t).X,
      (wdc65c02.branchOnBit s m n t).Y, (wdc65c02.branchOnBit s m n t).SP,
      (wdc65c02.branchOnBit s m n t).Status) = (s.A, s.X, s.Y, s.SP, s.Status) := by
  have hlt := busRead_lt s.Bus s.PC
  have hs := addrRelative_spec s
  unfold wdc65c02.branchOnBit
  simp only [shift_bit_test]
  by_cases h : m.testBit n = t
  · simp only [h, beq_self_eq_true, if_true, BaseCPU.read]
    have htgt : (if (s.Bus.Read s.PC).1 < 0x80
        then ((s.PC + 1) % 65536 + (s.Bus.Read s.PC).1) % 65536
        else ((s.PC + 1) % 65536 + (s.Bus.Read s.PC).1 + 65536 - 0x100) % 65536) =
        branchTarget ((s.PC + 1) % 65536) (s.Bus.Read s.PC).1 := by
      unfold branchTarget signExtend
      split <;> omega
    rw [htgt]
    refine ⟨rfl, ?_, by trivial, by trivial⟩
    have hp := page_differs_iff ((s.PC + 1) % 65536)
      (branchTarget ((s.PC + 1) % 65536) (s.Bus.Read s.PC).1)
      (Nat.mod_lt _ (by decide)) (branchTarget_lt _ _)
    by_cases hh : highByte (branchTarget ((s.PC + 1) % 65536) (s.Bus.Read s.PC).1) =
        highByte ((s.PC + 1) % 65536)
    · have hf : (((s.PC + 1) % 65536 &&& 0xFF00) !=
          (branchTarget ((s.PC + 1) % 65536) (s.Bus.Read s.PC).1 &&& 0xFF00)) = false := by
        rw [Bool.eq_false_iff]
        intro hx
        exact (hp.1 hx) hh.symm
      rw [hf, if_pos hh]
      rfl
    · have hf : (((s.PC + 1) % 65536 &&& 0xFF00) !=
          (branchTarget ((s.PC + 1) % 65536) (s.Bus.Read s.PC).1 &&& 0xFF00)) = true :=
        hp.2 (fun e => hh e.symm)
      rw [hf, if_neg hh]
      rfl
  · have hb : (m.testBit n == t) = false := by
      rw [beq_eq_false_iff_ne]; exact h
    simp only [hb, h, if_false, Bool.false_eq_true, and_self]

theorem bit_branch_entry (n : Nat) (t : Bool) (hn8 : n < 8) :
    ∃ ins : wdc65c02.Instruction,
      wdc65c02.instructionMap ((if t then 0x8F else 0x0F) + 0x10 * n) = some ins ∧
      ins.Name = (if t then "BBS" else "BBR") ++ toString n ∧
      ins.AddrMode = some wdc65c02.AddrModeFn.addrZeroPage ∧ ins.Cycles = 5 ∧
      ∀ {β : Type} (c : BaseCPU β) (a : Nat) (p : Bool),
        ins.Operation.run c a p = wdc65c02.branchOnBit (c.read a).2 (c.read a).1 n t := by
  interval_cases n <;> cases t <;>
    exact ⟨_, rfl, by decide, rfl, rfl, fun _ _ _ => rfl⟩

theorem bit_branch_step {β : Type} (c : BaseCPU β) (n : Nat) (t : Bool) (hn8 : n < 8)
    (h0 : c.Cycles = 0) (hr : c.ResetPending = false) (hn : c.NMIPending = false)
    (hi : (c.IRQPending && !c.GetFlag FlagInterruptDisable) = false)
    (hop : (c.Bus.Read c.PC).1 = (if t then 0x8F else 0x0F) + 0x10 * n) :
    ∃ s : BaseCPU β,
      s.PC = (c.PC + 2) % 65536 ∧ s.Cycles = 0 ∧ s.Bus = wdc65c02.bitBranchBus c ∧
      (s.A, s.X, s.Y, s.SP, s.Status) = (c.A, c.X, c.Y, c.SP, c.Status) ∧
      (wdc65c02.Step c).PC = (wdc65c02.branchOnBit s (wdc65c02.bitBranchData c) n t).PC ∧
      (wdc65c02.Step c).Cycles =
        (((wdc65c02.branchOnBit s (wdc65c02.bitBranchData c) n t).Cycles + 5) % 256 + 255)
          % 256 ∧
      (wdc65c02.Step c).Bus = (wdc65c02.branchOnBit s (wdc65c02.bitBranchData c) n t).Bus ∧
      ((wdc65c02.Step c).A, (wdc65c02.Step c).X, (wdc65c02.Step c).Y, (wdc65c02.Step c).SP,
        (wdc65c02.Step c).Status) =
        ((wdc65c02.branchOnBit s (wdc65c02.bitBranchData c) n t).A,
         (wdc65c02.branchOnBit s (wdc65c02.bitBranchData c) n t).X,
         (wdc65c02.branchOnBit s (wdc65c02.bitBranchData c) n t).Y,
         (wdc65c02.branchOnBit s (wdc65c02.bitBranchData c) n t).SP,
         (wdc65c02.branchOnBit s (wdc65c02.bitBranchData c) n t).Status) := by
  obtain ⟨ins, hm, _, hmode, hcy, hrun⟩ := bit_branch_entry n t hn8
  have hop2 : wdc65c02.instructionMap (c.read c.PC).1 = some ins := by
    show wdc65c02.instructionMap (c.Bus.Read c.PC).1 = _
    rw [hop]
    exact hm
  refine ⟨((wdc65c02.fetched c).AddrZeroPage.2.read (wdc65c02.fetched c).AddrZeroPage.1.1).2,
    ?_, h0, rfl, rfl, ?_⟩
  · show ((c.PC + 1) % 65536 + 1) % 65536 = (c.PC + 2) % 65536
    omega
  · rw [wdc65c02.wdc_step_dispatch c h0 hr hn hi]
    unfold wdc65c02.dispatch
    rw [hop2]
    simp only [wdc65c02.operand, hmode, wdc65c02.AddrModeFn.run, hrun, hcy]
    exact ⟨rfl, rfl, rfl, rfl⟩

/-- C33: on the WDC65C02, for every n in 0..7, the opcode 0x0F + 0x10 n is
BBRn and 0x8F + 0x10 n is BBSn, both with base 5.  Run at address X (a 16-bit
address, so X + 3 is taken mod 65536) with zero-page operand zp, M the byte
read at zp and o the offset byte: the branch is taken exactly when bit n of M
is 0 (BBR) or 1 (BBS).  If taken, PC = (X + 3 + sign_extend(o)) mod 65536 and
the charge is 6, or 7 when the high byte of the target differs from that of
X + 3; if not taken, PC = X + 3 and the charge is 5.  A, X, Y, SP and the
status byte are unchanged and the bus sees reads only: opcode, operand, data
and, when the branch is taken, the offset. -/
theorem C33_branch_on_bit {β : Type} (c : BaseCPU β) (n : Nat) (t : Bool) (hn8 : n < 8)
    (h0 : c.Cycles = 0) (hr : c.ResetPending = false) (hn : c.NMIPending = false)
    (hi : (c.IRQPending && !c.GetFlag FlagInterruptDisable) = false)
    (hop : (c.Bus.Read c.PC).1 = (if t then 0x8F else 0x0F) + 0x10 * n) :
    (wdc65c02.instructionMap (c.Bus.Read c.PC).1).map (fun i => (i.Name, i.Cycles)) =
      some ((if t then "BBS" else "BBR") ++ toString n, 5) ∧
    (wdc65c02.Step c).PC =
      (if (wdc65c02.bitBranchData c).testBit n = t
        then branchTarget ((c.PC + 3) % 65536) (wdc65c02.bitBranchOffset c)
        else (c.PC + 3) % 65536) ∧
    wdc65c02.charged c =
      (if (wdc65c02.bitBranchData c).testBit n = t then
        (if highByte (branchTarget ((c.PC + 3) % 65536) (wdc65c02.bitBranchOffset c)) =
            highByte ((c.PC + 3) % 65536) then 6 else 7)
        else 5) ∧
    ((wdc65c02.Step c).A, (wdc65c02.Step c).X, (wdc65c02.Step c).Y, (wdc65c02.Step c).SP,
      (wdc65c02.Step c).Status) = (c.A, c.X, c.Y, c.SP, c.Status) ∧
    (wdc65c02.Step c).Bus.log =
      (if (wdc65c02.bitBranchData c).testBit n = t
        then [Access.read ((c.PC + 2) % 65536)] else []) ++
      [Access.read (wdc65c02.bitBranchOperand c), Access.read ((c.PC + 1) % 65536),
        Access.read c.PC] ++ c.Bus.log := by
  obtain ⟨ins, hm, hname, _, hcy, _⟩ := bit_branch_entry n t hn8
  obtain ⟨s, sPC, sCy, sBus, sRegs, hP, hC, hB, hR⟩ := bit_branch_step c n t hn8 h0 hr hn hi hop
  obtain ⟨bP, bC, bB, bR⟩ := branchOnBit_spec s (wdc65c02.bitBranchData c) n t
  have hpc3 : (s.PC + 1) % 65536 = (c.PC + 3) % 65536 := by rw [sPC]; omega
  have hoff : (s.Bus.Read s.PC).1 = wdc65c02.bitBranchOffset c := by
    rw [sBus, sPC]
    rfl
  rw [hpc3, hoff] at bP bC
  rw [sCy] at bC
  refine ⟨?_, ?_, ?_, ?_, ?_⟩
  · rw [hop, hm, ← hname, ← hcy]
    rfl
  · rw [hP, bP]
  · unfold wdc65c02.charged
    rw [hC, bC]
    split
    · split <;> rfl
    · rfl
  · rw [hR, bR, sRegs]
  · rw [hB, bB, sBus, sPC]
    split <;> rfl

/-- C33 at concrete inputs, at 0x8000 with the byte 0x00 at 0x10: BBR0
(`0F 10 05`) is taken to 0x8008 for 6 cycles, with offset 0xF0 it goes to page
0x7F for 7 cycles, and BBS0 (`8F 10 05`) is not taken: PC = 0x8003, 5 cycles,
registers and status unchanged. -/
theorem C33_branch_on_bit_witness :
    wdc65c02.bitBranchData (wdc65c02.afterReset [0x0F, 0x10, 0x05]) = 0 ∧
    (wdc65c02.Step (wdc65c02.afterReset [0x0F, 0x10, 0x05])).PC = 0x8008 ∧
    wdc65c02.charged (wdc65c02.afterReset [0x0F, 0x10, 0x05]) = 6 ∧
    wdc65c02.charged (wdc65c02.afterReset [0x0F, 0x10, 0xF0]) = 7 ∧
    (wdc65c02.Step (wdc65c02.afterReset [0x8F, 0x10, 0x05])).regs
      = (0x8003, 0, 0, 0, 0xFD, 0x34) ∧
    wdc65c02.charged (wdc65c02.afterReset [0x8F, 0x10, 0x05]) = 5 :=
  ⟨by decide,
   (C33_branch_on_bit (wdc65c02.afterReset [0x0F, 0x10, 0x05]) 0 false
      (by decide) (by decide) (by decide) (by decide) (by decide) (by decide)).2.1.trans
      (by decide),
   by decide, by decide, by decide, by decide⟩

end Claims
